import Mathlib

/-!
Verification development for the host-side Cardano transaction-signing
protocol engine (`src/interactions/` of the repository): the signing
ceremony orchestrator `signTransaction`, the request validator
`ensureRequestSupportedByAppVersion`, the witness-path collector
`gatherWitnessPaths` / `uniquify`, and the chunked-transfer codec
`signTx_addOutput_sendChunks`.

Modelling conventions:
* Byte buffers (`Buffer`) and hex strings (`HexString`) are both modelled
  as `List Nat` of byte values; the TS code only ever slices hex strings
  at even character positions, so the hex-character index `2*i` becomes
  the byte index `i`.
* TS generator functions (`function*` ... `yield`) are modelled by the
  `Interaction` tree below: `step` yields one message and is resumed with
  the response bytes; `Interaction.run` drives a program against a
  response oracle `Nat → Bytes`, collecting the yielded messages in order.
* Thrown exceptions become `Interaction.fail` with a `SignTxError`.
-/

/-- Byte strings (TS `Buffer`, and `HexString` after hex decoding). -/
abbrev Bytes : Type := List Nat

/-- Key-derivation path: ordered sequence of derivation indices
(TS `ValidBIP32Path`); identity is structural equality of the sequence. -/
abbrev BIP32Path : Type := List Nat

/-- `uint32_to_buf`: big-endian 4-byte encoding (utils/serialize). -/
def uint32_to_buf (n : Nat) : Bytes :=
  [n / 2 ^ 24 % 256, n / 2 ^ 16 % 256, n / 2 ^ 8 % 256, n % 256]

/-- `uint64_to_buf`: big-endian 8-byte encoding (utils/serialize). -/
def uint64_to_buf (n : Nat) : Bytes :=
  [n / 2 ^ 56 % 256, n / 2 ^ 48 % 256, n / 2 ^ 40 % 256, n / 2 ^ 32 % 256,
   n / 2 ^ 24 % 256, n / 2 ^ 16 % 256, n / 2 ^ 8 % 256, n % 256]

/-- `int64_to_buf`: two's-complement 8-byte encoding (utils/serialize). -/
def int64_to_buf (n : Int) : Bytes :=
  uint64_to_buf ((n % (2 ^ 64 : Int)).toNat)

/-- Modelled from the spec: `INS.SIGN_TX` (interactions/common/ins.ts is not
under src/) — the instruction code constant for the whole ceremony. -/
def INS_SIGN_TX : Nat := 0x21

/-- One framed message sent to the device (TS `SendParams` built by the
local `send` helper).  `expectedResponseLength = none` models the TS call
sites that omit the optional field altogether. -/
structure SendParams where
  ins : Nat
  p1 : Nat
  p2 : Nat
  data : Bytes
  expectedResponseLength : Option Nat
  deriving DecidableEq, Repr

/-- The local `send` helper: fixes `ins := INS.SIGN_TX`. -/
def send (p1 p2 : Nat) (data : Bytes) (expectedResponseLength : Option Nat) :
    SendParams :=
  { ins := INS_SIGN_TX, p1, p2, data, expectedResponseLength }

/-- Errors thrown by the engine before or during the ceremony. -/
inductive SignTxError where
  /-- Thrown by `ensureLedgerAppVersionCompatible` (getVersion.ts, not under
  src/): firmware version below the minimum supported. -/
  | versionIncompatible (versionString : String)
  /-- `DeviceVersionUnsupported` thrown by the request validator: carries
  the feature name and the version string. -/
  | deviceVersionUnsupported (feature : String) (versionString : String)
  /-- Host-side precondition violation (`InvalidData` / plain `Error`),
  e.g. `throw Error('wrong CIP36 registration params')`. -/
  | malformedRequest (message : String)
  /-- `assert` failure from utils/assert (internal invariant violation). -/
  | assertionFailed (message : String)
  deriving DecidableEq, Repr

/-- Shallow embedding of a TS generator (`Interaction<α>`): it either
finishes with a value, throws, or yields one message and continues with
the response bytes supplied by the driver. -/
inductive Interaction (α : Type) where
  | done (a : α)
  | fail (e : SignTxError)
  | step (m : SendParams) (k : Bytes → Interaction α)

namespace Interaction

/-- Sequencing of generators (`yield*` delegation / statement order). -/
def bind {α β : Type} : Interaction α → (α → Interaction β) → Interaction β
  | .done a, f => f a
  | .fail e, _ => .fail e
  | .step m k, f => .step m (fun b => (k b).bind f)

/-- Drive a program against a response oracle `ρ` (the transport):
`ρ i` is the response to the `i`-th yielded message.  Returns the ordered
list of yielded messages and the final outcome. -/
def run {α : Type} : Interaction α → (Nat → Bytes) → List SendParams × Except SignTxError α
  | .done a, _ => ([], .ok a)
  | .fail e, _ => ([], .error e)
  | .step m k, ρ =>
    let r := (k (ρ 0)).run (fun n => ρ (n + 1))
    (m :: r.1, r.2)

end Interaction

/-- A generator that yields the given messages in order, ignoring all
responses, and returns `()` (the shape of every `signTx_*` stage builder
that never reads a `yield` result). -/
def yieldsI : List SendParams → Interaction Unit
  | [] => .done ()
  | m :: rest => .step m (fun _ => yieldsI rest)

/-- A `for`-loop over a list of transaction elements, delegating to a
per-element generator (`for (const x of xs) { yield* g(x) }`). -/
def forEachI {α : Type} (xs : List α) (g : α → Interaction Unit) : Interaction Unit :=
  match xs with
  | [] => .done ()
  | x :: rest => (g x).bind (fun _ => forEachI rest g)

/-- A `for`-loop that collects each element's result in order
(the witnesses loop of `signTransaction`). -/
def mapI {α β : Type} (xs : List α) (g : α → Interaction β) : Interaction (List β) :=
  match xs with
  | [] => .done []
  | x :: rest => (g x).bind (fun b => (mapI rest g).bind (fun bs => .done (b :: bs)))

/-- Advance a response oracle past the first `k` responses. -/
def shiftOracle (ρ : Nat → Bytes) (k : Nat) : Nat → Bytes :=
  fun n => ρ (n + k)

/-- The capability flags consulted by this engine (TS `getCompatibility`
results; types in getVersion.ts, not under src/). -/
structure Compatibility where
  supportsPoolRegistrationAsOperator : Bool
  supportsMultisigTransaction : Bool
  supportsAlonzo : Bool
  supportsBabbage : Bool
  supportsZeroTtl : Bool
  supportsPoolRetirement : Bool
  supportsMint : Bool
  supportsMary : Bool
  supportsReqSignersInOrdinaryTx : Bool
  supportsCatalystRegistration : Bool
  supportsCIP36 : Bool
  supportsCIP36Vote : Bool
  deriving DecidableEq, Repr

/-- Modelled from the spec: the signing code consumes the firmware version
only through `getCompatibility version` (the capability matrix),
`getVersionString version` and `ensureLedgerAppVersionCompatible version`
(getVersion.ts / utils.ts, not under src/); a version is therefore
represented by these three observations: its capability flags, its display
string, and whether it passes the minimum-version guard. -/
structure Version where
  versionString : String
  compatible : Bool
  compat : Compatibility
  deriving DecidableEq, Repr

/-- TS `TransactionSigningMode` (types/public.ts, not under src/; the spec
lists the closed variant: ordinary, multisig, pool-registration-as-operator,
script(Plutus)-enabled, plus pool-registration-as-owner used by fixtures). -/
inductive TransactionSigningMode where
  | ORDINARY_TRANSACTION
  | POOL_REGISTRATION_AS_OWNER
  | POOL_REGISTRATION_AS_OPERATOR
  | MULTISIG_TRANSACTION
  | PLUTUS_TRANSACTION
  deriving DecidableEq, BEq, Repr

/-- TS `StakeCredentialType`. -/
inductive StakeCredentialType where
  | KEY_PATH
  | KEY_HASH
  | SCRIPT_HASH
  deriving DecidableEq, BEq, Repr

/-- TS `ParsedStakeCredential` (tagged union). -/
inductive StakeCredential where
  | keyPath (path : BIP32Path)
  | keyHash (keyHashHex : Bytes)
  | scriptHash (scriptHashHex : Bytes)
  deriving DecidableEq, Repr

/-- The tag of a stake credential (TS `.type` field). -/
def StakeCredential.credType : StakeCredential → StakeCredentialType
  | .keyPath _ => .KEY_PATH
  | .keyHash _ => .KEY_HASH
  | .scriptHash _ => .SCRIPT_HASH

/-- TS `AddressType` (types/public.ts, not under src/). -/
inductive AddressType where
  | BASE_PAYMENT_KEY_STAKE_KEY
  | BASE_PAYMENT_KEY_STAKE_SCRIPT
  | BASE_PAYMENT_SCRIPT_STAKE_KEY
  | BASE_PAYMENT_SCRIPT_STAKE_SCRIPT
  | POINTER_KEY
  | POINTER_SCRIPT
  | ENTERPRISE_KEY
  | ENTERPRISE_SCRIPT
  | BYRON
  | REWARD_KEY
  | REWARD_SCRIPT
  deriving DecidableEq, BEq, Repr

/-- Device-owned address parameters; only the address type is inspected by
this engine, the rest is consumed opaquely by the serialization library. -/
structure ParsedAddressParams where
  addressType : AddressType
  paramsData : Bytes
  deriving DecidableEq, Repr

/-- TS `ParsedOutputDestination`: third-party address bytes or
device-owned address parameters. -/
inductive OutputDestination where
  | thirdParty (addressHex : Bytes)
  | deviceOwned (addressParams : ParsedAddressParams)
  deriving DecidableEq, Repr

/-- Whether a destination is device-owned
(TS `destination.type === TxOutputDestinationType.DEVICE_OWNED`). -/
def OutputDestination.isDeviceOwned : OutputDestination → Bool
  | .thirdParty _ => false
  | .deviceOwned _ => true

/-- TS `ParsedInput`: previous tx hash, output index, optional ownership
path. -/
structure ParsedInput where
  txHashHex : Bytes
  outputIndex : Nat
  path : Option BIP32Path
  deriving DecidableEq, Repr

/-- TS `ParsedToken<T>`. -/
structure ParsedToken (T : Type) where
  assetNameHex : Bytes
  amount : T
  deriving DecidableEq, Repr

/-- TS `ParsedAssetGroup<T>`. -/
structure ParsedAssetGroup (T : Type) where
  policyIdHex : Bytes
  tokens : List (ParsedToken T)
  deriving DecidableEq, Repr

/-- TS `TxOutputFormat`. -/
inductive TxOutputFormat where
  | ARRAY_LEGACY
  | MAP_BABBAGE
  deriving DecidableEq, BEq, Repr

/-- TS `ParsedDatum` (`DatumType.HASH` or `DatumType.INLINE`). -/
inductive ParsedDatum where
  | hash (datumHashHex : Bytes)
  | inline (datumHex : Bytes)
  deriving DecidableEq, Repr

/-- TS `ParsedOutput`. -/
structure ParsedOutput where
  format : TxOutputFormat
  destination : OutputDestination
  amount : Nat
  tokenBundle : List (ParsedAssetGroup Nat)
  datum : Option ParsedDatum
  referenceScriptHex : Option Bytes
  deriving DecidableEq, Repr

/-- TS `ParsedPoolKey`: device-owned path or third-party key hash. -/
inductive ParsedPoolKey where
  | deviceOwned (path : BIP32Path)
  | thirdParty (hashHex : Bytes)
  deriving DecidableEq, Repr

/-- TS `ParsedPoolOwner` (`PoolOwnerType.DEVICE_OWNED` or third-party). -/
inductive ParsedPoolOwner where
  | deviceOwned (path : BIP32Path)
  | thirdParty (hashHex : Bytes)
  deriving DecidableEq, Repr

/-- TS `ParsedPoolRewardAccount`; consumed opaquely by the serializer. -/
inductive ParsedPoolRewardAccount where
  | deviceOwned (path : BIP32Path)
  | thirdParty (rewardAccountHex : Bytes)
  deriving DecidableEq, Repr

/-- TS `ParsedPoolRelay`; consumed opaquely by the serializer. -/
structure ParsedPoolRelay where
  relayData : Bytes
  deriving DecidableEq, Repr

/-- TS `ParsedPoolMetadata` (nullable); consumed opaquely. -/
structure ParsedPoolMetadata where
  metadataData : Bytes
  deriving DecidableEq, Repr

/-- TS `ParsedPoolParams`. -/
structure ParsedPoolParams where
  poolKey : ParsedPoolKey
  vrfHashHex : Bytes
  pledge : Nat
  cost : Nat
  marginNumerator : Nat
  marginDenominator : Nat
  rewardAccount : ParsedPoolRewardAccount
  owners : List ParsedPoolOwner
  relays : List ParsedPoolRelay
  metadata : Option ParsedPoolMetadata
  deriving DecidableEq, Repr

/-- TS `ParsedCertificate` (closed variant per `CertificateType`). -/
inductive ParsedCertificate where
  | stakeRegistration (stakeCredential : StakeCredential)
  | stakeDeregistration (stakeCredential : StakeCredential)
  | stakeDelegation (stakeCredential : StakeCredential) (poolKeyHashHex : Bytes)
  | stakePoolRegistration (pool : ParsedPoolParams)
  | stakePoolRetirement (path : BIP32Path) (retirementEpoch : Nat)
  deriving DecidableEq, Repr

/-- TS `ParsedWithdrawal`. -/
structure ParsedWithdrawal where
  stakeCredential : StakeCredential
  amount : Nat
  deriving DecidableEq, Repr

/-- TS `ParsedRequiredSigner` (`RequiredSignerType.PATH` or `.HASH`). -/
inductive ParsedRequiredSigner where
  | path (path : BIP32Path)
  | hash (hashHex : Bytes)
  deriving DecidableEq, Repr

/-- TS `CIP36VoteRegistrationFormat`. -/
inductive CIP36VoteRegistrationFormat where
  | CIP_15
  | CIP_36
  deriving DecidableEq, BEq, Repr

/-- TS `ParsedCVoteDelegation`; consumed opaquely by the serializer. -/
structure ParsedCVoteDelegation where
  voteKeyData : Bytes
  weight : Nat
  deriving DecidableEq, Repr

/-- TS `ParsedCVoteRegistrationParams`. -/
structure ParsedCVoteRegistrationParams where
  format : CIP36VoteRegistrationFormat
  votePublicKey : Option Bytes
  votePublicKeyPath : Option BIP32Path
  delegations : Option (List ParsedCVoteDelegation)
  stakingPath : BIP32Path
  paymentDestination : OutputDestination
  nonce : Nat
  votingPurpose : Option Nat
  deriving DecidableEq, Repr

/-- TS `ParsedTxAuxiliaryData` (`ARBITRARY_HASH` or `CIP36_REGISTRATION`). -/
inductive ParsedTxAuxiliaryData where
  | arbitraryHash (hashHex : Bytes)
  | cip36Registration (params : ParsedCVoteRegistrationParams)
  deriving DecidableEq, Repr

/-- TS `ParsedTransaction`. -/
structure ParsedTransaction where
  inputs : List ParsedInput
  outputs : List ParsedOutput
  fee : Nat
  ttl : Option Nat
  certificates : List ParsedCertificate
  withdrawals : List ParsedWithdrawal
  mint : Option (List (ParsedAssetGroup Int))
  scriptDataHashHex : Option Bytes
  collateralInputs : List ParsedInput
  collateralOutput : Option ParsedOutput
  totalCollateral : Option Nat
  referenceInputs : List ParsedInput
  requiredSigners : List ParsedRequiredSigner
  includeNetworkId : Bool
  auxiliaryData : Option ParsedTxAuxiliaryData
  validityIntervalStart : Option Nat
  deriving DecidableEq, Repr

/-- TS `ParsedSigningRequest`. -/
structure ParsedSigningRequest where
  tx : ParsedTransaction
  signingMode : TransactionSigningMode
  additionalWitnessPaths : List BIP32Path
  deriving DecidableEq, Repr

/-- A signed witness: path and 64-byte device signature. -/
structure TxWitness where
  path : BIP32Path
  witnessSignatureHex : Bytes
  deriving DecidableEq, Repr

/-- CIP36 auxiliary-data supplement returned by the aux-data confirm
response (hash first, then signature). -/
structure TxAuxiliaryDataSupplement where
  auxiliaryDataHashHex : Bytes
  cip36VoteRegistrationSignatureHex : Bytes
  deriving DecidableEq, Repr

/-- TS `SignedTransactionData`. -/
structure SignedTransactionData where
  txHashHex : Bytes
  witnesses : List TxWitness
  auxiliaryDataSupplement : Option TxAuxiliaryDataSupplement
  deriving DecidableEq, Repr

/-- TS `TX_HASH_LENGTH` (types/internal.ts, not under src/): the
transaction hash has a fixed width of 32 bytes. -/
def TX_HASH_LENGTH : Nat := 32

/-- TS `AUXILIARY_DATA_HASH_LENGTH` (types/internal.ts, not under src/):
fixed width of 32 bytes. -/
def AUXILIARY_DATA_HASH_LENGTH : Nat := 32

/-- TS `ED25519_SIGNATURE_LENGTH` = 64 (the spec: ed25519-style witness
signature, 64 bytes). -/
def ED25519_SIGNATURE_LENGTH : Nat := 64

/-- Modelled from the spec: `MAX_CHUNK_SIZE` (serialization/txOutput.ts,
not under src/) — the fixed maximum chunk size in bytes, shared by datum
and reference-script chunking (spec §4.4, §6). -/
def MAX_CHUNK_SIZE : Nat := 240

/-- `P1` stage tags of the `SIGN_TX` instruction (source `const enum P1`). -/
def P1_STAGE_INIT : Nat := 0x01
/-- Stage tag `STAGE_AUX_DATA`. -/
def P1_STAGE_AUX_DATA : Nat := 0x08
/-- Stage tag `STAGE_INPUTS`. -/
def P1_STAGE_INPUTS : Nat := 0x02
/-- Stage tag `STAGE_OUTPUTS`. -/
def P1_STAGE_OUTPUTS : Nat := 0x03
/-- Stage tag `STAGE_FEE`. -/
def P1_STAGE_FEE : Nat := 0x04
/-- Stage tag `STAGE_TTL`. -/
def P1_STAGE_TTL : Nat := 0x05
/-- Stage tag `STAGE_CERTIFICATES`. -/
def P1_STAGE_CERTIFICATES : Nat := 0x06
/-- Stage tag `STAGE_WITHDRAWALS`. -/
def P1_STAGE_WITHDRAWALS : Nat := 0x07
/-- Stage tag `STAGE_VALIDITY_INTERVAL_START`. -/
def P1_STAGE_VALIDITY_INTERVAL_START : Nat := 0x09
/-- Stage tag `STAGE_MINT`. -/
def P1_STAGE_MINT : Nat := 0x0b
/-- Stage tag `STAGE_SCRIPT_DATA_HASH`. -/
def P1_STAGE_SCRIPT_DATA_HASH : Nat := 0x0c
/-- Stage tag `STAGE_COLLATERAL_INPUTS`. -/
def P1_STAGE_COLLATERAL_INPUTS : Nat := 0x0d
/-- Stage tag `STAGE_REQUIRED_SIGNERS`. -/
def P1_STAGE_REQUIRED_SIGNERS : Nat := 0x0e
/-- Stage tag `STAGE_COLLATERAL_OUTPUT`. -/
def P1_STAGE_COLLATERAL_OUTPUT : Nat := 0x12
/-- Stage tag `STAGE_TOTAL_COLLATERAL`. -/
def P1_STAGE_TOTAL_COLLATERAL : Nat := 0x10
/-- Stage tag `STAGE_REFERENCE_INPUTS`. -/
def P1_STAGE_REFERENCE_INPUTS : Nat := 0x11
/-- Stage tag `STAGE_CONFIRM`. -/
def P1_STAGE_CONFIRM : Nat := 0x0a
/-- Stage tag `STAGE_WITNESSES`. -/
def P1_STAGE_WITNESSES : Nat := 0x0f

/-- Modelled from the spec: an encoding of a derivation path used by the
serializer models below (field-level encoders live in serialization/, not
under src/; they are the external pure Serialization Library of spec §2,
consumed but not specified — only totality and purity matter here). -/
def encodePath (p : BIP32Path) : Bytes :=
  uint32_to_buf p.length ++ p.flatMap uint32_to_buf

/-- Modelled from the spec: `serializeTxInit` (external serializer). -/
def serializeTxInit (tx : ParsedTransaction) (_signingMode : TransactionSigningMode)
    (numWitnesses : Nat) (_version : Version) : Bytes :=
  uint32_to_buf tx.inputs.length ++ uint32_to_buf tx.outputs.length ++
    uint32_to_buf tx.certificates.length ++ uint32_to_buf tx.withdrawals.length ++
    uint32_to_buf numWitnesses

/-- Modelled from the spec: `serializeTxInput` (external serializer). -/
def serializeTxInput (input : ParsedInput) : Bytes :=
  input.txHashHex ++ uint32_to_buf input.outputIndex

/-- Modelled from the spec: `serializeTxFee` (external serializer). -/
def serializeTxFee (fee : Nat) : Bytes := uint64_to_buf fee

/-- Modelled from the spec: `serializeTxTtl` (external serializer). -/
def serializeTxTtl (ttl : Nat) : Bytes := uint64_to_buf ttl

/-- Modelled from the spec: stake-credential encoding shared by the
certificate and withdrawal serializers (external). -/
def serializeStakeCredential : StakeCredential → Bytes
  | .keyPath p => 0x00 :: encodePath p
  | .keyHash h => 0x01 :: h
  | .scriptHash h => 0x02 :: h

/-- Modelled from the spec: `serializeTxWithdrawal` (external serializer). -/
def serializeTxWithdrawal (withdrawal : ParsedWithdrawal) (_version : Version) : Bytes :=
  uint64_to_buf withdrawal.amount ++ serializeStakeCredential withdrawal.stakeCredential

/-- Modelled from the spec: `serializeTxCertificate` (external serializer). -/
def serializeTxCertificate (certificate : ParsedCertificate) (_version : Version) : Bytes :=
  match certificate with
  | .stakeRegistration cred => 0x00 :: serializeStakeCredential cred
  | .stakeDeregistration cred => 0x01 :: serializeStakeCredential cred
  | .stakeDelegation cred poolKeyHashHex =>
    0x02 :: (serializeStakeCredential cred ++ poolKeyHashHex)
  | .stakePoolRegistration _ => [0x03]
  | .stakePoolRetirement p epoch => 0x04 :: (encodePath p ++ uint64_to_buf epoch)

/-- Modelled from the spec: `serializeAssetGroup` (external serializer). -/
def serializeAssetGroup {T : Type} (assetGroup : ParsedAssetGroup T) : Bytes :=
  assetGroup.policyIdHex ++ uint32_to_buf assetGroup.tokens.length

/-- `serializeToken(token, serializeTokenAmountFn)` (external serializer,
generic in the amount encoding exactly as in the source). -/
def serializeToken {T : Type} (token : ParsedToken T) (serializeTokenAmountFn : T → Bytes) :
    Bytes :=
  uint32_to_buf token.assetNameHex.length ++ token.assetNameHex ++
    serializeTokenAmountFn token.amount

/-- Modelled from the spec: `serializeMintBasicParams` (external serializer). -/
def serializeMintBasicParams (mint : List (ParsedAssetGroup Int)) : Bytes :=
  uint32_to_buf mint.length

/-- Modelled from the spec: `serializeRequiredSigner` (external serializer). -/
def serializeRequiredSigner (requiredSigner : ParsedRequiredSigner) : Bytes :=
  match requiredSigner with
  | .path p => 0x00 :: encodePath p
  | .hash h => 0x01 :: h

/-- Modelled from the spec: `serializeTotalCollateral` (external serializer). -/
def serializeTotalCollateral (totalCollateral : Nat) : Bytes :=
  uint64_to_buf totalCollateral

/-- Modelled from the spec: `serializeTxValidityStart` (external serializer). -/
def serializeTxValidityStart (validityIntervalStart : Nat) : Bytes :=
  uint64_to_buf validityIntervalStart

/-- Modelled from the spec: `serializeTxWitnessRequest` (external serializer). -/
def serializeTxWitnessRequest (path : BIP32Path) : Bytes := encodePath path

/-- Modelled from the spec: `serializeTxOutputBasicParams` (external
serializer). -/
def serializeTxOutputBasicParams (output : ParsedOutput) (_version : Version) : Bytes :=
  (match output.format with | .ARRAY_LEGACY => [0x00] | .MAP_BABBAGE => [0x01]) ++
    (match output.destination with
     | .thirdParty addr => 0x01 :: addr
     | .deviceOwned params => 0x02 :: params.paramsData) ++
    uint64_to_buf output.amount

/-- Modelled from the spec: `serializeTxOutputDatum` (external serializer):
per §4.4 the initiating message embeds the first `MAX_CHUNK_SIZE` bytes
(2·C hex characters) of an inline datum. -/
def serializeTxOutputDatum (datum : ParsedDatum) (_version : Version) : Bytes :=
  match datum with
  | .hash h => 0x00 :: h
  | .inline datumHex =>
    0x01 :: (uint32_to_buf datumHex.length ++ datumHex.take MAX_CHUNK_SIZE)

/-- Modelled from the spec: `serializeTxOutputRefScript` (external
serializer): per §4.4 the initiating message embeds the first
`MAX_CHUNK_SIZE` bytes of the reference script. -/
def serializeTxOutputRefScript (referenceScriptHex : Bytes) : Bytes :=
  uint32_to_buf referenceScriptHex.length ++ referenceScriptHex.take MAX_CHUNK_SIZE

/-- Modelled from the spec: `serializePoolInitialParams` (external). -/
def serializePoolInitialParams (pool : ParsedPoolParams) : Bytes :=
  uint32_to_buf pool.owners.length ++ uint32_to_buf pool.relays.length

/-- Modelled from the spec: `serializePoolInitialParamsLegacy` (external). -/
def serializePoolInitialParamsLegacy (pool : ParsedPoolParams) : Bytes :=
  pool.vrfHashHex ++ uint64_to_buf pool.pledge ++ uint64_to_buf pool.cost ++
    uint32_to_buf pool.owners.length ++ uint32_to_buf pool.relays.length

/-- Modelled from the spec: `serializePoolKey` (external). -/
def serializePoolKey (poolKey : ParsedPoolKey) : Bytes :=
  match poolKey with
  | .deviceOwned p => 0x01 :: encodePath p
  | .thirdParty h => 0x02 :: h

/-- Modelled from the spec: `serializeFinancials` (external). -/
def serializeFinancials (pool : ParsedPoolParams) : Bytes :=
  uint64_to_buf pool.pledge ++ uint64_to_buf pool.cost ++
    uint64_to_buf pool.marginNumerator ++ uint64_to_buf pool.marginDenominator

/-- Modelled from the spec: `serializePoolRewardAccount` (external). -/
def serializePoolRewardAccount (rewardAccount : ParsedPoolRewardAccount) : Bytes :=
  match rewardAccount with
  | .deviceOwned p => 0x01 :: encodePath p
  | .thirdParty h => 0x02 :: h

/-- Modelled from the spec: `serializePoolOwner` (external). -/
def serializePoolOwner (owner : ParsedPoolOwner) : Bytes :=
  match owner with
  | .deviceOwned p => 0x01 :: encodePath p
  | .thirdParty h => 0x02 :: h

/-- Modelled from the spec: `serializePoolRelay` (external). -/
def serializePoolRelay (relay : ParsedPoolRelay) : Bytes := relay.relayData

/-- Modelled from the spec: `serializePoolMetadata` (external; handles the
nullable metadata). -/
def serializePoolMetadata (metadata : Option ParsedPoolMetadata) : Bytes :=
  match metadata with
  | none => [0x00]
  | some md => 0x01 :: md.metadataData

/-- Modelled from the spec: `serializeTxAuxiliaryData` (external). -/
def serializeTxAuxiliaryData (auxiliaryData : ParsedTxAuxiliaryData) : Bytes :=
  match auxiliaryData with
  | .arbitraryHash h => 0x00 :: h
  | .cip36Registration _ => [0x01]

/-- Modelled from the spec: `serializeCVoteRegistrationInit` (external). -/
def serializeCVoteRegistrationInit (params : ParsedCVoteRegistrationParams) : Bytes :=
  (match params.format with | .CIP_15 => [0x01] | .CIP_36 => [0x02]) ++
    uint32_to_buf ((params.delegations.getD []).length)

/-- Modelled from the spec: `serializeCVoteRegistrationVoteKey` (external). -/
def serializeCVoteRegistrationVoteKey (votePublicKey : Option Bytes)
    (votePublicKeyPath : Option BIP32Path) (_version : Version) : Bytes :=
  match votePublicKey, votePublicKeyPath with
  | some key, _ => 0x01 :: key
  | none, some p => 0x02 :: encodePath p
  | none, none => [0x00]

/-- Modelled from the spec: `serializeCVoteRegistrationDelegation`
(external). -/
def serializeCVoteRegistrationDelegation (delegation : ParsedCVoteDelegation) : Bytes :=
  delegation.voteKeyData ++ uint32_to_buf delegation.weight

/-- Modelled from the spec: `serializeCVoteRegistrationStakingPath`
(external). -/
def serializeCVoteRegistrationStakingPath (stakingPath : BIP32Path) : Bytes :=
  encodePath stakingPath

/-- Modelled from the spec: `serializeCVoteRegistrationPaymentDestination`
(external). -/
def serializeCVoteRegistrationPaymentDestination
    (paymentDestination : OutputDestination) (_version : Version) : Bytes :=
  match paymentDestination with
  | .thirdParty addr => 0x01 :: addr
  | .deviceOwned params => 0x02 :: params.paramsData

/-- Modelled from the spec: `serializeCVoteRegistrationNonce` (external). -/
def serializeCVoteRegistrationNonce (nonce : Nat) : Bytes := uint64_to_buf nonce

/-- Modelled from the spec: `serializeCVoteRegistrationVotingPurpose`
(external; handles the optional voting purpose). -/
def serializeCVoteRegistrationVotingPurpose (votingPurpose : Option Nat) : Bytes :=
  match votingPurpose with
  | none => [0x00]
  | some vp => 0x01 :: uint64_to_buf vp

/-- The continuation-chunk messages of `signTx_addOutput_sendChunks`,
starting at byte offset `start` (the TS `while` loop; the source works on
hex characters with offsets `2*start` and limit `2*chunkSize`): each chunk
message carries a 4-byte length prefix followed by the raw chunk bytes,
uses the `OUTPUTS` stage tag with the given chunk sub-tag, and expects a
zero-length response.  For `chunkSize = 0` the source loop would not
terminate; the actual constant is positive. -/
def sendChunksFrom (chunkSize : Nat) (hexBytes : Bytes) (p2 : Nat) (start : Nat) :
    List SendParams :=
  if _h : start < hexBytes.length ∧ 0 < chunkSize then
    send P1_STAGE_OUTPUTS p2
        (uint32_to_buf ((hexBytes.drop start).take chunkSize).length ++
          (hexBytes.drop start).take chunkSize) (some 0) ::
      sendChunksFrom chunkSize hexBytes p2 (start + chunkSize)
  else []
termination_by hexBytes.length - start
decreasing_by omega

/-- `signTx_addOutput_sendChunks`, parametric in the chunk size: the first
chunk was already embedded in the preceding message, so chunking starts at
byte offset `chunkSize`. -/
def sendChunksMsgs (chunkSize : Nat) (hexBytes : Bytes) (p2 : Nat) : List SendParams :=
  sendChunksFrom chunkSize hexBytes p2 chunkSize

/-- Source `signTx_addOutput_sendChunks` at the fixed `MAX_CHUNK_SIZE`. -/
def signTx_addOutput_sendChunks (hexBytes : Bytes) (p2 : Nat) : List SendParams :=
  sendChunksMsgs MAX_CHUNK_SIZE hexBytes p2

/-- The payload bytes of a chunk message with the 4-byte length prefix
stripped. -/
def chunkPayload (m : SendParams) : Bytes := m.data.drop 4

/-- Source `uniquify` worker: the TS version inserts each path into a
record keyed by `JSON.stringify(path)` and returns the values in key
insertion order, i.e. it keeps the first occurrence of each distinct path
(the spec pins this first-occurrence order as normative, §9). -/
def uniquifyAux (seen : List BIP32Path) : List BIP32Path → List BIP32Path
  | [] => []
  | p :: rest =>
    if p ∈ seen then uniquifyAux seen rest else p :: uniquifyAux (p :: seen) rest

/-- Source `uniquify`: first-occurrence deduplication by structural
equality of the full path sequence. -/
def uniquify (witnessPaths : List BIP32Path) : List BIP32Path :=
  uniquifyAux [] witnessPaths

/-- The witness paths contributed by one certificate
(the `switch` in `gatherWitnessPaths`): delegation/deregistration key-path
credentials, pool-registration device-owned owners then a device-owned pool
key, pool-retirement path; nothing for other certificate kinds. -/
def certificateWitnessPaths (cert : ParsedCertificate) : List BIP32Path :=
  match cert with
  | .stakeDelegation cred _ =>
    (match cred with | .keyPath p => [p] | _ => [])
  | .stakeDeregistration cred =>
    (match cred with | .keyPath p => [p] | _ => [])
  | .stakePoolRegistration pool =>
    pool.owners.filterMap (fun owner =>
      match owner with | .deviceOwned p => some p | .thirdParty _ => none) ++
    (match pool.poolKey with | .deviceOwned p => [p] | .thirdParty _ => [])
  | .stakePoolRetirement p _ => [p]
  | .stakeRegistration _ => []

/-- Source `gatherWitnessPaths`: for multisig mode the structural walk is
skipped and only `additionalWitnessPaths` contributes; otherwise input
paths, certificate paths, withdrawal key-path credentials, path-typed
required signers and collateral-input paths are collected in that order;
`additionalWitnessPaths` is appended and the result deduplicated. -/
def gatherWitnessPaths (request : ParsedSigningRequest) : List BIP32Path :=
  uniquify
    ((if request.signingMode = TransactionSigningMode.MULTISIG_TRANSACTION then []
      else
        request.tx.inputs.filterMap (fun input => input.path) ++
        request.tx.certificates.flatMap certificateWitnessPaths ++
        request.tx.withdrawals.filterMap (fun withdrawal =>
          match withdrawal.stakeCredential with
          | .keyPath p => some p
          | _ => none) ++
        request.tx.requiredSigners.filterMap (fun signer =>
          match signer with
          | .path p => some p
          | .hash _ => none) ++
        request.tx.collateralInputs.filterMap (fun collateral => collateral.path)) ++
      request.additionalWitnessPaths)

/-- Source `hasStakeCredentialInCertificates`. -/
def hasStakeCredentialInCertificates (tx : ParsedTransaction)
    (stakeCredentialType : StakeCredentialType) : Bool :=
  tx.certificates.any (fun c =>
    match c with
    | .stakeDelegation cred _ => cred.credType == stakeCredentialType
    | .stakeDeregistration cred => cred.credType == stakeCredentialType
    | .stakeRegistration cred => cred.credType == stakeCredentialType
    | _ => false)

/-- Source `hasStakeCredentialInWithdrawals`. -/
def hasStakeCredentialInWithdrawals (tx : ParsedTransaction)
    (stakeCredentialType : StakeCredentialType) : Bool :=
  tx.withdrawals.any (fun w => w.stakeCredential.credType == stakeCredentialType)

/-- The script-hash-bearing address types listed in
`hasScriptHashInAddressParams`. -/
def scriptAddressTypes : List AddressType :=
  [.BASE_PAYMENT_KEY_STAKE_SCRIPT, .BASE_PAYMENT_SCRIPT_STAKE_KEY,
   .BASE_PAYMENT_SCRIPT_STAKE_SCRIPT, .ENTERPRISE_SCRIPT, .POINTER_SCRIPT,
   .REWARD_SCRIPT]

/-- Source `hasScriptHashInAddressParams`. -/
def hasScriptHashInAddressParams (tx : ParsedTransaction) : Bool :=
  tx.outputs.any (fun o =>
    match o.destination with
    | .deviceOwned params => scriptAddressTypes.contains params.addressType
    | .thirdParty _ => false)

/-- A `DeviceVersionUnsupported` error: the thrown message is
`feature ++ " not supported by Ledger app version " ++ versionString ++ "."`. -/
structure UnsupportedErr where
  feature : String
  versionString : String
  deriving DecidableEq, Repr

/-- Condition of the validator's pool-registration-as-operator check. -/
def vcPoolRegOperator (v : Version) (r : ParsedSigningRequest) : Bool :=
  r.signingMode == .POOL_REGISTRATION_AS_OPERATOR &&
    !v.compat.supportsPoolRegistrationAsOperator

/-- Condition of the multisig signing-mode check. -/
def vcMultisigMode (v : Version) (r : ParsedSigningRequest) : Bool :=
  r.signingMode == .MULTISIG_TRANSACTION && !v.compat.supportsMultisigTransaction

/-- Condition of the Plutus signing-mode check. -/
def vcPlutusMode (v : Version) (r : ParsedSigningRequest) : Bool :=
  r.signingMode == .PLUTUS_TRANSACTION && !v.compat.supportsAlonzo

/-- Condition of the script-hash-in-address-parameters check. -/
def vcScriptAddrParams (v : Version) (r : ParsedSigningRequest) : Bool :=
  hasScriptHashInAddressParams r.tx && !v.compat.supportsMultisigTransaction

/-- Condition of the datum-in-output check. -/
def vcDatum (v : Version) (r : ParsedSigningRequest) : Bool :=
  r.tx.outputs.any (fun o => o.datum.isSome) && !v.compat.supportsAlonzo

/-- Condition of the map-format-output check. -/
def vcMapFormat (v : Version) (r : ParsedSigningRequest) : Bool :=
  r.tx.outputs.any (fun o => o.format == .MAP_BABBAGE) && !v.compat.supportsBabbage

/-- Condition of the zero-TTL check (`request.tx?.ttl === '0'`). -/
def vcZeroTtl (v : Version) (r : ParsedSigningRequest) : Bool :=
  r.tx.ttl == some 0 && !v.compat.supportsZeroTtl

/-- Condition of the script-hash-in-withdrawal check. -/
def vcWithdrawalScript (v : Version) (r : ParsedSigningRequest) : Bool :=
  hasStakeCredentialInWithdrawals r.tx .SCRIPT_HASH &&
    !v.compat.supportsMultisigTransaction

/-- Condition of the key-hash-in-withdrawal check. -/
def vcWithdrawalKeyHash (v : Version) (r : ParsedSigningRequest) : Bool :=
  hasStakeCredentialInWithdrawals r.tx .KEY_HASH && !v.compat.supportsAlonzo

/-- Condition of the pool-retirement-certificate check. -/
def vcPoolRetirement (v : Version) (r : ParsedSigningRequest) : Bool :=
  r.tx.certificates.any (fun c =>
    match c with | .stakePoolRetirement _ _ => true | _ => false) &&
    !v.compat.supportsPoolRetirement

/-- Condition of the script-hash-in-certificate-credential check. -/
def vcCertScript (v : Version) (r : ParsedSigningRequest) : Bool :=
  hasStakeCredentialInCertificates r.tx .SCRIPT_HASH &&
    !v.compat.supportsMultisigTransaction

/-- Condition of the key-hash-in-certificate-credential check. -/
def vcCertKeyHash (v : Version) (r : ParsedSigningRequest) : Bool :=
  hasStakeCredentialInCertificates r.tx .KEY_HASH && !v.compat.supportsAlonzo

/-- Condition of the mint check. -/
def vcMint (v : Version) (r : ParsedSigningRequest) : Bool :=
  r.tx.mint.isSome && !v.compat.supportsMint

/-- Condition of the validity-interval-start check. -/
def vcValidityStart (v : Version) (r : ParsedSigningRequest) : Bool :=
  r.tx.validityIntervalStart.isSome && !v.compat.supportsMary

/-- Condition of the script-data-hash check. -/
def vcScriptDataHash (v : Version) (r : ParsedSigningRequest) : Bool :=
  r.tx.scriptDataHashHex.isSome && !v.compat.supportsAlonzo

/-- Condition of the collateral-inputs check. -/
def vcCollateralInputs (v : Version) (r : ParsedSigningRequest) : Bool :=
  !r.tx.collateralInputs.isEmpty && !v.compat.supportsAlonzo

/-- Condition of the outer required-signers check. -/
def vcRequiredSigners (v : Version) (r : ParsedSigningRequest) : Bool :=
  !r.tx.requiredSigners.isEmpty && !v.compat.supportsAlonzo

/-- Condition of the required-signers-in-ordinary-transaction sub-check. -/
def vcRequiredSignersOrdinary (v : Version) (r : ParsedSigningRequest) : Bool :=
  !r.tx.requiredSigners.isEmpty && !v.compat.supportsReqSignersInOrdinaryTx &&
    r.signingMode == .ORDINARY_TRANSACTION

/-- Condition of the required-signers-in-multisig-transaction sub-check. -/
def vcRequiredSignersMultisig (v : Version) (r : ParsedSigningRequest) : Bool :=
  !r.tx.requiredSigners.isEmpty && !v.compat.supportsReqSignersInOrdinaryTx &&
    r.signingMode == .MULTISIG_TRANSACTION

/-- Condition of the network-id-inclusion check. -/
def vcNetworkId (v : Version) (r : ParsedSigningRequest) : Bool :=
  r.tx.includeNetworkId && !v.compat.supportsAlonzo

/-- Condition of the collateral-output check. -/
def vcCollateralOutput (v : Version) (r : ParsedSigningRequest) : Bool :=
  r.tx.collateralOutput.isSome && !v.compat.supportsBabbage

/-- Condition of the total-collateral check. -/
def vcTotalCollateral (v : Version) (r : ParsedSigningRequest) : Bool :=
  r.tx.totalCollateral.isSome && !v.compat.supportsBabbage

/-- Condition of the reference-inputs check. -/
def vcReferenceInputs (v : Version) (r : ParsedSigningRequest) : Bool :=
  !r.tx.referenceInputs.isEmpty && !v.compat.supportsBabbage

/-- Whether the auxiliary data is a CIP36 registration with the given
format. -/
def auxHasRegistrationFormat (aux : Option ParsedTxAuxiliaryData)
    (format : CIP36VoteRegistrationFormat) : Bool :=
  match aux with
  | some (.cip36Registration params) => params.format == format
  | _ => false

/-- Condition of the Catalyst (CIP-15 format) registration check. -/
def vcCatalystRegistration (v : Version) (r : ParsedSigningRequest) : Bool :=
  auxHasRegistrationFormat r.tx.auxiliaryData .CIP_15 &&
    !v.compat.supportsCatalystRegistration

/-- Condition of the CIP-36 format registration check. -/
def vcCIP36Registration (v : Version) (r : ParsedSigningRequest) : Bool :=
  auxHasRegistrationFormat r.tx.auxiliaryData .CIP_36 && !v.compat.supportsCIP36

/-- Condition of the vote-key-derivation-path check. -/
def vcVoteKeyPath (v : Version) (r : ParsedSigningRequest) : Bool :=
  (match r.tx.auxiliaryData with
   | some (.cip36Registration params) => params.votePublicKeyPath.isSome
   | _ => false) && !v.compat.supportsCIP36Vote

/-- Condition of the third-party-payment-destination check. -/
def vcThirdPartyPayment (v : Version) (r : ParsedSigningRequest) : Bool :=
  (match r.tx.auxiliaryData with
   | some (.cip36Registration params) => !params.paymentDestination.isDeviceOwned
   | _ => false) && !v.compat.supportsCIP36

/-- Source `ensureRequestSupportedByAppVersion`: the full pre-flight scan,
with each `throw new DeviceVersionUnsupported(...)` modelled as returning
the feature name together with the version string; `none` means the
request is supported.  The `if` chain reproduces the source order of the
checks (the nested required-signers block is flattened into three
consecutive conditions with identical first-failure semantics). -/
def ensureRequestSupportedByAppVersion (v : Version) (r : ParsedSigningRequest) :
    Option UnsupportedErr :=
  if vcPoolRegOperator v r then some ⟨"Pool registration as operator", v.versionString⟩
  else if vcMultisigMode v r then some ⟨"Multisig transactions", v.versionString⟩
  else if vcPlutusMode v r then some ⟨"Plutus transactions", v.versionString⟩
  else if vcScriptAddrParams v r then
    some ⟨"Script hash in address parameters in output", v.versionString⟩
  else if vcDatum v r then some ⟨"Datum in output", v.versionString⟩
  else if vcMapFormat v r then some ⟨"Outputs with map format", v.versionString⟩
  else if vcZeroTtl v r then some ⟨"Zero TTL", v.versionString⟩
  else if vcWithdrawalScript v r then
    some ⟨"Script hash in withdrawal", v.versionString⟩
  else if vcWithdrawalKeyHash v r then some ⟨"Key hash in withdrawal", v.versionString⟩
  else if vcPoolRetirement v r then
    some ⟨"Pool retirement certificate", v.versionString⟩
  else if vcCertScript v r then
    some ⟨"Script hash in certificate stake credential", v.versionString⟩
  else if vcCertKeyHash v r then
    some ⟨"Key hash in certificate stake credential", v.versionString⟩
  else if vcMint v r then some ⟨"Mint", v.versionString⟩
  else if vcValidityStart v r then some ⟨"Validity interval start", v.versionString⟩
  else if vcScriptDataHash v r then some ⟨"Script data hash", v.versionString⟩
  else if vcCollateralInputs v r then some ⟨"Collateral inputs", v.versionString⟩
  else if vcRequiredSigners v r then some ⟨"Required signers", v.versionString⟩
  else if vcRequiredSignersOrdinary v r then
    some ⟨"Required signers in ordinary transaction", v.versionString⟩
  else if vcRequiredSignersMultisig v r then
    some ⟨"Required signers in multisig transaction", v.versionString⟩
  else if vcNetworkId v r then some ⟨"Network id in tx body", v.versionString⟩
  else if vcCollateralOutput v r then some ⟨"Collateral output", v.versionString⟩
  else if vcTotalCollateral v r then some ⟨"Total collateral", v.versionString⟩
  else if vcReferenceInputs v r then some ⟨"Reference inputs", v.versionString⟩
  else if vcCatalystRegistration v r then
    some ⟨"Catalyst registration", v.versionString⟩
  else if vcCIP36Registration v r then some ⟨"CIP36 registration", v.versionString⟩
  else if vcVoteKeyPath v r then
    some ⟨"Vote key derivation path in CIP15/CIP36 registration", v.versionString⟩
  else if vcThirdPartyPayment v r then
    some ⟨"CIP36 payment addresses not owned by the device", v.versionString⟩
  else none

/-- The validator's conditions paired with their feature names, in the
order the source checks them (pool retirement between the withdrawal and
the certificate stake-credential checks). -/
def codeConditionList (v : Version) (r : ParsedSigningRequest) : List (Bool × String) :=
  [(vcPoolRegOperator v r, "Pool registration as operator"),
   (vcMultisigMode v r, "Multisig transactions"),
   (vcPlutusMode v r, "Plutus transactions"),
   (vcScriptAddrParams v r, "Script hash in address parameters in output"),
   (vcDatum v r, "Datum in output"),
   (vcMapFormat v r, "Outputs with map format"),
   (vcZeroTtl v r, "Zero TTL"),
   (vcWithdrawalScript v r, "Script hash in withdrawal"),
   (vcWithdrawalKeyHash v r, "Key hash in withdrawal"),
   (vcPoolRetirement v r, "Pool retirement certificate"),
   (vcCertScript v r, "Script hash in certificate stake credential"),
   (vcCertKeyHash v r, "Key hash in certificate stake credential"),
   (vcMint v r, "Mint"),
   (vcValidityStart v r, "Validity interval start"),
   (vcScriptDataHash v r, "Script data hash"),
   (vcCollateralInputs v r, "Collateral inputs"),
   (vcRequiredSigners v r, "Required signers"),
   (vcRequiredSignersOrdinary v r, "Required signers in ordinary transaction"),
   (vcRequiredSignersMultisig v r, "Required signers in multisig transaction"),
   (vcNetworkId v r, "Network id in tx body"),
   (vcCollateralOutput v r, "Collateral output"),
   (vcTotalCollateral v r, "Total collateral"),
   (vcReferenceInputs v r, "Reference inputs"),
   (vcCatalystRegistration v r, "Catalyst registration"),
   (vcCIP36Registration v r, "CIP36 registration"),
   (vcVoteKeyPath v r, "Vote key derivation path in CIP15/CIP36 registration"),
   (vcThirdPartyPayment v r, "CIP36 payment addresses not owned by the device")]

/-- The same conditions in the order stated by the spec (§4.2): the
certificate stake-credential checks come before the pool-retirement
check.  This definition follows the spec's words, to be compared with the
source-order validator. -/
def specConditionList (v : Version) (r : ParsedSigningRequest) : List (Bool × String) :=
  [(vcPoolRegOperator v r, "Pool registration as operator"),
   (vcMultisigMode v r, "Multisig transactions"),
   (vcPlutusMode v r, "Plutus transactions"),
   (vcScriptAddrParams v r, "Script hash in address parameters in output"),
   (vcDatum v r, "Datum in output"),
   (vcMapFormat v r, "Outputs with map format"),
   (vcZeroTtl v r, "Zero TTL"),
   (vcWithdrawalScript v r, "Script hash in withdrawal"),
   (vcWithdrawalKeyHash v r, "Key hash in withdrawal"),
   (vcCertScript v r, "Script hash in certificate stake credential"),
   (vcCertKeyHash v r, "Key hash in certificate stake credential"),
   (vcPoolRetirement v r, "Pool retirement certificate"),
   (vcMint v r, "Mint"),
   (vcValidityStart v r, "Validity interval start"),
   (vcScriptDataHash v r, "Script data hash"),
   (vcCollateralInputs v r, "Collateral inputs"),
   (vcRequiredSigners v r, "Required signers"),
   (vcRequiredSignersOrdinary v r, "Required signers in ordinary transaction"),
   (vcRequiredSignersMultisig v r, "Required signers in multisig transaction"),
   (vcNetworkId v r, "Network id in tx body"),
   (vcCollateralOutput v r, "Collateral output"),
   (vcTotalCollateral v r, "Total collateral"),
   (vcReferenceInputs v r, "Reference inputs"),
   (vcCatalystRegistration v r, "Catalyst registration"),
   (vcCIP36Registration v r, "CIP36 registration"),
   (vcVoteKeyPath v r, "Vote key derivation path in CIP15/CIP36 registration"),
   (vcThirdPartyPayment v r, "CIP36 payment addresses not owned by the device")]

/-- First violated condition of a condition list. -/
def firstViolation (conds : List (Bool × String)) : Option String :=
  (conds.find? (fun c => c.1)).map (fun c => c.2)

/-- The single message of `signTx_init`. -/
def initMsgs (tx : ParsedTransaction) (signingMode : TransactionSigningMode)
    (witnessPaths : List BIP32Path) (version : Version) : List SendParams :=
  [send P1_STAGE_INIT 0x00 (serializeTxInit tx signingMode witnessPaths.length version)
    (some 0)]

/-- The single message of `signTx_addInput`. -/
def inputMsgs (input : ParsedInput) : List SendParams :=
  [send P1_STAGE_INPUTS 0x00 (serializeTxInput input) (some 0)]

/-- The messages of `signTx_addTokenBundle` (asset-group message followed
by one message per token, sub-tags `ASSET_GROUP = 0x31`, `TOKEN = 0x32`). -/
def tokenBundleMsgs {T : Type} (tokenBundle : List (ParsedAssetGroup T)) (p1 : Nat)
    (serializeTokenAmountFn : T → Bytes) : List SendParams :=
  tokenBundle.flatMap (fun assetGroup =>
    send p1 0x31 (serializeAssetGroup assetGroup) (some 0) ::
      assetGroup.tokens.map (fun token =>
        send p1 0x32 (serializeToken token serializeTokenAmountFn) (some 0)))

/-- The messages of `signTx_addOutput` for one output: basic data (`0x30`),
token bundle, optional datum (`0x34`) with inline-datum chunks (`0x35`),
optional reference script (`0x36`) with chunks (`0x37`), confirm (`0x33`). -/
def outputMsgs (version : Version) (output : ParsedOutput) : List SendParams :=
  [send P1_STAGE_OUTPUTS 0x30 (serializeTxOutputBasicParams output version) (some 0)] ++
  tokenBundleMsgs output.tokenBundle P1_STAGE_OUTPUTS uint64_to_buf ++
  (match output.datum with
   | none => []
   | some datum =>
     send P1_STAGE_OUTPUTS 0x34 (serializeTxOutputDatum datum version) (some 0) ::
       (match datum with
        | .inline datumHex =>
          if MAX_CHUNK_SIZE < datumHex.length then
            signTx_addOutput_sendChunks datumHex 0x35
          else []
        | .hash _ => [])) ++
  (match output.referenceScriptHex with
   | none => []
   | some referenceScriptHex =>
     send P1_STAGE_OUTPUTS 0x36 (serializeTxOutputRefScript referenceScriptHex)
         (some 0) ::
       (if MAX_CHUNK_SIZE < referenceScriptHex.length then
          signTx_addOutput_sendChunks referenceScriptHex 0x37
        else [])) ++
  [send P1_STAGE_OUTPUTS 0x33 [] (some 0)]

/-- The messages of `signTx_addStakePoolRegistrationCertificate`
(sub-tags `0x30`–`0x38`). -/
def poolRegistrationMsgs (pool : ParsedPoolParams) : List SendParams :=
  [send P1_STAGE_CERTIFICATES 0x30 (serializePoolInitialParams pool) (some 0),
   send P1_STAGE_CERTIFICATES 0x31 (serializePoolKey pool.poolKey) (some 0),
   send P1_STAGE_CERTIFICATES 0x32 pool.vrfHashHex (some 0),
   send P1_STAGE_CERTIFICATES 0x33 (serializeFinancials pool) (some 0),
   send P1_STAGE_CERTIFICATES 0x34 (serializePoolRewardAccount pool.rewardAccount)
     (some 0)] ++
  pool.owners.map (fun owner =>
    send P1_STAGE_CERTIFICATES 0x35 (serializePoolOwner owner) (some 0)) ++
  pool.relays.map (fun relay =>
    send P1_STAGE_CERTIFICATES 0x36 (serializePoolRelay relay) (some 0)) ++
  [send P1_STAGE_CERTIFICATES 0x37 (serializePoolMetadata pool.metadata) (some 0),
   send P1_STAGE_CERTIFICATES 0x38 [] (some 0)]

/-- The messages of `signTx_addStakePoolRegistrationCertificateLegacy`
(sub-tags `0x30`–`0x34`). -/
def poolRegistrationLegacyMsgs (pool : ParsedPoolParams) : List SendParams :=
  [send P1_STAGE_CERTIFICATES 0x30 (serializePoolInitialParamsLegacy pool) (some 0)] ++
  pool.owners.map (fun owner =>
    send P1_STAGE_CERTIFICATES 0x31 (serializePoolOwner owner) (some 0)) ++
  pool.relays.map (fun relay =>
    send P1_STAGE_CERTIFICATES 0x32 (serializePoolRelay relay) (some 0)) ++
  [send P1_STAGE_CERTIFICATES 0x33 (serializePoolMetadata pool.metadata) (some 0),
   send P1_STAGE_CERTIFICATES 0x34 [] (some 0)]

/-- The messages of `signTx_addCertificate`: the certificate message,
then for a stake-pool registration the rich or legacy sub-sequence
depending on `supportsPoolRegistrationAsOperator`. -/
def certificateMsgs (version : Version) (certificate : ParsedCertificate) :
    List SendParams :=
  send P1_STAGE_CERTIFICATES 0x00 (serializeTxCertificate certificate version)
      (some 0) ::
    (match certificate with
     | .stakePoolRegistration pool =>
       if version.compat.supportsPoolRegistrationAsOperator then
         poolRegistrationMsgs pool
       else poolRegistrationLegacyMsgs pool
     | _ => [])

/-- The single message of `signTx_addWithdrawal`. -/
def withdrawalMsgs (version : Version) (withdrawal : ParsedWithdrawal) :
    List SendParams :=
  [send P1_STAGE_WITHDRAWALS 0x00 (serializeTxWithdrawal withdrawal version) (some 0)]

/-- The single message of `signTx_setFee`. -/
def feeMsgs (fee : Nat) : List SendParams :=
  [send P1_STAGE_FEE 0x00 (serializeTxFee fee) (some 0)]

/-- The single message of `signTx_setTtl`. -/
def ttlMsgs (ttl : Nat) : List SendParams :=
  [send P1_STAGE_TTL 0x00 (serializeTxTtl ttl) (some 0)]

/-- The single message of `signTx_setValidityIntervalStart`; the source
omits `expectedResponseLength` here. -/
def validityMsgs (validityIntervalStart : Nat) : List SendParams :=
  [send P1_STAGE_VALIDITY_INTERVAL_START 0x00
    (serializeTxValidityStart validityIntervalStart) none]

/-- The messages of `signTx_setMint`: basic data (`0x30`), token bundle,
confirm (`0x33`). -/
def mintMsgs (mint : List (ParsedAssetGroup Int)) : List SendParams :=
  [send P1_STAGE_MINT 0x30 (serializeMintBasicParams mint) (some 0)] ++
  tokenBundleMsgs mint P1_STAGE_MINT int64_to_buf ++
  [send P1_STAGE_MINT 0x33 [] (some 0)]

/-- The single message of `signTx_setScriptDataHash`; the source omits
`expectedResponseLength` here. -/
def scriptDataHashMsgs (scriptDataHash : Bytes) : List SendParams :=
  [send P1_STAGE_SCRIPT_DATA_HASH 0x00 scriptDataHash none]

/-- The single message of `signTx_addCollateralInput`. -/
def collateralInputMsgs (collateralInput : ParsedInput) : List SendParams :=
  [send P1_STAGE_COLLATERAL_INPUTS 0x00 (serializeTxInput collateralInput) (some 0)]

/-- The single message of `signTx_addRequiredSigner`. -/
def requiredSignerMsgs (requiredSigner : ParsedRequiredSigner) : List SendParams :=
  [send P1_STAGE_REQUIRED_SIGNERS 0x00 (serializeRequiredSigner requiredSigner)
    (some 0)]

/-- The messages of `signTx_addCollateralOutput`: basic data, token
bundle, confirm. -/
def collateralOutputMsgs (version : Version) (collateralOutput : ParsedOutput) :
    List SendParams :=
  [send P1_STAGE_COLLATERAL_OUTPUT 0x30
    (serializeTxOutputBasicParams collateralOutput version) (some 0)] ++
  tokenBundleMsgs collateralOutput.tokenBundle P1_STAGE_COLLATERAL_OUTPUT
    uint64_to_buf ++
  [send P1_STAGE_COLLATERAL_OUTPUT 0x33 [] (some 0)]

/-- The single message of `signTx_addTotalCollateral`. -/
def totalCollateralMsgs (totalCollateral : Nat) : List SendParams :=
  [send P1_STAGE_TOTAL_COLLATERAL 0x00 (serializeTotalCollateral totalCollateral)
    (some 0)]

/-- The single message of `signTx_addReferenceInput`. -/
def referenceInputMsgs (referenceInput : ParsedInput) : List SendParams :=
  [send P1_STAGE_REFERENCE_INPUTS 0x00 (serializeTxInput referenceInput) (some 0)]

/-- The `signTx_awaitConfirm` message: the response is the transaction
hash. -/
def confirmMsg : SendParams :=
  send P1_STAGE_CONFIRM 0x00 [] (some TX_HASH_LENGTH)

/-- The `signTx_getWitness` message for one path: the response is the
64-byte witness signature. -/
def witnessMsg (path : BIP32Path) : SendParams :=
  send P1_STAGE_WITNESSES 0x00 (serializeTxWitnessRequest path)
    (some ED25519_SIGNATURE_LENGTH)

/-- The leading message of `signTx_setAuxiliaryData` (p2 `UNUSED`). -/
def auxMainMsg (auxiliaryData : ParsedTxAuxiliaryData) : SendParams :=
  send P1_STAGE_AUX_DATA 0x00 (serializeTxAuxiliaryData auxiliaryData) (some 0)

/-- CIP36 registration `INIT` sub-message (p2 `0x36`). -/
def cvoteInitMsg (params : ParsedCVoteRegistrationParams) : SendParams :=
  send P1_STAGE_AUX_DATA 0x36 (serializeCVoteRegistrationInit params) (some 0)

/-- CIP36 registration `VOTE_KEY` sub-message (p2 `0x30`). -/
def cvoteVoteKeyMsg (params : ParsedCVoteRegistrationParams) (version : Version) :
    SendParams :=
  send P1_STAGE_AUX_DATA 0x30
    (serializeCVoteRegistrationVoteKey params.votePublicKey params.votePublicKeyPath
      version) (some 0)

/-- CIP36 registration `DELEGATION` sub-message (p2 `0x37`). -/
def cvoteDelegationMsg (delegation : ParsedCVoteDelegation) : SendParams :=
  send P1_STAGE_AUX_DATA 0x37 (serializeCVoteRegistrationDelegation delegation)
    (some 0)

/-- CIP36 registration `STAKING_KEY` sub-message (p2 `0x31`). -/
def cvoteStakingKeyMsg (params : ParsedCVoteRegistrationParams) : SendParams :=
  send P1_STAGE_AUX_DATA 0x31
    (serializeCVoteRegistrationStakingPath params.stakingPath) (some 0)

/-- CIP36 registration `PAYMENT_ADDRESS` sub-message (p2 `0x32`). -/
def cvotePaymentMsg (params : ParsedCVoteRegistrationParams) (version : Version) :
    SendParams :=
  send P1_STAGE_AUX_DATA 0x32
    (serializeCVoteRegistrationPaymentDestination params.paymentDestination version)
    (some 0)

/-- CIP36 registration `NONCE` sub-message (p2 `0x33`). -/
def cvoteNonceMsg (params : ParsedCVoteRegistrationParams) : SendParams :=
  send P1_STAGE_AUX_DATA 0x33 (serializeCVoteRegistrationNonce params.nonce) (some 0)

/-- CIP36 registration `VOTING_PURPOSE` sub-message (p2 `0x35`). -/
def cvoteVotingPurposeMsg (params : ParsedCVoteRegistrationParams) : SendParams :=
  send P1_STAGE_AUX_DATA 0x35
    (serializeCVoteRegistrationVotingPurpose params.votingPurpose) (some 0)

/-- CIP36 registration `CONFIRM` sub-message (p2 `0x34`): the response is
the auxiliary-data hash followed by the 64-byte signature. -/
def cvoteConfirmMsg : SendParams :=
  send P1_STAGE_AUX_DATA 0x34 []
    (some (AUXILIARY_DATA_HASH_LENGTH + ED25519_SIGNATURE_LENGTH))

/-- The single message of `signTx_setAuxiliaryData_before_v2_3`
(hash-only legacy layout). -/
def legacyAuxMsg (hashHex : Bytes) : SendParams :=
  send P1_STAGE_AUX_DATA 0x00 hashHex (some 0)

/-- TS `params.votePublicKey || params.votePublicKeyPath`. -/
def cip36HasVoteKey (params : ParsedCVoteRegistrationParams) : Bool :=
  params.votePublicKey.isSome || params.votePublicKeyPath.isSome

/-- All messages yielded by `signTx_setAuxiliaryData` (in the
vote-key-less, delegation-less case only the messages up to the throw). -/
def auxDataMsgs (version : Version) (auxiliaryData : ParsedTxAuxiliaryData) :
    List SendParams :=
  auxMainMsg auxiliaryData ::
    (match auxiliaryData with
     | .arbitraryHash _ => []
     | .cip36Registration params =>
       (if version.compat.supportsCIP36 then [cvoteInitMsg params] else []) ++
       (if cip36HasVoteKey params then [cvoteVoteKeyMsg params version]
        else match params.delegations with
          | some delegations => delegations.map cvoteDelegationMsg
          | none => []) ++
       (if cip36HasVoteKey params || params.delegations.isSome then
          [cvoteStakingKeyMsg params, cvotePaymentMsg params version,
            cvoteNonceMsg params] ++
          (if version.compat.supportsCIP36 then [cvoteVotingPurposeMsg params]
           else []) ++
          [cvoteConfirmMsg]
        else []))

-- ------------- the Interaction programs -------------

/-- Source `signTx_init`. -/
def signTx_init (tx : ParsedTransaction) (signingMode : TransactionSigningMode)
    (witnessPaths : List BIP32Path) (version : Version) : Interaction Unit :=
  yieldsI (initMsgs tx signingMode witnessPaths version)

/-- Source `signTx_addInput`. -/
def signTx_addInput (input : ParsedInput) : Interaction Unit :=
  yieldsI (inputMsgs input)

/-- Source `signTx_addOutput` (basic data, token bundle, datum and datum
chunks, reference script and script chunks, confirm). -/
def signTx_addOutput (output : ParsedOutput) (version : Version) : Interaction Unit :=
  yieldsI (outputMsgs version output)

/-- Source `signTx_addCertificate` (with the conditional pool-registration
sub-sequence). -/
def signTx_addCertificate (certificate : ParsedCertificate) (version : Version) :
    Interaction Unit :=
  yieldsI (certificateMsgs version certificate)

/-- Source `signTx_addWithdrawal`. -/
def signTx_addWithdrawal (withdrawal : ParsedWithdrawal) (version : Version) :
    Interaction Unit :=
  yieldsI (withdrawalMsgs version withdrawal)

/-- Source `signTx_setFee`. -/
def signTx_setFee (fee : Nat) : Interaction Unit := yieldsI (feeMsgs fee)

/-- Source `signTx_setTtl`. -/
def signTx_setTtl (ttl : Nat) : Interaction Unit := yieldsI (ttlMsgs ttl)

/-- Source `signTx_setAuxiliaryData`: the main aux-data message, then for
a CIP36 registration the sub-sequence init (only if `supportsCIP36`),
vote key or delegations (throwing `wrong CIP36 registration params` if
neither is present), staking key, payment destination, nonce, voting
purpose (only if `supportsCIP36`), and the confirm message whose response
is split into auxiliary-data hash then signature. -/
def signTx_setAuxiliaryData (auxiliaryData : ParsedTxAuxiliaryData)
    (version : Version) : Interaction (Option TxAuxiliaryDataSupplement) :=
  (yieldsI [auxMainMsg auxiliaryData]).bind fun _ =>
  match auxiliaryData with
  | .arbitraryHash _ => .done none
  | .cip36Registration params =>
    (yieldsI (if version.compat.supportsCIP36 then [cvoteInitMsg params] else [])).bind
      fun _ =>
    (if cip36HasVoteKey params then yieldsI [cvoteVoteKeyMsg params version]
     else match params.delegations with
       | some delegations => yieldsI (delegations.map cvoteDelegationMsg)
       | none => .fail (.malformedRequest "wrong CIP36 registration params")).bind
      fun _ =>
    (yieldsI ([cvoteStakingKeyMsg params, cvotePaymentMsg params version,
        cvoteNonceMsg params] ++
      (if version.compat.supportsCIP36 then [cvoteVotingPurposeMsg params]
       else []))).bind fun _ =>
    .step cvoteConfirmMsg (fun response =>
      .done (some
        { auxiliaryDataHashHex := response.take AUXILIARY_DATA_HASH_LENGTH,
          cip36VoteRegistrationSignatureHex :=
            (response.drop AUXILIARY_DATA_HASH_LENGTH).take
              ED25519_SIGNATURE_LENGTH }))

/-- Source `signTx_setAuxiliaryData_before_v2_3`: asserts the data is an
arbitrary hash, sends it in a single message and returns `null`. -/
def signTx_setAuxiliaryData_before_v2_3 (auxiliaryData : ParsedTxAuxiliaryData) :
    Interaction (Option TxAuxiliaryDataSupplement) :=
  match auxiliaryData with
  | .arbitraryHash h => (yieldsI [legacyAuxMsg h]).bind fun _ => .done none
  | .cip36Registration _ => .fail (.assertionFailed "Auxiliary data type not implemented")

/-- Source `signTx_setValidityIntervalStart`. -/
def signTx_setValidityIntervalStart (validityIntervalStart : Nat) : Interaction Unit :=
  yieldsI (validityMsgs validityIntervalStart)

/-- Source `signTx_setMint`. -/
def signTx_setMint (mint : List (ParsedAssetGroup Int)) : Interaction Unit :=
  yieldsI (mintMsgs mint)

/-- Source `signTx_setScriptDataHash`. -/
def signTx_setScriptDataHash (scriptDataHash : Bytes) : Interaction Unit :=
  yieldsI (scriptDataHashMsgs scriptDataHash)

/-- Source `signTx_addCollateralInput`. -/
def signTx_addCollateralInput (collateralInput : ParsedInput) : Interaction Unit :=
  yieldsI (collateralInputMsgs collateralInput)

/-- Source `signTx_addRequiredSigner`. -/
def signTx_addRequiredSigner (requiredSigner : ParsedRequiredSigner) :
    Interaction Unit :=
  yieldsI (requiredSignerMsgs requiredSigner)

/-- Source `signTx_addCollateralOutput`. -/
def signTx_addCollateralOutput (collateralOutput : ParsedOutput) (version : Version) :
    Interaction Unit :=
  yieldsI (collateralOutputMsgs version collateralOutput)

/-- Source `signTx_addTotalCollateral`. -/
def signTx_addTotalCollateral (totalCollateral : Nat) : Interaction Unit :=
  yieldsI (totalCollateralMsgs totalCollateral)

/-- Source `signTx_addReferenceInput`. -/
def signTx_addReferenceInput (referenceInput : ParsedInput) : Interaction Unit :=
  yieldsI (referenceInputMsgs referenceInput)

/-- Source `signTx_awaitConfirm`: the response is the transaction hash. -/
def signTx_awaitConfirm : Interaction Bytes :=
  .step confirmMsg (fun response => .done response)

/-- Source `signTx_getWitness`: the response is the witness signature. -/
def signTx_getWitness (path : BIP32Path) : Interaction TxWitness :=
  .step (witnessMsg path) (fun response =>
    .done { path := path, witnessSignatureHex := response })

/-- An optional stage: `if (field != null) { yield* g(field) }`. -/
def optStage {γ : Type} (o : Option γ) (g : γ → Interaction Unit) : Interaction Unit :=
  match o with
  | some t => g t
  | none => .done ()

/-- The messages of an optional stage. -/
def optMsgs {γ : Type} (o : Option γ) (msF : γ → List SendParams) : List SendParams :=
  match o with
  | some t => msF t
  | none => []

/-- `auxDataBeforeTxBody` as computed in `signTransaction`. -/
def auxDataBeforeTxBody (version : Version) : Bool :=
  version.compat.supportsCatalystRegistration || version.compat.supportsCIP36

/-- The ceremony from the inputs stage onward (`signTransaction` after the
auxiliary-data-before-body stage), with `supp1` the supplement value of
the before-body branch. -/
def signTx_body (version : Version) (request : ParsedSigningRequest)
    (supp1 : Option TxAuxiliaryDataSupplement) : Interaction SignedTransactionData :=
  (forEachI request.tx.inputs (fun input => signTx_addInput input)).bind fun _ =>
  (forEachI request.tx.outputs (fun output => signTx_addOutput output version)).bind
    fun _ =>
  (signTx_setFee request.tx.fee).bind fun _ =>
  (optStage request.tx.ttl (fun ttl => signTx_setTtl ttl)).bind fun _ =>
  (forEachI request.tx.certificates (fun certificate =>
    signTx_addCertificate certificate version)).bind fun _ =>
  (forEachI request.tx.withdrawals (fun withdrawal =>
    signTx_addWithdrawal withdrawal version)).bind fun _ =>
  ((if auxDataBeforeTxBody version then .done supp1
    else match request.tx.auxiliaryData with
      | some aux => signTx_setAuxiliaryData_before_v2_3 aux
      | none => .done supp1 :
    Interaction (Option TxAuxiliaryDataSupplement))).bind fun supplement =>
  (optStage request.tx.validityIntervalStart (fun t =>
    signTx_setValidityIntervalStart t)).bind fun _ =>
  (optStage request.tx.mint (fun mint => signTx_setMint mint)).bind fun _ =>
  (optStage request.tx.scriptDataHashHex (fun h =>
    signTx_setScriptDataHash h)).bind fun _ =>
  (forEachI request.tx.collateralInputs (fun collateralInput =>
    signTx_addCollateralInput collateralInput)).bind fun _ =>
  (forEachI request.tx.requiredSigners (fun requiredSigner =>
    signTx_addRequiredSigner requiredSigner)).bind fun _ =>
  (optStage request.tx.collateralOutput (fun collateralOutput =>
    signTx_addCollateralOutput collateralOutput version)).bind fun _ =>
  (optStage request.tx.totalCollateral (fun t =>
    signTx_addTotalCollateral t)).bind fun _ =>
  (forEachI request.tx.referenceInputs (fun referenceInput =>
    signTx_addReferenceInput referenceInput)).bind fun _ =>
  signTx_awaitConfirm.bind fun txHashHex =>
  (mapI (gatherWitnessPaths request) signTx_getWitness).bind fun witnesses =>
  .done { txHashHex := txHashHex, witnesses := witnesses,
          auxiliaryDataSupplement := supplement }

/-- Source `signTransaction`: the minimum-version guard, the pre-flight
request validator, then the ceremony — init, auxiliary data before the tx
body (if the capability flags place it there), and the body stages. -/
def signTransaction (version : Version) (request : ParsedSigningRequest) :
    Interaction SignedTransactionData :=
  if version.compatible = false then
    .fail (.versionIncompatible version.versionString)
  else
    match ensureRequestSupportedByAppVersion version request with
    | some e => .fail (.deviceVersionUnsupported e.feature e.versionString)
    | none =>
      (signTx_init request.tx request.signingMode (gatherWitnessPaths request)
        version).bind fun _ =>
      (if auxDataBeforeTxBody version then
         match request.tx.auxiliaryData with
         | some aux => signTx_setAuxiliaryData aux version
         | none => .done none
       else .done none).bind fun supp1 =>
      signTx_body version request supp1

/-- Modelled from the spec: the caller-side request parsing (Ada.ts and
the parsing module, not under src/) validates a CIP36 voting-registration
payload before the ceremony starts: exactly one of a direct vote key (a
vote public key or a vote public key path) or one-or-more delegation
entries must be supplied — never both, never neither (spec §4.5, §7:
violating this is a host-side `MalformedRequest`). -/
def parseCheckSigningRequest (request : ParsedSigningRequest) : Option String :=
  match request.tx.auxiliaryData with
  | some (.cip36Registration params) =>
    if cip36HasVoteKey params &&
        (match params.delegations with | some (_ :: _) => true | _ => false) then
      some "CIP36 registration: both vote key and delegations supplied"
    else if !cip36HasVoteKey params &&
        !(match params.delegations with | some (_ :: _) => true | _ => false) then
      some "CIP36 registration: neither vote key nor delegations supplied"
    else none
  | _ => none

/-- The full entry point as the caller sees it: parse-time validation
(spec-modelled, see `parseCheckSigningRequest`) followed by the
`signTransaction` interaction. -/
def signTransactionChecked (version : Version) (request : ParsedSigningRequest) :
    Interaction SignedTransactionData :=
  match parseCheckSigningRequest request with
  | some message => .fail (.malformedRequest message)
  | none => signTransaction version request

-- ------------- pure mirrors of the yielded message sequence -------------

/-- Whether `signTx_setAuxiliaryData` runs to completion (it throws iff a
CIP36 registration supplies neither a vote key nor a delegations field). -/
def auxRunOk (auxiliaryData : ParsedTxAuxiliaryData) : Bool :=
  match auxiliaryData with
  | .arbitraryHash _ => true
  | .cip36Registration params => cip36HasVoteKey params || params.delegations.isSome

/-- The messages of the body stages up to and including withdrawals. -/
def txBodyPreAuxMsgs (version : Version) (tx : ParsedTransaction) : List SendParams :=
  tx.inputs.flatMap inputMsgs ++
  tx.outputs.flatMap (outputMsgs version) ++
  feeMsgs tx.fee ++
  optMsgs tx.ttl ttlMsgs ++
  tx.certificates.flatMap (certificateMsgs version) ++
  tx.withdrawals.flatMap (withdrawalMsgs version)

/-- The messages of the body stages strictly between the legacy
auxiliary-data slot and the confirm stage: validity start, mint, script
data hash, collateral inputs, required signers, collateral output, total
collateral, reference inputs. -/
def txTailPreMsgs (version : Version) (tx : ParsedTransaction) : List SendParams :=
  optMsgs tx.validityIntervalStart validityMsgs ++
  optMsgs tx.mint mintMsgs ++
  optMsgs tx.scriptDataHashHex scriptDataHashMsgs ++
  tx.collateralInputs.flatMap collateralInputMsgs ++
  tx.requiredSigners.flatMap requiredSignerMsgs ++
  optMsgs tx.collateralOutput (collateralOutputMsgs version) ++
  optMsgs tx.totalCollateral totalCollateralMsgs ++
  tx.referenceInputs.flatMap referenceInputMsgs

/-- The messages from the validity-start stage to the end of the
ceremony: the tail stages, the confirm message and one witness message
per collected path, in collector order. -/
def txTailMsgs (version : Version) (request : ParsedSigningRequest) : List SendParams :=
  txTailPreMsgs version request.tx ++ [confirmMsg] ++
    (gatherWitnessPaths request).map witnessMsg

/-- The complete ordered message sequence yielded by
`signTransaction version request`, as a pure function of version and
request (truncated where the ceremony throws). -/
def txAllMessages (version : Version) (request : ParsedSigningRequest) :
    List SendParams :=
  if version.compatible = false then []
  else
    match ensureRequestSupportedByAppVersion version request with
    | some _ => []
    | none =>
      initMsgs request.tx request.signingMode (gatherWitnessPaths request) version ++
      (if auxDataBeforeTxBody version then
         match request.tx.auxiliaryData with
         | some aux =>
           auxDataMsgs version aux ++
             (if auxRunOk aux then
                txBodyPreAuxMsgs version request.tx ++ txTailMsgs version request
              else [])
         | none => txBodyPreAuxMsgs version request.tx ++ txTailMsgs version request
       else
         txBodyPreAuxMsgs version request.tx ++
           (match request.tx.auxiliaryData with
            | some (.arbitraryHash h) => legacyAuxMsg h :: txTailMsgs version request
            | some (.cip36Registration _) => []
            | none => txTailMsgs version request))

-- ------------- concrete fixtures used by witnesses -------------

/-- A response oracle returning empty responses. -/
def ρ0 : Nat → Bytes := fun _ => []

/-- A response oracle returning a constant nonempty response. -/
def ρ1 : Nat → Bytes := fun _ => List.replicate 96 0x5a

/-- Capability flags with every feature supported. -/
def exCompatAll : Compatibility :=
  { supportsPoolRegistrationAsOperator := true, supportsMultisigTransaction := true,
    supportsAlonzo := true, supportsBabbage := true, supportsZeroTtl := true,
    supportsPoolRetirement := true, supportsMint := true, supportsMary := true,
    supportsReqSignersInOrdinaryTx := true, supportsCatalystRegistration := true,
    supportsCIP36 := true, supportsCIP36Vote := true }

/-- A fully capable, compatible version. -/
def exVersion : Version :=
  { versionString := "7.1.0", compatible := true, compat := exCompatAll }

/-- A compatible version whose flags place auxiliary data after the tx
body (no Catalyst registration, no CIP36) — the legacy layout. -/
def exVersionLegacy : Version :=
  { versionString := "2.2.0", compatible := true,
    compat :=
      { exCompatAll with
        supportsCatalystRegistration := false
        supportsCIP36 := false
        supportsCIP36Vote := false } }

/-- A version below the minimum supported. -/
def exVersionOld : Version :=
  { versionString := "1.0.0", compatible := false, compat := exCompatAll }

/-- A compatible version without pool-retirement and multisig support
(used for the validator-order counterexample). -/
def exVersionNoRetirement : Version :=
  { versionString := "2.3.0", compatible := true,
    compat :=
      { exCompatAll with
        supportsPoolRetirement := false
        supportsMultisigTransaction := false } }

/-- An empty transaction: no elements, no optional fields. -/
def exEmptyTx : ParsedTransaction :=
  { inputs := [], outputs := [], fee := 42, ttl := none, certificates := [],
    withdrawals := [], mint := none, scriptDataHashHex := none,
    collateralInputs := [], collateralOutput := none, totalCollateral := none,
    referenceInputs := [], requiredSigners := [], includeNetworkId := false,
    auxiliaryData := none, validityIntervalStart := none }

/-- First example input. -/
def exInput1 : ParsedInput :=
  { txHashHex := List.replicate 32 0x01, outputIndex := 0,
    path := some [2147485500, 2147485463, 2147483648, 0, 0] }

/-- Second example input (distinct path). -/
def exInput2 : ParsedInput :=
  { txHashHex := List.replicate 32 0x02, outputIndex := 1,
    path := some [2147485500, 2147485463, 2147483648, 0, 1] }

/-- A plain third-party output without token bundle, datum or script. -/
def exOutput : ParsedOutput :=
  { format := .ARRAY_LEGACY, destination := .thirdParty (List.replicate 10 0x33),
    amount := 7, tokenBundle := [], datum := none, referenceScriptHex := none }

/-- A stake-delegation certificate with a key-path credential. -/
def exCertDelegation : ParsedCertificate :=
  .stakeDelegation (.keyPath [2147485500, 2147485463, 2147483648, 2, 0])
    (List.replicate 28 0x44)

/-- A withdrawal with the same key-path credential as the certificate
(so dedup collapses them to one witness). -/
def exWithdrawal : ParsedWithdrawal :=
  { stakeCredential := .keyPath [2147485500, 2147485463, 2147483648, 2, 0],
    amount := 12 }

/-- The C1 scenario transaction: 2 inputs, 1 plain output, one
stake-delegation certificate, one withdrawal, no optional fields. -/
def exTxC1 : ParsedTransaction :=
  { exEmptyTx with
    inputs := [exInput1, exInput2]
    outputs := [exOutput]
    certificates := [exCertDelegation]
    withdrawals := [exWithdrawal] }

/-- The C1 scenario request (ordinary mode, no additional paths). -/
def exRequestC1 : ParsedSigningRequest :=
  { tx := exTxC1, signingMode := .ORDINARY_TRANSACTION,
    additionalWitnessPaths := [] }

/-- A request that violates both the pool-retirement condition and the
certificate-script-hash condition (for the validator-order claim). -/
def exRequestC6 : ParsedSigningRequest :=
  { tx := { exEmptyTx with certificates :=
      [.stakePoolRetirement [2147485501, 2147485463, 2147483648] 5,
       .stakeDelegation (.scriptHash (List.replicate 28 0x77))
         (List.replicate 28 0x44)] },
    signingMode := .ORDINARY_TRANSACTION, additionalWitnessPaths := [] }

/-- A request with a validity-interval start and nothing else. -/
def exRequestC9 : ParsedSigningRequest :=
  { tx := { exEmptyTx with validityIntervalStart := some 5 },
    signingMode := .ORDINARY_TRANSACTION, additionalWitnessPaths := [] }

/-- CIP36 registration parameters supplying both a direct vote key and a
non-empty delegation list. -/
def exCVoteParamsBoth : ParsedCVoteRegistrationParams :=
  { format := .CIP_36, votePublicKey := some (List.replicate 32 0x61),
    votePublicKeyPath := none,
    delegations := some [{ voteKeyData := List.replicate 32 0x62, weight := 1 }],
    stakingPath := [2147485500, 2147485463, 2147483648, 2, 0],
    paymentDestination :=
      .deviceOwned { addressType := .BASE_PAYMENT_KEY_STAKE_KEY, paramsData := [0x10] },
    nonce := 22, votingPurpose := none }

/-- CIP36 registration parameters supplying neither a vote key nor
delegations. -/
def exCVoteParamsNeither : ParsedCVoteRegistrationParams :=
  { exCVoteParamsBoth with votePublicKey := none, delegations := none }

/-- CIP36 registration parameters supplying only a direct vote key. -/
def exCVoteParamsKey : ParsedCVoteRegistrationParams :=
  { exCVoteParamsBoth with delegations := none }

/-- Request carrying a CIP36 registration with both sources supplied. -/
def exRequestC7Both : ParsedSigningRequest :=
  { tx := { exEmptyTx with
      auxiliaryData := some (.cip36Registration exCVoteParamsBoth) },
    signingMode := .ORDINARY_TRANSACTION, additionalWitnessPaths := [] }

/-- Request carrying a CIP36 registration with neither source supplied. -/
def exRequestC7Neither : ParsedSigningRequest :=
  { tx := { exEmptyTx with
      auxiliaryData := some (.cip36Registration exCVoteParamsNeither) },
    signingMode := .ORDINARY_TRANSACTION, additionalWitnessPaths := [] }

/-- Request carrying a well-formed CIP36 registration (vote key only). -/
def exRequestC8Cip36 : ParsedSigningRequest :=
  { tx := { exEmptyTx with
      auxiliaryData := some (.cip36Registration exCVoteParamsKey),
      inputs := [exInput1] },
    signingMode := .ORDINARY_TRANSACTION, additionalWitnessPaths := [] }

/-- Request carrying an arbitrary-hash auxiliary data. -/
def exRequestC8Hash : ParsedSigningRequest :=
  { tx := { exEmptyTx with
      auxiliaryData := some (.arbitraryHash (List.replicate 32 0x99)),
      inputs := [exInput1] },
    signingMode := .ORDINARY_TRANSACTION, additionalWitnessPaths := [] }

/-- A multisig request with structural elements that contribute no paths
in multisig mode. -/
def exRequestMultisig : ParsedSigningRequest :=
  { tx := exTxC1, signingMode := .MULTISIG_TRANSACTION,
    additionalWitnessPaths :=
      [[2147485501, 2147485463, 2147483648, 0, 0],
       [2147485501, 2147485463, 2147483648, 0, 0],
       [2147485501, 2147485463, 2147483648, 2, 0]] }

/-- Classification of `expectedResponseLength` over all ceremony
messages: zero (acknowledge only), omitted (exactly the validity-start
and script-data-hash messages), or an exact positive count (the
voting-registration confirm, the transaction confirm, and each witness
request). -/
def msgResponseLengthSpec (m : SendParams) : Prop :=
  m.expectedResponseLength = some 0 ∨
  (m.expectedResponseLength = none ∧
    (m.p1 = P1_STAGE_VALIDITY_INTERVAL_START ∨ m.p1 = P1_STAGE_SCRIPT_DATA_HASH)) ∨
  (m.expectedResponseLength =
      some (AUXILIARY_DATA_HASH_LENGTH + ED25519_SIGNATURE_LENGTH) ∧
    m.p1 = P1_STAGE_AUX_DATA ∧ m.p2 = 0x34) ∨
  (m.expectedResponseLength = some TX_HASH_LENGTH ∧ m.p1 = P1_STAGE_CONFIRM) ∨
  (m.expectedResponseLength = some ED25519_SIGNATURE_LENGTH ∧
    m.p1 = P1_STAGE_WITNESSES)

/-- Index of the first occurrence of a path in a list (0 when absent past
the end): used to state the first-occurrence ordering of `uniquify`. -/
def firstIdx (p : BIP32Path) : List BIP32Path → Nat
  | [] => 0
  | x :: rest => if x = p then 0 else firstIdx p rest + 1

/-- The pre-flight and in-flight conditions under which the ceremony runs
to completion: compatible version, validator success, and (for a CIP36
voting registration) a well-formed payload placed before the tx body. -/
def ceremonyCompletes (v : Version) (r : ParsedSigningRequest) : Prop :=
  v.compatible = true ∧ ensureRequestSupportedByAppVersion v r = none ∧
    (match r.tx.auxiliaryData with
     | some (.cip36Registration params) =>
       (cip36HasVoteKey params || params.delegations.isSome) = true ∧
         auxDataBeforeTxBody v = true
     | _ => True)

-- ======================= theorems =======================

theorem shiftOracle_zero (ρ : Nat → Bytes) : shiftOracle ρ 0 = ρ := by
  funext n; simp [shiftOracle]

theorem shiftOracle_shiftOracle (ρ : Nat → Bytes) (a b : Nat) :
    shiftOracle (shiftOracle ρ a) b = shiftOracle ρ (b + a) := by
  funext n; simp [shiftOracle, Nat.add_assoc]

theorem Interaction.run_done {α : Type} (a : α) (ρ : Nat → Bytes) :
    (Interaction.done a).run ρ = ([], .ok a) := rfl

theorem Interaction.run_fail {α : Type} (e : SignTxError) (ρ : Nat → Bytes) :
    (Interaction.fail (α := α) e).run ρ = ([], .error e) := rfl

theorem Interaction.run_step {α : Type} (m : SendParams) (k : Bytes → Interaction α)
    (ρ : Nat → Bytes) :
    (Interaction.step m k).run ρ =
      ((m :: ((k (ρ 0)).run (shiftOracle ρ 1)).1), ((k (ρ 0)).run (shiftOracle ρ 1)).2) := rfl

theorem run_yieldsI (ms : List SendParams) (ρ : Nat → Bytes) :
    (yieldsI ms).run ρ = (ms, .ok ()) := by
  induction ms generalizing ρ with
  | nil => rfl
  | cons m rest ih => simp [yieldsI, Interaction.run, ih]

theorem Interaction.run_bind_ok {α β : Type} {p : Interaction α} {f : α → Interaction β}
    {ρ : Nat → Bytes} {ms : List SendParams} {a : α}
    (h : p.run ρ = (ms, .ok a)) :
    (p.bind f).run ρ =
      (ms ++ ((f a).run (shiftOracle ρ ms.length)).1,
        ((f a).run (shiftOracle ρ ms.length)).2) := by
  induction p generalizing ρ ms with
  | done x =>
    simp [Interaction.run] at h
    obtain ⟨h1, h2⟩ := h
    subst h1; subst h2
    simp [Interaction.bind, shiftOracle_zero]
  | fail e => simp [Interaction.run] at h
  | step m k ih =>
    simp only [Interaction.run] at h
    have hms : ms = m :: ((k (ρ 0)).run (fun n => ρ (n + 1))).1 := by
      have := congrArg Prod.fst h; simpa using this.symm
    have hsnd : ((k (ρ 0)).run (fun n => ρ (n + 1))).2 = .ok a := by
      have := congrArg Prod.snd h; simpa using this
    subst hms
    have hrun : (k (ρ 0)).run (fun n => ρ (n + 1)) =
        (((k (ρ 0)).run (fun n => ρ (n + 1))).1, .ok a) := by
      rw [← hsnd]
    have hih := ih (ρ 0) (ρ := fun n => ρ (n + 1)) hrun
    have hsh : (shiftOracle (fun n => ρ (n + 1)) ((k (ρ 0)).run fun n => ρ (n + 1)).1.length)
        = shiftOracle ρ (((k (ρ 0)).run fun n => ρ (n + 1)).1.length + 1) := by
      funext n; simp [shiftOracle, Nat.add_assoc]
    simp only [Interaction.bind, Interaction.run, hih, hsh, List.length_cons,
      List.cons_append, Prod.mk.injEq]

theorem Interaction.run_bind_error {α β : Type} {p : Interaction α} {f : α → Interaction β}
    {ρ : Nat → Bytes} {ms : List SendParams} {e : SignTxError}
    (h : p.run ρ = (ms, .error e)) :
    (p.bind f).run ρ = (ms, .error e) := by
  induction p generalizing ρ ms with
  | done x => simp [Interaction.run] at h
  | fail e' =>
    simp [Interaction.run] at h
    obtain ⟨h1, h2⟩ := h
    subst h1; subst h2
    simp [Interaction.bind, Interaction.run]
  | step m k ih =>
    simp only [Interaction.run] at h
    have hms : ms = m :: ((k (ρ 0)).run (fun n => ρ (n + 1))).1 := by
      have := congrArg Prod.fst h; simpa using this.symm
    have hsnd : ((k (ρ 0)).run (fun n => ρ (n + 1))).2 = .error e := by
      have := congrArg Prod.snd h; simpa using this
    subst hms
    have hrun : (k (ρ 0)).run (fun n => ρ (n + 1)) =
        (((k (ρ 0)).run (fun n => ρ (n + 1))).1, .error e) := by
      rw [← hsnd]
    have := ih (ρ 0) (ρ := fun n => ρ (n + 1)) hrun
    simp [Interaction.bind, Interaction.run, this]

theorem Interaction.run_bind_fst_const {α β : Type} {p : Interaction α}
    {f : α → Interaction β} {ρ : Nat → Bytes} {ms ms' : List SendParams} {a : α}
    (h : p.run ρ = (ms, .ok a))
    (h' : (((f a).run (shiftOracle ρ ms.length)).1 = ms')) :
    ((p.bind f).run ρ).1 = ms ++ ms' := by
  rw [Interaction.run_bind_ok h]; simpa using h'

theorem yields_seq {a b : List SendParams} :
    (yieldsI a).bind (fun _ => yieldsI b) = yieldsI (a ++ b) := by
  induction a with
  | nil => rfl
  | cons m rest ih =>
    simp only [yieldsI, Interaction.bind, List.cons_append]
    exact congrArg (Interaction.step m) (funext fun _ => ih)

theorem yields_seq_bind {α : Type} {a b : List SendParams} {f : Unit → Interaction α} :
    (yieldsI a).bind (fun _ => (yieldsI b).bind f) = (yieldsI (a ++ b)).bind f := by
  induction a with
  | nil => rfl
  | cons m rest ih =>
    simp only [yieldsI, Interaction.bind, List.cons_append]
    exact congrArg (Interaction.step m) (funext fun _ => ih)

theorem forEachI_yieldsI {α : Type} (msF : α → List SendParams) (xs : List α) :
    forEachI xs (fun x => yieldsI (msF x)) = yieldsI (xs.flatMap msF) := by
  induction xs with
  | nil => rfl
  | cons x rest ih =>
    simp only [forEachI, List.flatMap_cons, ih, yields_seq]

theorem run_yieldsI_bind {α : Type} (ms : List SendParams) (f : Unit → Interaction α)
    (ρ : Nat → Bytes) :
    ((yieldsI ms).bind f).run ρ =
      (ms ++ ((f ()).run (shiftOracle ρ ms.length)).1,
        ((f ()).run (shiftOracle ρ ms.length)).2) :=
  Interaction.run_bind_ok (run_yieldsI ms ρ)

theorem run_awaitConfirm (ρ : Nat → Bytes) :
    signTx_awaitConfirm.run ρ = ([confirmMsg], .ok (ρ 0)) := rfl

theorem run_getWitness (path : BIP32Path) (ρ : Nat → Bytes) :
    (signTx_getWitness path).run ρ =
      ([witnessMsg path], .ok { path := path, witnessSignatureHex := ρ 0 }) := rfl

theorem run_mapI_witness (xs : List BIP32Path) (ρ : Nat → Bytes) :
    ∃ bs, (mapI xs signTx_getWitness).run ρ = (xs.map witnessMsg, .ok bs) := by
  induction xs generalizing ρ with
  | nil => exact ⟨[], rfl⟩
  | cons x rest ih =>
    obtain ⟨bs, hbs⟩ := ih (shiftOracle ρ 1)
    refine ⟨{ path := x, witnessSignatureHex := ρ 0 } :: bs, ?_⟩
    simp only [mapI]
    rw [Interaction.run_bind_ok (run_getWitness x ρ)]
    have : (shiftOracle ρ [witnessMsg x].length) = shiftOracle ρ 1 := rfl
    rw [this, Interaction.run_bind_ok hbs, Interaction.run_done]
    simp

theorem optStage_eq {γ : Type} (o : Option γ) (g : γ → Interaction Unit)
    (msF : γ → List SendParams) (h : ∀ t, g t = yieldsI (msF t)) :
    optStage o g = yieldsI (optMsgs o msF) := by
  cases o <;> simp [optStage, optMsgs, h, yieldsI]

theorem signTx_body_collapse (v : Version) (r : ParsedSigningRequest)
    (supp1 : Option TxAuxiliaryDataSupplement) :
    signTx_body v r supp1 =
      (yieldsI (txBodyPreAuxMsgs v r.tx)).bind fun _ =>
      ((if auxDataBeforeTxBody v then .done supp1
        else match r.tx.auxiliaryData with
          | some aux => signTx_setAuxiliaryData_before_v2_3 aux
          | none => .done supp1 :
        Interaction (Option TxAuxiliaryDataSupplement))).bind fun supplement =>
      (yieldsI (txTailPreMsgs v r.tx)).bind fun _ =>
      signTx_awaitConfirm.bind fun txHashHex =>
      (mapI (gatherWitnessPaths r) signTx_getWitness).bind fun witnesses =>
      .done { txHashHex := txHashHex, witnesses := witnesses,
              auxiliaryDataSupplement := supplement } := by
  have h1 : forEachI r.tx.inputs (fun input => signTx_addInput input) =
      yieldsI (r.tx.inputs.flatMap inputMsgs) := forEachI_yieldsI _ _
  have h2 : forEachI r.tx.outputs (fun output => signTx_addOutput output v) =
      yieldsI (r.tx.outputs.flatMap (outputMsgs v)) := forEachI_yieldsI _ _
  have h3 : forEachI r.tx.certificates (fun certificate =>
      signTx_addCertificate certificate v) =
      yieldsI (r.tx.certificates.flatMap (certificateMsgs v)) := forEachI_yieldsI _ _
  have h4 : forEachI r.tx.withdrawals (fun withdrawal =>
      signTx_addWithdrawal withdrawal v) =
      yieldsI (r.tx.withdrawals.flatMap (withdrawalMsgs v)) := forEachI_yieldsI _ _
  have h5 : forEachI r.tx.collateralInputs (fun collateralInput =>
      signTx_addCollateralInput collateralInput) =
      yieldsI (r.tx.collateralInputs.flatMap collateralInputMsgs) :=
    forEachI_yieldsI _ _
  have h6 : forEachI r.tx.requiredSigners (fun requiredSigner =>
      signTx_addRequiredSigner requiredSigner) =
      yieldsI (r.tx.requiredSigners.flatMap requiredSignerMsgs) := forEachI_yieldsI _ _
  have h7 : forEachI r.tx.referenceInputs (fun referenceInput =>
      signTx_addReferenceInput referenceInput) =
      yieldsI (r.tx.referenceInputs.flatMap referenceInputMsgs) := forEachI_yieldsI _ _
  have o1 : optStage r.tx.ttl (fun ttl => signTx_setTtl ttl) =
      yieldsI (optMsgs r.tx.ttl ttlMsgs) := optStage_eq _ _ _ (fun _ => rfl)
  have o2 : optStage r.tx.validityIntervalStart (fun t =>
      signTx_setValidityIntervalStart t) =
      yieldsI (optMsgs r.tx.validityIntervalStart validityMsgs) :=
    optStage_eq _ _ _ (fun _ => rfl)
  have o3 : optStage r.tx.mint (fun mint => signTx_setMint mint) =
      yieldsI (optMsgs r.tx.mint mintMsgs) := optStage_eq _ _ _ (fun _ => rfl)
  have o4 : optStage r.tx.scriptDataHashHex (fun h => signTx_setScriptDataHash h) =
      yieldsI (optMsgs r.tx.scriptDataHashHex scriptDataHashMsgs) :=
    optStage_eq _ _ _ (fun _ => rfl)
  have o5 : optStage r.tx.collateralOutput (fun collateralOutput =>
      signTx_addCollateralOutput collateralOutput v) =
      yieldsI (optMsgs r.tx.collateralOutput (collateralOutputMsgs v)) :=
    optStage_eq _ _ _ (fun _ => rfl)
  have o6 : optStage r.tx.totalCollateral (fun t => signTx_addTotalCollateral t) =
      yieldsI (optMsgs r.tx.totalCollateral totalCollateralMsgs) :=
    optStage_eq _ _ _ (fun _ => rfl)
  have hfee : signTx_setFee r.tx.fee = yieldsI (feeMsgs r.tx.fee) := rfl
  simp only [signTx_body, h1, h2, h3, h4, h5, h6, h7, o1, o2, o3, o4, o5, o6, hfee,
    yields_seq_bind, txBodyPreAuxMsgs, txTailPreMsgs, List.append_assoc]

theorem run_confirm_witnesses (r : ParsedSigningRequest)
    (supplement : Option TxAuxiliaryDataSupplement) (σ : Nat → Bytes) :
    ∃ txh ws,
      ((signTx_awaitConfirm.bind fun txHashHex =>
        (mapI (gatherWitnessPaths r) signTx_getWitness).bind fun witnesses =>
        (.done { txHashHex := txHashHex, witnesses := witnesses,
                 auxiliaryDataSupplement := supplement } :
          Interaction SignedTransactionData)).run σ) =
      ([confirmMsg] ++ (gatherWitnessPaths r).map witnessMsg,
        .ok { txHashHex := txh, witnesses := ws,
              auxiliaryDataSupplement := supplement }) := by
  obtain ⟨bs, hbs⟩ := run_mapI_witness (gatherWitnessPaths r) (shiftOracle σ 1)
  refine ⟨σ 0, bs, ?_⟩
  rw [Interaction.run_bind_ok (run_awaitConfirm σ)]
  have h1 : shiftOracle σ [confirmMsg].length = shiftOracle σ 1 := rfl
  rw [h1, Interaction.run_bind_ok hbs, Interaction.run_done]
  simp

theorem run_tail_from (v : Version) (r : ParsedSigningRequest)
    (supplement : Option TxAuxiliaryDataSupplement) (σ : Nat → Bytes) :
    ∃ txh ws,
      (((yieldsI (txTailPreMsgs v r.tx)).bind fun _ =>
        signTx_awaitConfirm.bind fun txHashHex =>
        (mapI (gatherWitnessPaths r) signTx_getWitness).bind fun witnesses =>
        (.done { txHashHex := txHashHex, witnesses := witnesses,
                 auxiliaryDataSupplement := supplement } :
          Interaction SignedTransactionData)).run σ) =
      (txTailMsgs v r,
        .ok { txHashHex := txh, witnesses := ws,
              auxiliaryDataSupplement := supplement }) := by
  obtain ⟨txh, ws, h⟩ :=
    run_confirm_witnesses r supplement (shiftOracle σ (txTailPreMsgs v r.tx).length)
  refine ⟨txh, ws, ?_⟩
  rw [run_yieldsI_bind, h]
  simp [txTailMsgs, List.append_assoc]

theorem run_setAuxLegacy_arb (h : Bytes) (σ : Nat → Bytes) :
    (signTx_setAuxiliaryData_before_v2_3 (.arbitraryHash h)).run σ =
      ([legacyAuxMsg h], .ok none) := rfl

theorem run_setAuxLegacy_cip36 (params : ParsedCVoteRegistrationParams)
    (σ : Nat → Bytes) :
    (signTx_setAuxiliaryData_before_v2_3 (.cip36Registration params)).run σ =
      ([], .error (.assertionFailed "Auxiliary data type not implemented")) := rfl

theorem Interaction.done_bind {α β : Type} (a : α) (f : α → Interaction β) :
    (Interaction.done a).bind f = f a := rfl

theorem run_signTx_body_auxBefore (v : Version) (r : ParsedSigningRequest)
    (supp1 : Option TxAuxiliaryDataSupplement) (ρ : Nat → Bytes)
    (h : auxDataBeforeTxBody v = true) :
    ∃ txh ws, (signTx_body v r supp1).run ρ =
      (txBodyPreAuxMsgs v r.tx ++ txTailMsgs v r,
        .ok { txHashHex := txh, witnesses := ws,
              auxiliaryDataSupplement := supp1 }) := by
  obtain ⟨txh, ws, htail⟩ :=
    run_tail_from v r supp1 (shiftOracle ρ (txBodyPreAuxMsgs v r.tx).length)
  refine ⟨txh, ws, ?_⟩
  have hcol := signTx_body_collapse v r supp1
  simp only [h, if_true, Interaction.done_bind] at hcol
  rw [hcol, run_yieldsI_bind, htail]

theorem run_signTx_body_noAux (v : Version) (r : ParsedSigningRequest)
    (supp1 : Option TxAuxiliaryDataSupplement) (ρ : Nat → Bytes)
    (h : auxDataBeforeTxBody v = false) (ha : r.tx.auxiliaryData = none) :
    ∃ txh ws, (signTx_body v r supp1).run ρ =
      (txBodyPreAuxMsgs v r.tx ++ txTailMsgs v r,
        .ok { txHashHex := txh, witnesses := ws,
              auxiliaryDataSupplement := supp1 }) := by
  obtain ⟨txh, ws, htail⟩ :=
    run_tail_from v r supp1 (shiftOracle ρ (txBodyPreAuxMsgs v r.tx).length)
  refine ⟨txh, ws, ?_⟩
  have hcol := signTx_body_collapse v r supp1
  simp only [h, ha, Bool.false_eq_true, if_false, Interaction.done_bind] at hcol
  rw [hcol, run_yieldsI_bind, htail]

theorem run_signTx_body_legacyArb (v : Version) (r : ParsedSigningRequest)
    (supp1 : Option TxAuxiliaryDataSupplement) (ρ : Nat → Bytes) (hx : Bytes)
    (h : auxDataBeforeTxBody v = false)
    (ha : r.tx.auxiliaryData = some (.arbitraryHash hx)) :
    ∃ txh ws, (signTx_body v r supp1).run ρ =
      (txBodyPreAuxMsgs v r.tx ++ legacyAuxMsg hx :: txTailMsgs v r,
        .ok { txHashHex := txh, witnesses := ws,
              auxiliaryDataSupplement := none }) := by
  obtain ⟨txh, ws, htail⟩ :=
    run_tail_from v r none
      (shiftOracle (shiftOracle ρ (txBodyPreAuxMsgs v r.tx).length) 1)
  refine ⟨txh, ws, ?_⟩
  have hcol := signTx_body_collapse v r supp1
  simp only [h, ha, Bool.false_eq_true, if_false] at hcol
  rw [hcol, run_yieldsI_bind,
    Interaction.run_bind_ok
      (run_setAuxLegacy_arb hx (shiftOracle ρ (txBodyPreAuxMsgs v r.tx).length))]
  have h1 : shiftOracle (shiftOracle ρ (txBodyPreAuxMsgs v r.tx).length)
      [legacyAuxMsg hx].length =
      shiftOracle (shiftOracle ρ (txBodyPreAuxMsgs v r.tx).length) 1 := rfl
  rw [h1, htail]
  simp

theorem run_signTx_body_legacyCip36 (v : Version) (r : ParsedSigningRequest)
    (supp1 : Option TxAuxiliaryDataSupplement) (ρ : Nat → Bytes)
    (params : ParsedCVoteRegistrationParams)
    (h : auxDataBeforeTxBody v = false)
    (ha : r.tx.auxiliaryData = some (.cip36Registration params)) :
    (signTx_body v r supp1).run ρ =
      (txBodyPreAuxMsgs v r.tx,
        .error (.assertionFailed "Auxiliary data type not implemented")) := by
  have hcol := signTx_body_collapse v r supp1
  simp only [h, ha, Bool.false_eq_true, if_false] at hcol
  rw [hcol, run_yieldsI_bind,
    Interaction.run_bind_error
      (run_setAuxLegacy_cip36 params (shiftOracle ρ (txBodyPreAuxMsgs v r.tx).length))]
  simp

theorem run_yields_step_done {α : Type} (ms : List SendParams) (m : SendParams)
    (f : Bytes → α) (ρ : Nat → Bytes) :
    (((yieldsI ms).bind fun _ => .step m (fun resp => .done (f resp))).run ρ) =
      (ms ++ [m], .ok (f (ρ ms.length))) := by
  rw [run_yieldsI_bind]
  simp [Interaction.run, shiftOracle]

theorem run_setAux_arbitrary (h : Bytes) (v : Version) (ρ : Nat → Bytes) :
    (signTx_setAuxiliaryData (.arbitraryHash h) v).run ρ =
      (auxDataMsgs v (.arbitraryHash h), .ok none) := rfl

theorem run_setAux_cip36_ok (params : ParsedCVoteRegistrationParams) (v : Version)
    (ρ : Nat → Bytes)
    (hwf : (cip36HasVoteKey params || params.delegations.isSome) = true) :
    ∃ k, (signTx_setAuxiliaryData (.cip36Registration params) v).run ρ =
      (auxDataMsgs v (.cip36Registration params),
        .ok (some
          { auxiliaryDataHashHex := (ρ k).take AUXILIARY_DATA_HASH_LENGTH,
            cip36VoteRegistrationSignatureHex :=
              ((ρ k).drop AUXILIARY_DATA_HASH_LENGTH).take
                ED25519_SIGNATURE_LENGTH })) := by
  by_cases hk : cip36HasVoteKey params = true
  · refine ⟨([auxMainMsg (.cip36Registration params)] ++
      (if v.compat.supportsCIP36 then [cvoteInitMsg params] else []) ++
      [cvoteVoteKeyMsg params v] ++
      ([cvoteStakingKeyMsg params, cvotePaymentMsg params v, cvoteNonceMsg params] ++
        (if v.compat.supportsCIP36 then [cvoteVotingPurposeMsg params]
         else []))).length, ?_⟩
    have hprog : signTx_setAuxiliaryData (.cip36Registration params) v =
        (yieldsI ([auxMainMsg (.cip36Registration params)] ++
          (if v.compat.supportsCIP36 then [cvoteInitMsg params] else []) ++
          [cvoteVoteKeyMsg params v] ++
          ([cvoteStakingKeyMsg params, cvotePaymentMsg params v,
            cvoteNonceMsg params] ++
           (if v.compat.supportsCIP36 then [cvoteVotingPurposeMsg params]
            else [])))).bind fun _ =>
        .step cvoteConfirmMsg (fun response =>
          .done (some
            { auxiliaryDataHashHex := response.take AUXILIARY_DATA_HASH_LENGTH,
              cip36VoteRegistrationSignatureHex :=
                (response.drop AUXILIARY_DATA_HASH_LENGTH).take
                  ED25519_SIGNATURE_LENGTH })) := by
      simp only [signTx_setAuxiliaryData, hk, if_true, yields_seq_bind,
        List.append_assoc]
    rw [hprog, run_yields_step_done]
    have hmsgs : auxDataMsgs v (.cip36Registration params) =
        ([auxMainMsg (.cip36Registration params)] ++
          (if v.compat.supportsCIP36 then [cvoteInitMsg params] else []) ++
          [cvoteVoteKeyMsg params v] ++
          ([cvoteStakingKeyMsg params, cvotePaymentMsg params v,
            cvoteNonceMsg params] ++
           (if v.compat.supportsCIP36 then [cvoteVotingPurposeMsg params]
            else []))) ++ [cvoteConfirmMsg] := by
      simp [auxDataMsgs, hk, List.append_assoc]
    rw [hmsgs]
  · have hk' : cip36HasVoteKey params = false := by
      cases hcv : cip36HasVoteKey params
      · rfl
      · exact absurd hcv hk
    have hds : params.delegations.isSome = true := by
      rw [hk', Bool.false_or] at hwf; exact hwf
    obtain ⟨ds, hds'⟩ := Option.isSome_iff_exists.mp hds
    refine ⟨([auxMainMsg (.cip36Registration params)] ++
      (if v.compat.supportsCIP36 then [cvoteInitMsg params] else []) ++
      ds.map cvoteDelegationMsg ++
      ([cvoteStakingKeyMsg params, cvotePaymentMsg params v, cvoteNonceMsg params] ++
        (if v.compat.supportsCIP36 then [cvoteVotingPurposeMsg params]
         else []))).length, ?_⟩
    have hprog : signTx_setAuxiliaryData (.cip36Registration params) v =
        (yieldsI ([auxMainMsg (.cip36Registration params)] ++
          (if v.compat.supportsCIP36 then [cvoteInitMsg params] else []) ++
          ds.map cvoteDelegationMsg ++
          ([cvoteStakingKeyMsg params, cvotePaymentMsg params v,
            cvoteNonceMsg params] ++
           (if v.compat.supportsCIP36 then [cvoteVotingPurposeMsg params]
            else [])))).bind fun _ =>
        .step cvoteConfirmMsg (fun response =>
          .done (some
            { auxiliaryDataHashHex := response.take AUXILIARY_DATA_HASH_LENGTH,
              cip36VoteRegistrationSignatureHex :=
                (response.drop AUXILIARY_DATA_HASH_LENGTH).take
                  ED25519_SIGNATURE_LENGTH })) := by
      simp only [signTx_setAuxiliaryData, hk', Bool.false_eq_true, if_false, hds',
        yields_seq_bind, List.append_assoc]
    rw [hprog, run_yields_step_done]
    have hmsgs : auxDataMsgs v (.cip36Registration params) =
        ([auxMainMsg (.cip36Registration params)] ++
          (if v.compat.supportsCIP36 then [cvoteInitMsg params] else []) ++
          ds.map cvoteDelegationMsg ++
          ([cvoteStakingKeyMsg params, cvotePaymentMsg params v,
            cvoteNonceMsg params] ++
           (if v.compat.supportsCIP36 then [cvoteVotingPurposeMsg params]
            else []))) ++ [cvoteConfirmMsg] := by
      simp [auxDataMsgs, hk', hds', List.append_assoc]
    rw [hmsgs]

theorem run_setAux_cip36_neither (params : ParsedCVoteRegistrationParams)
    (v : Version) (ρ : Nat → Bytes)
    (hk : cip36HasVoteKey params = false) (hd : params.delegations = none) :
    (signTx_setAuxiliaryData (.cip36Registration params) v).run ρ =
      (auxDataMsgs v (.cip36Registration params),
        .error (.malformedRequest "wrong CIP36 registration params")) := by
  have hprog : signTx_setAuxiliaryData (.cip36Registration params) v =
      (yieldsI ([auxMainMsg (.cip36Registration params)] ++
        (if v.compat.supportsCIP36 then [cvoteInitMsg params] else []))).bind fun _ =>
      (Interaction.fail (α := Unit)
        (.malformedRequest "wrong CIP36 registration params")).bind fun _ =>
      (yieldsI ([cvoteStakingKeyMsg params, cvotePaymentMsg params v,
          cvoteNonceMsg params] ++
        (if v.compat.supportsCIP36 then [cvoteVotingPurposeMsg params]
         else []))).bind fun _ =>
      .step cvoteConfirmMsg (fun response =>
        .done (some
          { auxiliaryDataHashHex := response.take AUXILIARY_DATA_HASH_LENGTH,
            cip36VoteRegistrationSignatureHex :=
              (response.drop AUXILIARY_DATA_HASH_LENGTH).take
                ED25519_SIGNATURE_LENGTH })) := by
    simp only [signTx_setAuxiliaryData, hk, Bool.false_eq_true, if_false, hd,
      yields_seq_bind, List.append_assoc]
  rw [hprog, run_yieldsI_bind,
    Interaction.run_bind_error
      (Interaction.run_fail (.malformedRequest "wrong CIP36 registration params") _)]
  have hmsgs : auxDataMsgs v (.cip36Registration params) =
      [auxMainMsg (.cip36Registration params)] ++
        (if v.compat.supportsCIP36 then [cvoteInitMsg params] else []) := by
    simp [auxDataMsgs, hk, hd, cip36HasVoteKey]
    simp [cip36HasVoteKey] at hk
    simp [hk]
  rw [hmsgs]
  simp

theorem signTransaction_unfold (v : Version) (r : ParsedSigningRequest)
    (hc : v.compatible = true)
    (hval : ensureRequestSupportedByAppVersion v r = none) :
    signTransaction v r =
      (yieldsI (initMsgs r.tx r.signingMode (gatherWitnessPaths r) v)).bind fun _ =>
      ((if auxDataBeforeTxBody v then
          match r.tx.auxiliaryData with
          | some aux => signTx_setAuxiliaryData aux v
          | none => .done none
        else .done none : Interaction (Option TxAuxiliaryDataSupplement))).bind
        fun supp1 =>
      signTx_body v r supp1 := by
  simp only [signTransaction, hc, hval, Bool.true_eq_false, if_false, signTx_init]

theorem run_signTransaction_incompatible (v : Version) (r : ParsedSigningRequest)
    (ρ : Nat → Bytes) (hc : v.compatible = false) :
    (signTransaction v r).run ρ = ([], .error (.versionIncompatible v.versionString)) := by
  simp [signTransaction, hc, Interaction.run]

theorem run_signTransaction_unsupported (v : Version) (r : ParsedSigningRequest)
    (ρ : Nat → Bytes) (e : UnsupportedErr) (hc : v.compatible = true)
    (hval : ensureRequestSupportedByAppVersion v r = some e) :
    (signTransaction v r).run ρ =
      ([], .error (.deviceVersionUnsupported e.feature e.versionString)) := by
  simp [signTransaction, hc, hval, Interaction.run]

theorem run_signTransaction_noAuxData (v : Version) (r : ParsedSigningRequest)
    (ρ : Nat → Bytes) (hc : v.compatible = true)
    (hval : ensureRequestSupportedByAppVersion v r = none)
    (haux : r.tx.auxiliaryData = none) :
    ∃ txh ws, (signTransaction v r).run ρ =
      (txAllMessages v r,
        .ok { txHashHex := txh, witnesses := ws,
              auxiliaryDataSupplement := none }) := by
  by_cases hb : auxDataBeforeTxBody v = true
  · obtain ⟨txh, ws, hbody⟩ :=
      run_signTx_body_auxBefore v r none
        (shiftOracle ρ (initMsgs r.tx r.signingMode (gatherWitnessPaths r) v).length) hb
    refine ⟨txh, ws, ?_⟩
    rw [signTransaction_unfold v r hc hval, run_yieldsI_bind]
    simp only [hb, if_true, haux, Interaction.done_bind, hbody]
    simp [txAllMessages, hc, hval, hb, haux, List.append_assoc]
  · have hb' : auxDataBeforeTxBody v = false := by
      cases hbv : auxDataBeforeTxBody v
      · rfl
      · exact absurd hbv hb
    obtain ⟨txh, ws, hbody⟩ :=
      run_signTx_body_noAux v r none
        (shiftOracle ρ (initMsgs r.tx r.signingMode (gatherWitnessPaths r) v).length)
        hb' haux
    refine ⟨txh, ws, ?_⟩
    rw [signTransaction_unfold v r hc hval, run_yieldsI_bind]
    simp only [hb', Bool.false_eq_true, if_false, Interaction.done_bind, hbody]
    simp [txAllMessages, hc, hval, hb', haux, List.append_assoc]

theorem run_signTransaction_auxBefore_arb (v : Version) (r : ParsedSigningRequest)
    (ρ : Nat → Bytes) (hx : Bytes) (hc : v.compatible = true)
    (hval : ensureRequestSupportedByAppVersion v r = none)
    (hb : auxDataBeforeTxBody v = true)
    (haux : r.tx.auxiliaryData = some (.arbitraryHash hx)) :
    ∃ txh ws, (signTransaction v r).run ρ =
      (txAllMessages v r,
        .ok { txHashHex := txh, witnesses := ws,
              auxiliaryDataSupplement := none }) := by
  have σ1 := shiftOracle ρ (initMsgs r.tx r.signingMode (gatherWitnessPaths r) v).length
  obtain ⟨txh, ws, hbody⟩ :=
    run_signTx_body_auxBefore v r none
      (shiftOracle
        (shiftOracle ρ (initMsgs r.tx r.signingMode (gatherWitnessPaths r) v).length)
        (auxDataMsgs v (.arbitraryHash hx)).length) hb
  refine ⟨txh, ws, ?_⟩
  rw [signTransaction_unfold v r hc hval, run_yieldsI_bind]
  simp only [hb, if_true, haux]
  rw [Interaction.run_bind_ok (run_setAux_arbitrary hx v _), hbody]
  simp [txAllMessages, hc, hval, hb, haux, auxRunOk, List.append_assoc]

theorem run_signTransaction_auxBefore_cip36_ok (v : Version)
    (r : ParsedSigningRequest) (ρ : Nat → Bytes)
    (params : ParsedCVoteRegistrationParams) (hc : v.compatible = true)
    (hval : ensureRequestSupportedByAppVersion v r = none)
    (hb : auxDataBeforeTxBody v = true)
    (haux : r.tx.auxiliaryData = some (.cip36Registration params))
    (hwf : (cip36HasVoteKey params || params.delegations.isSome) = true) :
    ∃ txh ws k, (signTransaction v r).run ρ =
      (txAllMessages v r,
        .ok { txHashHex := txh, witnesses := ws,
              auxiliaryDataSupplement := some
                { auxiliaryDataHashHex := (ρ k).take AUXILIARY_DATA_HASH_LENGTH,
                  cip36VoteRegistrationSignatureHex :=
                    ((ρ k).drop AUXILIARY_DATA_HASH_LENGTH).take
                      ED25519_SIGNATURE_LENGTH } }) := by
  obtain ⟨k, hauxrun⟩ :=
    run_setAux_cip36_ok params v
      (shiftOracle ρ (initMsgs r.tx r.signingMode (gatherWitnessPaths r) v).length) hwf
  obtain ⟨txh, ws, hbody⟩ :=
    run_signTx_body_auxBefore v r
      (some
        { auxiliaryDataHashHex :=
            ((shiftOracle ρ
              (initMsgs r.tx r.signingMode (gatherWitnessPaths r) v).length) k).take
              AUXILIARY_DATA_HASH_LENGTH,
          cip36VoteRegistrationSignatureHex :=
            (((shiftOracle ρ
              (initMsgs r.tx r.signingMode (gatherWitnessPaths r) v).length) k).drop
              AUXILIARY_DATA_HASH_LENGTH).take ED25519_SIGNATURE_LENGTH })
      (shiftOracle
        (shiftOracle ρ (initMsgs r.tx r.signingMode (gatherWitnessPaths r) v).length)
        (auxDataMsgs v (.cip36Registration params)).length) hb
  refine ⟨txh, ws,
    k + (initMsgs r.tx r.signingMode (gatherWitnessPaths r) v).length, ?_⟩
  rw [signTransaction_unfold v r hc hval, run_yieldsI_bind]
  simp only [hb, if_true, haux]
  rw [Interaction.run_bind_ok hauxrun, hbody]
  have hrw : (shiftOracle ρ
      (initMsgs r.tx r.signingMode (gatherWitnessPaths r) v).length) k =
      ρ (k + (initMsgs r.tx r.signingMode (gatherWitnessPaths r) v).length) := rfl
  rw [hrw]
  simp only [txAllMessages, hc, hval, hb, haux, auxRunOk, hwf, if_true,
    List.append_assoc]
  simp

theorem run_signTransaction_auxBefore_cip36_neither (v : Version)
    (r : ParsedSigningRequest) (ρ : Nat → Bytes)
    (params : ParsedCVoteRegistrationParams) (hc : v.compatible = true)
    (hval : ensureRequestSupportedByAppVersion v r = none)
    (hb : auxDataBeforeTxBody v = true)
    (haux : r.tx.auxiliaryData = some (.cip36Registration params))
    (hk : cip36HasVoteKey params = false) (hd : params.delegations = none) :
    (signTransaction v r).run ρ =
      (txAllMessages v r,
        .error (.malformedRequest "wrong CIP36 registration params")) := by
  rw [signTransaction_unfold v r hc hval, run_yieldsI_bind]
  simp only [hb, if_true, haux]
  rw [Interaction.run_bind_error (run_setAux_cip36_neither params v _ hk hd)]
  have hro : auxRunOk (.cip36Registration params) = false := by
    simp [auxRunOk, hk, hd]
  simp [txAllMessages, hc, hval, hb, haux, hro, List.append_assoc]

theorem run_signTransaction_legacy_none (v : Version) (r : ParsedSigningRequest)
    (ρ : Nat → Bytes) (hc : v.compatible = true)
    (hval : ensureRequestSupportedByAppVersion v r = none)
    (hb : auxDataBeforeTxBody v = false)
    (haux : r.tx.auxiliaryData = none) :
    ∃ txh ws, (signTransaction v r).run ρ =
      (txAllMessages v r,
        .ok { txHashHex := txh, witnesses := ws,
              auxiliaryDataSupplement := none }) := by
  obtain ⟨txh, ws, hbody⟩ :=
    run_signTx_body_noAux v r none
      (shiftOracle ρ (initMsgs r.tx r.signingMode (gatherWitnessPaths r) v).length)
      hb haux
  refine ⟨txh, ws, ?_⟩
  rw [signTransaction_unfold v r hc hval, run_yieldsI_bind]
  simp only [hb, Bool.false_eq_true, if_false, Interaction.done_bind, hbody]
  simp [txAllMessages, hc, hval, hb, haux, List.append_assoc]

theorem run_signTransaction_legacy_arb (v : Version) (r : ParsedSigningRequest)
    (ρ : Nat → Bytes) (hx : Bytes) (hc : v.compatible = true)
    (hval : ensureRequestSupportedByAppVersion v r = none)
    (hb : auxDataBeforeTxBody v = false)
    (haux : r.tx.auxiliaryData = some (.arbitraryHash hx)) :
    ∃ txh ws, (signTransaction v r).run ρ =
      (txAllMessages v r,
        .ok { txHashHex := txh, witnesses := ws,
              auxiliaryDataSupplement := none }) := by
  obtain ⟨txh, ws, hbody⟩ :=
    run_signTx_body_legacyArb v r none
      (shiftOracle ρ (initMsgs r.tx r.signingMode (gatherWitnessPaths r) v).length)
      hx hb haux
  refine ⟨txh, ws, ?_⟩
  rw [signTransaction_unfold v r hc hval, run_yieldsI_bind]
  simp only [hb, Bool.false_eq_true, if_false, Interaction.done_bind, hbody]
  simp [txAllMessages, hc, hval, hb, haux, List.append_assoc]

theorem run_signTransaction_legacy_cip36 (v : Version) (r : ParsedSigningRequest)
    (ρ : Nat → Bytes) (params : ParsedCVoteRegistrationParams)
    (hc : v.compatible = true)
    (hval : ensureRequestSupportedByAppVersion v r = none)
    (hb : auxDataBeforeTxBody v = false)
    (haux : r.tx.auxiliaryData = some (.cip36Registration params)) :
    (signTransaction v r).run ρ =
      (txAllMessages v r,
        .error (.assertionFailed "Auxiliary data type not implemented")) := by
  rw [signTransaction_unfold v r hc hval, run_yieldsI_bind]
  simp only [hb, Bool.false_eq_true, if_false, Interaction.done_bind]
  rw [run_signTx_body_legacyCip36 v r none _ params hb haux]
  simp [txAllMessages, hc, hval, hb, haux, List.append_assoc]

theorem run_signTransaction_fst (v : Version) (r : ParsedSigningRequest)
    (ρ : Nat → Bytes) :
    ((signTransaction v r).run ρ).1 = txAllMessages v r := by
  by_cases hc : v.compatible = true
  · cases hval : ensureRequestSupportedByAppVersion v r with
    | some e =>
      rw [run_signTransaction_unsupported v r ρ e hc hval]
      simp [txAllMessages, hc, hval]
    | none =>
      cases haux : r.tx.auxiliaryData with
      | none =>
        obtain ⟨txh, ws, h⟩ := run_signTransaction_noAuxData v r ρ hc hval haux
        rw [h]
      | some aux =>
        by_cases hb : auxDataBeforeTxBody v = true
        · cases aux with
          | arbitraryHash hx =>
            obtain ⟨txh, ws, h⟩ :=
              run_signTransaction_auxBefore_arb v r ρ hx hc hval hb haux
            rw [h]
          | cip36Registration params =>
            by_cases hwf : (cip36HasVoteKey params || params.delegations.isSome) = true
            · obtain ⟨txh, ws, k, h⟩ :=
                run_signTransaction_auxBefore_cip36_ok v r ρ params hc hval hb haux hwf
              rw [h]
            · have hk : cip36HasVoteKey params = false := by
                cases hkv : cip36HasVoteKey params
                · rfl
                · exact absurd (by simp [hkv]) hwf
              have hd : params.delegations = none := by
                cases hdo : params.delegations
                · rfl
                · exact absurd (by simp [hk, hdo]) hwf
              rw [run_signTransaction_auxBefore_cip36_neither v r ρ params hc hval hb
                haux hk hd]
        · have hb' : auxDataBeforeTxBody v = false := by
            cases hbv : auxDataBeforeTxBody v
            · rfl
            · exact absurd hbv hb
          cases aux with
          | arbitraryHash hx =>
            obtain ⟨txh, ws, h⟩ :=
              run_signTransaction_legacy_arb v r ρ hx hc hval hb' haux
            rw [h]
          | cip36Registration params =>
            rw [run_signTransaction_legacy_cip36 v r ρ params hc hval hb' haux]
  · have hc' : v.compatible = false := by
      cases hcv : v.compatible
      · rfl
      · exact absurd hcv hc
    rw [run_signTransaction_incompatible v r ρ hc']
    simp [txAllMessages, hc']

theorem run_signTransaction_error_cases (v : Version) (r : ParsedSigningRequest)
    (ρ : Nat → Bytes) (e : SignTxError)
    (h : ((signTransaction v r).run ρ).2 = .error e) :
    (v.compatible = false ∧ e = .versionIncompatible v.versionString) ∨
    (∃ err, v.compatible = true ∧
      ensureRequestSupportedByAppVersion v r = some err ∧
      e = .deviceVersionUnsupported err.feature err.versionString) ∨
    (∃ params, r.tx.auxiliaryData = some (.cip36Registration params) ∧
      cip36HasVoteKey params = false ∧ params.delegations = none ∧
      e = .malformedRequest "wrong CIP36 registration params") ∨
    (∃ params, r.tx.auxiliaryData = some (.cip36Registration params) ∧
      auxDataBeforeTxBody v = false ∧
      e = .assertionFailed "Auxiliary data type not implemented") := by
  by_cases hc : v.compatible = true
  · cases hval : ensureRequestSupportedByAppVersion v r with
    | some err =>
      rw [run_signTransaction_unsupported v r ρ err hc hval] at h
      simp at h
      exact Or.inr (Or.inl ⟨err, hc, rfl, h.symm⟩)
    | none =>
      cases haux : r.tx.auxiliaryData with
      | none =>
        obtain ⟨txh, ws, hrun⟩ := run_signTransaction_noAuxData v r ρ hc hval haux
        rw [hrun] at h
        simp at h
      | some aux =>
        by_cases hb : auxDataBeforeTxBody v = true
        · cases aux with
          | arbitraryHash hx =>
            obtain ⟨txh, ws, hrun⟩ :=
              run_signTransaction_auxBefore_arb v r ρ hx hc hval hb haux
            rw [hrun] at h
            simp at h
          | cip36Registration params =>
            by_cases hwf : (cip36HasVoteKey params || params.delegations.isSome) = true
            · obtain ⟨txh, ws, k, hrun⟩ :=
                run_signTransaction_auxBefore_cip36_ok v r ρ params hc hval hb haux hwf
              rw [hrun] at h
              simp at h
            · have hk : cip36HasVoteKey params = false := by
                cases hkv : cip36HasVoteKey params
                · rfl
                · exact absurd (by simp [hkv]) hwf
              have hd : params.delegations = none := by
                cases hdo : params.delegations
                · rfl
                · exact absurd (by simp [hk, hdo]) hwf
              rw [run_signTransaction_auxBefore_cip36_neither v r ρ params hc hval hb
                haux hk hd] at h
              simp at h
              exact Or.inr (Or.inr (Or.inl ⟨params, rfl, hk, hd, h.symm⟩))
        · have hb' : auxDataBeforeTxBody v = false := by
            cases hbv : auxDataBeforeTxBody v
            · rfl
            · exact absurd hbv hb
          cases aux with
          | arbitraryHash hx =>
            obtain ⟨txh, ws, hrun⟩ :=
              run_signTransaction_legacy_arb v r ρ hx hc hval hb' haux
            rw [hrun] at h
            simp at h
          | cip36Registration params =>
            rw [run_signTransaction_legacy_cip36 v r ρ params hc hval hb' haux] at h
            simp at h
            exact Or.inr (Or.inr (Or.inr ⟨params, rfl, hb', h.symm⟩))
  · have hc' : v.compatible = false := by
      cases hcv : v.compatible
      · rfl
      · exact absurd hcv hc
    rw [run_signTransaction_incompatible v r ρ hc'] at h
    simp at h
    exact Or.inl ⟨hc', h.symm⟩

theorem mem_sendChunksFrom_bounded (chunkSize : Nat) (hexBytes : Bytes) (p2 : Nat)
    (n : Nat) :
    ∀ start, hexBytes.length - start ≤ n →
      ∀ m ∈ sendChunksFrom chunkSize hexBytes p2 start,
        m.p1 = P1_STAGE_OUTPUTS ∧ m.p2 = p2 ∧ m.expectedResponseLength = some 0 ∧
          ∃ chunk : Bytes, m.data = uint32_to_buf chunk.length ++ chunk ∧
            chunk.length ≤ chunkSize := by
  induction n with
  | zero =>
    intro start hle m hm
    by_cases hcond : start < hexBytes.length ∧ 0 < chunkSize
    · omega
    · rw [sendChunksFrom, dif_neg hcond] at hm
      simp at hm
  | succ n ih =>
    intro start hle m hm
    by_cases hcond : start < hexBytes.length ∧ 0 < chunkSize
    · rw [sendChunksFrom, dif_pos hcond] at hm
      rcases List.mem_cons.mp hm with hm' | hm'
      · subst hm'
        refine ⟨rfl, rfl, rfl, (hexBytes.drop start).take chunkSize, rfl, ?_⟩
        exact List.length_take_le chunkSize _
      · exact ih (start + chunkSize) (by omega) m hm'
    · rw [sendChunksFrom, dif_neg hcond] at hm
      simp at hm

theorem mem_sendChunksFrom {chunkSize : Nat} {hexBytes : Bytes} {p2 start : Nat}
    {m : SendParams} (h : m ∈ sendChunksFrom chunkSize hexBytes p2 start) :
    m.p1 = P1_STAGE_OUTPUTS ∧ m.p2 = p2 ∧ m.expectedResponseLength = some 0 ∧
      ∃ chunk : Bytes, m.data = uint32_to_buf chunk.length ++ chunk ∧
        chunk.length ≤ chunkSize :=
  mem_sendChunksFrom_bounded chunkSize hexBytes p2 hexBytes.length start
    (Nat.sub_le _ _) m h

theorem mem_ite_list {c : Prop} [Decidable c] {a b : List SendParams} {m : SendParams}
    (h : m ∈ (if c then a else b)) : m ∈ a ∨ m ∈ b := by
  split at h
  · exact Or.inl h
  · exact Or.inr h

theorem mem_tokenBundleMsgs {T : Type} {tb : List (ParsedAssetGroup T)} {p1 : Nat}
    {ser : T → Bytes} {m : SendParams} (h : m ∈ tokenBundleMsgs tb p1 ser) :
    m.p1 = p1 ∧ m.expectedResponseLength = some 0 := by
  simp only [tokenBundleMsgs, List.mem_flatMap, List.mem_cons, List.mem_map] at h
  obtain ⟨ag, _, h⟩ := h
  rcases h with rfl | ⟨t, _, rfl⟩
  · exact ⟨rfl, rfl⟩
  · exact ⟨rfl, rfl⟩

theorem mem_outputMsgs {v : Version} {o : ParsedOutput} {m : SendParams}
    (h : m ∈ outputMsgs v o) :
    m.p1 = P1_STAGE_OUTPUTS ∧ m.expectedResponseLength = some 0 := by
  simp only [outputMsgs, List.mem_append, List.mem_cons, List.mem_singleton,
    List.not_mem_nil, or_false, false_or] at h
  rcases h with (((h | h) | h) | h) | h
  · exact h ▸ ⟨rfl, rfl⟩
  · exact mem_tokenBundleMsgs h
  · cases hdat : o.datum with
    | none => rw [hdat] at h; simp at h
    | some d =>
      rw [hdat] at h
      rcases List.mem_cons.mp h with rfl | h'
      · exact ⟨rfl, rfl⟩
      · cases d with
        | hash dh => simp at h'
        | inline dh =>
          rcases mem_ite_list h' with h'' | h''
          · rw [signTx_addOutput_sendChunks, sendChunksMsgs] at h''
            obtain ⟨hp1, _, herl, _⟩ := mem_sendChunksFrom h''
            exact ⟨hp1, herl⟩
          · simp at h''
  · cases href : o.referenceScriptHex with
    | none => rw [href] at h; simp at h
    | some s =>
      rw [href] at h
      rcases List.mem_cons.mp h with rfl | h'
      · exact ⟨rfl, rfl⟩
      · rcases mem_ite_list h' with h'' | h''
        · rw [signTx_addOutput_sendChunks, sendChunksMsgs] at h''
          obtain ⟨hp1, _, herl, _⟩ := mem_sendChunksFrom h''
          exact ⟨hp1, herl⟩
        · simp at h''
  · exact h ▸ ⟨rfl, rfl⟩

theorem mem_poolRegistrationMsgs {pool : ParsedPoolParams} {m : SendParams}
    (h : m ∈ poolRegistrationMsgs pool) :
    m.p1 = P1_STAGE_CERTIFICATES ∧ m.expectedResponseLength = some 0 := by
  simp only [poolRegistrationMsgs, List.mem_append, List.mem_cons, List.mem_map,
    List.mem_singleton, List.not_mem_nil, or_false] at h
  rcases h with (((h | h | h | h | h) | ⟨ow, hw, hm⟩) | ⟨rl, hr, hm⟩) | h | h
  all_goals first
    | (subst h; exact ⟨rfl, rfl⟩)
    | (subst hm; exact ⟨rfl, rfl⟩)

theorem mem_poolRegistrationLegacyMsgs {pool : ParsedPoolParams} {m : SendParams}
    (h : m ∈ poolRegistrationLegacyMsgs pool) :
    m.p1 = P1_STAGE_CERTIFICATES ∧ m.expectedResponseLength = some 0 := by
  simp only [poolRegistrationLegacyMsgs, List.mem_append, List.mem_cons, List.mem_map,
    List.mem_singleton, List.not_mem_nil, or_false] at h
  rcases h with ((h | ⟨ow, hw, hm⟩) | ⟨rl, hr, hm⟩) | h | h
  all_goals first
    | (subst h; exact ⟨rfl, rfl⟩)
    | (subst hm; exact ⟨rfl, rfl⟩)

theorem mem_certificateMsgs {v : Version} {c : ParsedCertificate} {m : SendParams}
    (h : m ∈ certificateMsgs v c) :
    m.p1 = P1_STAGE_CERTIFICATES ∧ m.expectedResponseLength = some 0 := by
  rcases List.mem_cons.mp h with rfl | h'
  · exact ⟨rfl, rfl⟩
  · cases c with
    | stakePoolRegistration pool =>
      rcases mem_ite_list h' with h'' | h''
      · exact mem_poolRegistrationMsgs h''
      · exact mem_poolRegistrationLegacyMsgs h''
    | stakeRegistration cred => simp at h'
    | stakeDeregistration cred => simp at h'
    | stakeDelegation cred pk => simp at h'
    | stakePoolRetirement p e => simp at h'

theorem mem_mintMsgs {mint : List (ParsedAssetGroup Int)} {m : SendParams}
    (h : m ∈ mintMsgs mint) :
    m.p1 = P1_STAGE_MINT ∧ m.expectedResponseLength = some 0 := by
  simp only [mintMsgs, List.mem_append, List.mem_singleton] at h
  rcases h with (h | h) | h
  · exact h ▸ ⟨rfl, rfl⟩
  · exact mem_tokenBundleMsgs h
  · exact h ▸ ⟨rfl, rfl⟩

theorem mem_collateralOutputMsgs {v : Version} {o : ParsedOutput} {m : SendParams}
    (h : m ∈ collateralOutputMsgs v o) :
    m.p1 = P1_STAGE_COLLATERAL_OUTPUT ∧ m.expectedResponseLength = some 0 := by
  simp only [collateralOutputMsgs, List.mem_append, List.mem_singleton] at h
  rcases h with (h | h) | h
  · exact h ▸ ⟨rfl, rfl⟩
  · exact mem_tokenBundleMsgs h
  · exact h ▸ ⟨rfl, rfl⟩

theorem mem_auxDataMsgs {v : Version} {aux : ParsedTxAuxiliaryData} {m : SendParams}
    (h : m ∈ auxDataMsgs v aux) :
    m.p1 = P1_STAGE_AUX_DATA ∧
      (m.expectedResponseLength = some 0 ∨
        (m.expectedResponseLength =
          some (AUXILIARY_DATA_HASH_LENGTH + ED25519_SIGNATURE_LENGTH) ∧
         m.p2 = 0x34)) := by
  rcases List.mem_cons.mp h with rfl | h'
  · exact ⟨rfl, Or.inl rfl⟩
  · cases aux with
    | arbitraryHash hx => simp at h'
    | cip36Registration params =>
      rcases List.mem_append.mp h' with h2 | h2
      · rcases List.mem_append.mp h2 with h3 | h3
        · rcases mem_ite_list h3 with h4 | h4
          · rcases List.mem_singleton.mp h4 with rfl
            exact ⟨rfl, Or.inl rfl⟩
          · simp at h4
        · rcases mem_ite_list (c := cip36HasVoteKey params = true) h3 with h4 | h4
          · rcases List.mem_singleton.mp h4 with rfl
            exact ⟨rfl, Or.inl rfl⟩
          · cases hdo : params.delegations with
            | none => rw [hdo] at h4; simp at h4
            | some ds =>
              rw [hdo] at h4
              obtain ⟨d, _, rfl⟩ := List.mem_map.mp h4
              exact ⟨rfl, Or.inl rfl⟩
      · rcases mem_ite_list h2 with h3 | h3
        · rcases List.mem_append.mp h3 with h4 | h4
          · rcases List.mem_append.mp h4 with h5 | h5
            · rcases List.mem_cons.mp h5 with rfl | h6
              · exact ⟨rfl, Or.inl rfl⟩
              · rcases List.mem_cons.mp h6 with rfl | h7
                · exact ⟨rfl, Or.inl rfl⟩
                · rcases List.mem_singleton.mp h7 with rfl
                  exact ⟨rfl, Or.inl rfl⟩
            · rcases mem_ite_list h5 with h6 | h6
              · rcases List.mem_singleton.mp h6 with rfl
                exact ⟨rfl, Or.inl rfl⟩
              · simp at h6
          · rcases List.mem_singleton.mp h4 with rfl
            exact ⟨rfl, Or.inr ⟨rfl, rfl⟩⟩
        · simp at h3

theorem mem_optMsgs {γ : Type} {o : Option γ} {msF : γ → List SendParams}
    {m : SendParams} (h : m ∈ optMsgs o msF) : ∃ t, o = some t ∧ m ∈ msF t := by
  cases ho : o with
  | none => rw [ho] at h; simp [optMsgs] at h
  | some t => rw [ho] at h; exact ⟨t, rfl, h⟩

theorem mem_txBodyPreAuxMsgs {v : Version} {tx : ParsedTransaction} {m : SendParams}
    (h : m ∈ txBodyPreAuxMsgs v tx) :
    (m.p1 = P1_STAGE_INPUTS ∨ m.p1 = P1_STAGE_OUTPUTS ∨ m.p1 = P1_STAGE_FEE ∨
      m.p1 = P1_STAGE_TTL ∨ m.p1 = P1_STAGE_CERTIFICATES ∨
      m.p1 = P1_STAGE_WITHDRAWALS) ∧
    m.expectedResponseLength = some 0 := by
  rcases List.mem_append.mp h with h1 | h1
  rotate_left
  · obtain ⟨w, _, hm⟩ := List.mem_flatMap.mp h1
    rcases List.mem_singleton.mp hm with rfl
    exact ⟨Or.inr (Or.inr (Or.inr (Or.inr (Or.inr rfl)))), rfl⟩
  rcases List.mem_append.mp h1 with h2 | h2
  rotate_left
  · obtain ⟨c, _, hm⟩ := List.mem_flatMap.mp h2
    obtain ⟨hp1, herl⟩ := mem_certificateMsgs hm
    exact ⟨Or.inr (Or.inr (Or.inr (Or.inr (Or.inl hp1)))), herl⟩
  rcases List.mem_append.mp h2 with h3 | h3
  rotate_left
  · obtain ⟨t, _, hm⟩ := mem_optMsgs h3
    rcases List.mem_singleton.mp hm with rfl
    exact ⟨Or.inr (Or.inr (Or.inr (Or.inl rfl))), rfl⟩
  rcases List.mem_append.mp h3 with h4 | h4
  rotate_left
  · rcases List.mem_singleton.mp h4 with rfl
    exact ⟨Or.inr (Or.inr (Or.inl rfl)), rfl⟩
  rcases List.mem_append.mp h4 with h5 | h5
  · obtain ⟨i, _, hm⟩ := List.mem_flatMap.mp h5
    rcases List.mem_singleton.mp hm with rfl
    exact ⟨Or.inl rfl, rfl⟩
  · obtain ⟨o, _, hm⟩ := List.mem_flatMap.mp h5
    obtain ⟨hp1, herl⟩ := mem_outputMsgs hm
    exact ⟨Or.inr (Or.inl hp1), herl⟩

theorem mem_txTailPreMsgs {v : Version} {tx : ParsedTransaction} {m : SendParams}
    (h : m ∈ txTailPreMsgs v tx) :
    (m.p1 = P1_STAGE_VALIDITY_INTERVAL_START ∨ m.p1 = P1_STAGE_MINT ∨
      m.p1 = P1_STAGE_SCRIPT_DATA_HASH ∨ m.p1 = P1_STAGE_COLLATERAL_INPUTS ∨
      m.p1 = P1_STAGE_REQUIRED_SIGNERS ∨ m.p1 = P1_STAGE_COLLATERAL_OUTPUT ∨
      m.p1 = P1_STAGE_TOTAL_COLLATERAL ∨ m.p1 = P1_STAGE_REFERENCE_INPUTS) ∧
    (m.expectedResponseLength = some 0 ∨
      (m.expectedResponseLength = none ∧
        (m.p1 = P1_STAGE_VALIDITY_INTERVAL_START ∨
         m.p1 = P1_STAGE_SCRIPT_DATA_HASH))) := by
  rcases List.mem_append.mp h with h1 | h1
  rotate_left
  · obtain ⟨i, _, hm⟩ := List.mem_flatMap.mp h1
    rcases List.mem_singleton.mp hm with rfl
    exact ⟨Or.inr (Or.inr (Or.inr (Or.inr (Or.inr (Or.inr (Or.inr rfl)))))),
      Or.inl rfl⟩
  rcases List.mem_append.mp h1 with h2 | h2
  rotate_left
  · obtain ⟨t, _, hm⟩ := mem_optMsgs h2
    rcases List.mem_singleton.mp hm with rfl
    exact ⟨Or.inr (Or.inr (Or.inr (Or.inr (Or.inr (Or.inr (Or.inl rfl)))))),
      Or.inl rfl⟩
  rcases List.mem_append.mp h2 with h3 | h3
  rotate_left
  · obtain ⟨o, _, hm⟩ := mem_optMsgs h3
    obtain ⟨hp1, herl⟩ := mem_collateralOutputMsgs hm
    exact ⟨Or.inr (Or.inr (Or.inr (Or.inr (Or.inr (Or.inl hp1))))), Or.inl herl⟩
  rcases List.mem_append.mp h3 with h4 | h4
  rotate_left
  · obtain ⟨sg, _, hm⟩ := List.mem_flatMap.mp h4
    rcases List.mem_singleton.mp hm with rfl
    exact ⟨Or.inr (Or.inr (Or.inr (Or.inr (Or.inl rfl)))), Or.inl rfl⟩
  rcases List.mem_append.mp h4 with h5 | h5
  rotate_left
  · obtain ⟨i, _, hm⟩ := List.mem_flatMap.mp h5
    rcases List.mem_singleton.mp hm with rfl
    exact ⟨Or.inr (Or.inr (Or.inr (Or.inl rfl))), Or.inl rfl⟩
  rcases List.mem_append.mp h5 with h6 | h6
  rotate_left
  · obtain ⟨sd, _, hm⟩ := mem_optMsgs h6
    rcases List.mem_singleton.mp hm with rfl
    exact ⟨Or.inr (Or.inr (Or.inl rfl)), Or.inr ⟨rfl, Or.inr rfl⟩⟩
  rcases List.mem_append.mp h6 with h7 | h7
  · obtain ⟨t, _, hm⟩ := mem_optMsgs h7
    rcases List.mem_singleton.mp hm with rfl
    exact ⟨Or.inl rfl, Or.inr ⟨rfl, Or.inl rfl⟩⟩
  · obtain ⟨mi, _, hm⟩ := mem_optMsgs h7
    obtain ⟨hp1, herl⟩ := mem_mintMsgs hm
    exact ⟨Or.inr (Or.inl hp1), Or.inl herl⟩

theorem mem_txTailMsgs {v : Version} {r : ParsedSigningRequest} {m : SendParams}
    (h : m ∈ txTailMsgs v r) :
    m ∈ txTailPreMsgs v r.tx ∨ m = confirmMsg ∨
      ∃ p ∈ gatherWitnessPaths r, m = witnessMsg p := by
  rcases List.mem_append.mp h with h1 | h1
  · rcases List.mem_append.mp h1 with h2 | h2
    · exact Or.inl h2
    · exact Or.inr (Or.inl (List.mem_singleton.mp h2))
  · obtain ⟨p, hp, hm⟩ := List.mem_map.mp h1
    exact Or.inr (Or.inr ⟨p, hp, hm.symm⟩)

theorem bool_eq_true_of_ne_false {b : Bool} (h : ¬ b = false) : b = true := by
  cases b
  · exact absurd rfl h
  · rfl

theorem bool_eq_false_of_ne_true {b : Bool} (h : ¬ b = true) : b = false := by
  cases b
  · rfl
  · exact absurd rfl h

theorem mem_txAllMessages_cases {v : Version} {r : ParsedSigningRequest}
    {m : SendParams} (h : m ∈ txAllMessages v r) :
    m ∈ initMsgs r.tx r.signingMode (gatherWitnessPaths r) v ∨
    (∃ aux, r.tx.auxiliaryData = some aux ∧ m ∈ auxDataMsgs v aux) ∨
    m ∈ txBodyPreAuxMsgs v r.tx ∨
    (∃ hx, r.tx.auxiliaryData = some (.arbitraryHash hx) ∧ m = legacyAuxMsg hx) ∨
    m ∈ txTailMsgs v r := by
  by_cases hc : v.compatible = false
  · simp [txAllMessages, hc] at h
  · have hc' : v.compatible = true := bool_eq_true_of_ne_false hc
    cases hval : ensureRequestSupportedByAppVersion v r with
    | some e => simp [txAllMessages, hc', hval] at h
    | none =>
      have hh : m ∈ initMsgs r.tx r.signingMode (gatherWitnessPaths r) v ++
          (if auxDataBeforeTxBody v then
             match r.tx.auxiliaryData with
             | some aux =>
               auxDataMsgs v aux ++
                 (if auxRunOk aux then
                    txBodyPreAuxMsgs v r.tx ++ txTailMsgs v r
                  else [])
             | none => txBodyPreAuxMsgs v r.tx ++ txTailMsgs v r
           else
             txBodyPreAuxMsgs v r.tx ++
               (match r.tx.auxiliaryData with
                | some (.arbitraryHash hx) => legacyAuxMsg hx :: txTailMsgs v r
                | some (.cip36Registration _) => []
                | none => txTailMsgs v r)) := by
        simpa [txAllMessages, hc', hval] using h
      rcases List.mem_append.mp hh with h1 | h1
      · exact Or.inl h1
      · by_cases hb : auxDataBeforeTxBody v = true
        · simp only [hb, if_true] at h1
          cases haux : r.tx.auxiliaryData with
          | none =>
            rw [haux] at h1
            rcases List.mem_append.mp h1 with h2 | h2
            · exact Or.inr (Or.inr (Or.inl h2))
            · exact Or.inr (Or.inr (Or.inr (Or.inr h2)))
          | some aux =>
            rw [haux] at h1
            rcases List.mem_append.mp h1 with h2 | h2
            · exact Or.inr (Or.inl ⟨aux, rfl, h2⟩)
            · rcases mem_ite_list h2 with h3 | h3
              · rcases List.mem_append.mp h3 with h4 | h4
                · exact Or.inr (Or.inr (Or.inl h4))
                · exact Or.inr (Or.inr (Or.inr (Or.inr h4)))
              · simp at h3
        · have hb' : auxDataBeforeTxBody v = false := bool_eq_false_of_ne_true hb
          simp only [hb', Bool.false_eq_true, if_false] at h1
          rcases List.mem_append.mp h1 with h2 | h2
          · exact Or.inr (Or.inr (Or.inl h2))
          · cases haux : r.tx.auxiliaryData with
            | none =>
              rw [haux] at h2
              exact Or.inr (Or.inr (Or.inr (Or.inr h2)))
            | some aux =>
              rw [haux] at h2
              cases aux with
              | arbitraryHash hx =>
                rcases List.mem_cons.mp h2 with rfl | h3
                · exact Or.inr (Or.inr (Or.inr (Or.inl ⟨hx, rfl, rfl⟩)))
                · exact Or.inr (Or.inr (Or.inr (Or.inr h3)))
              | cip36Registration params => simp at h2

theorem mem_txAllMessages_responseLength {v : Version} {r : ParsedSigningRequest}
    {m : SendParams} (h : m ∈ txAllMessages v r) : msgResponseLengthSpec m := by
  rcases mem_txAllMessages_cases h with h1 | ⟨aux, _, h1⟩ | h1 | ⟨hx, _, h1⟩ | h1
  · rcases List.mem_singleton.mp h1 with rfl
    exact Or.inl rfl
  · obtain ⟨hp1, herl⟩ := mem_auxDataMsgs h1
    rcases herl with herl | ⟨herl, hp2⟩
    · exact Or.inl herl
    · exact Or.inr (Or.inr (Or.inl ⟨herl, hp1, hp2⟩))
  · obtain ⟨_, herl⟩ := mem_txBodyPreAuxMsgs h1
    exact Or.inl herl
  · rcases h1 with rfl
    exact Or.inl rfl
  · rcases mem_txTailMsgs h1 with h2 | h2 | ⟨p, _, rfl⟩
    · obtain ⟨_, herl⟩ := mem_txTailPreMsgs h2
      rcases herl with herl | ⟨herl, hp⟩
      · exact Or.inl herl
      · exact Or.inr (Or.inl ⟨herl, hp⟩)
    · rcases h2 with rfl
      exact Or.inr (Or.inr (Or.inr (Or.inl ⟨rfl, rfl⟩)))
    · exact Or.inr (Or.inr (Or.inr (Or.inr ⟨rfl, rfl⟩)))

theorem mem_uniquifyAux {p : BIP32Path} :
    ∀ (seen l : List BIP32Path), p ∈ uniquifyAux seen l ↔ p ∈ l ∧ p ∉ seen := by
  intro seen l
  induction l generalizing seen with
  | nil => simp [uniquifyAux]
  | cons x rest ih =>
    by_cases hx : x ∈ seen
    · rw [uniquifyAux, if_pos hx]
      rw [ih seen]
      constructor
      · rintro ⟨hp, hps⟩
        exact ⟨List.mem_cons_of_mem x hp, hps⟩
      · rintro ⟨hp, hps⟩
        rcases List.mem_cons.mp hp with rfl | hp'
        · exact absurd hx hps
        · exact ⟨hp', hps⟩
    · rw [uniquifyAux, if_neg hx]
      constructor
      · intro hp
        rcases List.mem_cons.mp hp with rfl | hp'
        · exact ⟨List.mem_cons_self _ _, hx⟩
        · obtain ⟨h1, h2⟩ := (ih (x :: seen)).mp hp'
          refine ⟨List.mem_cons_of_mem x h1, ?_⟩
          intro hcon
          exact h2 (List.mem_cons_of_mem x hcon)
      · rintro ⟨hp, hps⟩
        rcases List.mem_cons.mp hp with rfl | hp'
        · exact List.mem_cons_self _ _
        · by_cases hpx : p = x
          · subst hpx; exact List.mem_cons_self _ _
          · exact List.mem_cons_of_mem _
              ((ih (x :: seen)).mpr ⟨hp', by
                intro hcon
                rcases List.mem_cons.mp hcon with h' | h'
                · exact hpx h'
                · exact hps h'⟩)

theorem nodup_uniquifyAux : ∀ (seen l : List BIP32Path), (uniquifyAux seen l).Nodup := by
  intro seen l
  induction l generalizing seen with
  | nil => simp [uniquifyAux]
  | cons x rest ih =>
    by_cases hx : x ∈ seen
    · rw [uniquifyAux, if_pos hx]
      exact ih seen
    · rw [uniquifyAux, if_neg hx]
      refine List.Nodup.cons ?_ (ih (x :: seen))
      intro hcon
      obtain ⟨_, h2⟩ := (mem_uniquifyAux (x :: seen) rest).mp hcon
      exact h2 (List.mem_cons_self _ _)

theorem sublist_uniquifyAux :
    ∀ (seen l : List BIP32Path), List.Sublist (uniquifyAux seen l) l := by
  intro seen l
  induction l generalizing seen with
  | nil => simp [uniquifyAux]
  | cons x rest ih =>
    by_cases hx : x ∈ seen
    · rw [uniquifyAux, if_pos hx]
      exact (ih seen).cons x
    · rw [uniquifyAux, if_neg hx]
      exact (ih (x :: seen)).cons₂ x

theorem mem_uniquify {p : BIP32Path} {l : List BIP32Path} :
    p ∈ uniquify l ↔ p ∈ l := by
  rw [uniquify, mem_uniquifyAux]
  simp

theorem nodup_uniquify (l : List BIP32Path) : (uniquify l).Nodup :=
  nodup_uniquifyAux [] l

theorem sublist_uniquify (l : List BIP32Path) : List.Sublist (uniquify l) l :=
  sublist_uniquifyAux [] l

theorem firstIdx_cons_self (p : BIP32Path) (l : List BIP32Path) :
    firstIdx p (p :: l) = 0 := by
  simp [firstIdx]

theorem firstIdx_cons_ne (p x : BIP32Path) (l : List BIP32Path) (h : x ≠ p) :
    firstIdx p (x :: l) = firstIdx p l + 1 := by
  simp [firstIdx, h]

theorem pairwise_uniquifyAux :
    ∀ (seen l : List BIP32Path),
      List.Pairwise (fun a b => firstIdx a l < firstIdx b l) (uniquifyAux seen l) := by
  intro seen l
  induction l generalizing seen with
  | nil => simp [uniquifyAux]
  | cons x rest ih =>
    by_cases hx : x ∈ seen
    · rw [uniquifyAux, if_pos hx]
      refine List.Pairwise.imp_of_mem ?_ (ih seen)
      intro a b ha hb hlt
      obtain ⟨_, has⟩ := (mem_uniquifyAux seen rest).mp ha
      obtain ⟨_, hbs⟩ := (mem_uniquifyAux seen rest).mp hb
      have hax : x ≠ a := fun hcon => has (hcon ▸ hx)
      have hbx : x ≠ b := fun hcon => hbs (hcon ▸ hx)
      rw [firstIdx_cons_ne a x rest hax, firstIdx_cons_ne b x rest hbx]
      omega
    · rw [uniquifyAux, if_neg hx]
      refine List.Pairwise.cons ?_ ?_
      · intro b hb
        obtain ⟨_, hbs⟩ := (mem_uniquifyAux (x :: seen) rest).mp hb
        have hbx : x ≠ b := fun hcon =>
          hbs (hcon ▸ List.mem_cons_self x seen)
        rw [firstIdx_cons_self, firstIdx_cons_ne b x rest hbx]
        omega
      · refine List.Pairwise.imp_of_mem ?_ (ih (x :: seen))
        intro a b ha hb hlt
        obtain ⟨_, has⟩ := (mem_uniquifyAux (x :: seen) rest).mp ha
        obtain ⟨_, hbs⟩ := (mem_uniquifyAux (x :: seen) rest).mp hb
        have hax : x ≠ a := fun hcon =>
          has (hcon ▸ List.mem_cons_self x seen)
        have hbx : x ≠ b := fun hcon =>
          hbs (hcon ▸ List.mem_cons_self x seen)
        rw [firstIdx_cons_ne a x rest hax, firstIdx_cons_ne b x rest hbx]
        omega

theorem pairwise_uniquify (l : List BIP32Path) :
    List.Pairwise (fun a b => firstIdx a l < firstIdx b l) (uniquify l) :=
  pairwise_uniquifyAux [] l

theorem uniquifyAux_of_nodup :
    ∀ (seen l : List BIP32Path), l.Nodup → (∀ p ∈ l, p ∉ seen) →
      uniquifyAux seen l = l := by
  intro seen l
  induction l generalizing seen with
  | nil => intro _ _; rfl
  | cons x rest ih =>
    intro hnd hdisj
    rw [uniquifyAux, if_neg (hdisj x (List.mem_cons_self _ _))]
    congr 1
    refine ih (x :: seen) (List.Nodup.of_cons hnd) ?_
    intro p hp hcon
    rcases List.mem_cons.mp hcon with heq | h'
    · exact (List.nodup_cons.mp hnd).1 (heq ▸ hp)
    · exact hdisj p (List.mem_cons_of_mem x hp) h'

theorem uniquify_idempotent (l : List BIP32Path) :
    uniquify (uniquify l) = uniquify l :=
  uniquifyAux_of_nodup [] (uniquify l) (nodup_uniquify l) (by simp)

theorem uint32_to_buf_length (n : Nat) : (uint32_to_buf n).length = 4 := rfl

theorem chunkPayload_chunkMsg (p2 : Nat) (chunk : Bytes) :
    chunkPayload (send P1_STAGE_OUTPUTS p2 (uint32_to_buf chunk.length ++ chunk)
      (some 0)) = chunk := by
  simp [chunkPayload, send]
  have h4 : (uint32_to_buf chunk.length).length = 4 := rfl
  rw [← h4, List.drop_left]

theorem sendChunksFrom_length_bounded (chunkSize : Nat) (hexBytes : Bytes)
    (p2 : Nat) (hC : 0 < chunkSize) (n : Nat) :
    ∀ start, hexBytes.length - start ≤ n → start < hexBytes.length →
      (sendChunksFrom chunkSize hexBytes p2 start).length =
        (hexBytes.length - start + chunkSize - 1) / chunkSize := by
  induction n with
  | zero => intro start hle hlt; omega
  | succ n ih =>
    intro start hle hlt
    rw [sendChunksFrom, dif_pos ⟨hlt, hC⟩]
    by_cases hnext : start + chunkSize < hexBytes.length
    · rw [List.length_cons, ih (start + chunkSize) (by omega) hnext]
      have harith : hexBytes.length - (start + chunkSize) + chunkSize - 1 +
          chunkSize = hexBytes.length - start + chunkSize - 1 := by omega
      rw [← harith, Nat.add_div_right _ hC]
    · have hstop : sendChunksFrom chunkSize hexBytes p2 (start + chunkSize) = [] := by
        rw [sendChunksFrom, dif_neg]
        intro hcon
        exact absurd hcon.1 (by omega)
      rw [hstop]
      have h1 : chunkSize ≤ hexBytes.length - start + chunkSize - 1 := by omega
      have h2 : hexBytes.length - start + chunkSize - 1 < 2 * chunkSize := by omega
      have := Nat.div_eq_of_lt_le (by omega : 1 * chunkSize ≤
        hexBytes.length - start + chunkSize - 1) (by omega)
      simpa using this.symm

theorem sendChunksMsgs_length (chunkSize : Nat) (hexBytes : Bytes) (p2 : Nat)
    (hC : 0 < chunkSize) (hL : chunkSize < hexBytes.length) :
    (sendChunksMsgs chunkSize hexBytes p2).length =
      (hexBytes.length - chunkSize + chunkSize - 1) / chunkSize :=
  sendChunksFrom_length_bounded chunkSize hexBytes p2 hC hexBytes.length chunkSize
    (Nat.sub_le _ _) hL

theorem sendChunksMsgs_nil (chunkSize : Nat) (hexBytes : Bytes) (p2 : Nat)
    (hL : hexBytes.length ≤ chunkSize) :
    sendChunksMsgs chunkSize hexBytes p2 = [] := by
  rw [sendChunksMsgs, sendChunksFrom, dif_neg]
  intro hcon
  omega

theorem sendChunksFrom_join_bounded (chunkSize : Nat) (hexBytes : Bytes) (p2 : Nat)
    (hC : 0 < chunkSize) (n : Nat) :
    ∀ start, hexBytes.length - start ≤ n →
      ((sendChunksFrom chunkSize hexBytes p2 start).map chunkPayload).flatten =
        hexBytes.drop start := by
  induction n with
  | zero =>
    intro start hle
    rw [sendChunksFrom, dif_neg]
    · simp [List.drop_eq_nil_of_le (by omega : hexBytes.length ≤ start)]
    · intro hcon; omega
  | succ n ih =>
    intro start hle
    by_cases hlt : start < hexBytes.length
    · rw [sendChunksFrom, dif_pos ⟨hlt, hC⟩]
      simp only [List.map_cons, List.flatten_cons, chunkPayload_chunkMsg]
      rw [ih (start + chunkSize) (by omega)]
      have hdd : (hexBytes.drop start).drop chunkSize =
          hexBytes.drop (start + chunkSize) := by
        rw [List.drop_drop, Nat.add_comm]
      rw [← hdd, List.take_append_drop]
    · rw [sendChunksFrom, dif_neg]
      · simp [List.drop_eq_nil_of_le (by omega : hexBytes.length ≤ start)]
      · intro hcon; omega

theorem sendChunksMsgs_join (chunkSize : Nat) (hexBytes : Bytes) (p2 : Nat)
    (hC : 0 < chunkSize) :
    hexBytes.take chunkSize ++
      ((sendChunksMsgs chunkSize hexBytes p2).map chunkPayload).flatten =
      hexBytes := by
  rw [sendChunksMsgs,
    sendChunksFrom_join_bounded chunkSize hexBytes p2 hC hexBytes.length chunkSize
      (Nat.sub_le _ _),
    List.take_append_drop]

theorem ensureRequestSupported_eq_firstViolation (v : Version)
    (r : ParsedSigningRequest) :
    ensureRequestSupportedByAppVersion v r =
      (firstViolation (codeConditionList v r)).map
        (fun f => { feature := f, versionString := v.versionString }) := by
  unfold ensureRequestSupportedByAppVersion firstViolation codeConditionList
  by_cases h00 : vcPoolRegOperator v r = true
  · simp [*, List.find?]
  by_cases h01 : vcMultisigMode v r = true
  · simp [*, List.find?]
  by_cases h02 : vcPlutusMode v r = true
  · simp [*, List.find?]
  by_cases h03 : vcScriptAddrParams v r = true
  · simp [*, List.find?]
  by_cases h04 : vcDatum v r = true
  · simp [*, List.find?]
  by_cases h05 : vcMapFormat v r = true
  · simp [*, List.find?]
  by_cases h06 : vcZeroTtl v r = true
  · simp [*, List.find?]
  by_cases h07 : vcWithdrawalScript v r = true
  · simp [*, List.find?]
  by_cases h08 : vcWithdrawalKeyHash v r = true
  · simp [*, List.find?]
  by_cases h09 : vcPoolRetirement v r = true
  · simp [*, List.find?]
  by_cases h10 : vcCertScript v r = true
  · simp [*, List.find?]
  by_cases h11 : vcCertKeyHash v r = true
  · simp [*, List.find?]
  by_cases h12 : vcMint v r = true
  · simp [*, List.find?]
  by_cases h13 : vcValidityStart v r = true
  · simp [*, List.find?]
  by_cases h14 : vcScriptDataHash v r = true
  · simp [*, List.find?]
  by_cases h15 : vcCollateralInputs v r = true
  · simp [*, List.find?]
  by_cases h16 : vcRequiredSigners v r = true
  · simp [*, List.find?]
  by_cases h17 : vcRequiredSignersOrdinary v r = true
  · simp [*, List.find?]
  by_cases h18 : vcRequiredSignersMultisig v r = true
  · simp [*, List.find?]
  by_cases h19 : vcNetworkId v r = true
  · simp [*, List.find?]
  by_cases h20 : vcCollateralOutput v r = true
  · simp [*, List.find?]
  by_cases h21 : vcTotalCollateral v r = true
  · simp [*, List.find?]
  by_cases h22 : vcReferenceInputs v r = true
  · simp [*, List.find?]
  by_cases h23 : vcCatalystRegistration v r = true
  · simp [*, List.find?]
  by_cases h24 : vcCIP36Registration v r = true
  · simp [*, List.find?]
  by_cases h25 : vcVoteKeyPath v r = true
  · simp [*, List.find?]
  by_cases h26 : vcThirdPartyPayment v r = true
  · simp [*, List.find?]
  simp [*, List.find?]

theorem p1_ne_of_body {v : Version} {tx : ParsedTransaction} {m : SendParams}
    (h : m ∈ txBodyPreAuxMsgs v tx) :
    m.p1 ≠ P1_STAGE_WITNESSES ∧ m.p1 ≠ P1_STAGE_AUX_DATA := by
  obtain ⟨hp, _⟩ := mem_txBodyPreAuxMsgs h
  rcases hp with h1 | h1 | h1 | h1 | h1 | h1 <;> rw [h1] <;>
    exact ⟨by decide, by decide⟩

theorem p1_ne_of_tailPre {v : Version} {tx : ParsedTransaction} {m : SendParams}
    (h : m ∈ txTailPreMsgs v tx) :
    m.p1 ≠ P1_STAGE_WITNESSES ∧ m.p1 ≠ P1_STAGE_AUX_DATA := by
  obtain ⟨hp, _⟩ := mem_txTailPreMsgs h
  rcases hp with h1 | h1 | h1 | h1 | h1 | h1 | h1 | h1 <;> rw [h1] <;>
    exact ⟨by decide, by decide⟩

theorem filter_witness_eq (P : List SendParams) (wp : List BIP32Path)
    (h : ∀ m ∈ P, m.p1 ≠ P1_STAGE_WITNESSES) :
    (P ++ wp.map witnessMsg).filter (fun m => m.p1 == P1_STAGE_WITNESSES) =
      wp.map witnessMsg := by
  rw [List.filter_append]
  have h1 : P.filter (fun m => m.p1 == P1_STAGE_WITNESSES) = [] := by
    rw [List.filter_eq_nil_iff]
    intro m hm
    simp [h m hm]
  have h2 : (wp.map witnessMsg).filter (fun m => m.p1 == P1_STAGE_WITNESSES) =
      wp.map witnessMsg := by
    rw [List.filter_eq_self]
    intro m hm
    obtain ⟨p, _, rfl⟩ := List.mem_map.mp hm
    rfl
  rw [h1, h2, List.nil_append]

theorem txAllMessages_completes_split (v : Version) (r : ParsedSigningRequest)
    (hcomp : ceremonyCompletes v r) :
    ∃ P, txAllMessages v r = P ++ (gatherWitnessPaths r).map witnessMsg ∧
      ∀ m ∈ P, m.p1 ≠ P1_STAGE_WITNESSES := by
  obtain ⟨hc, hval, hauxok⟩ := hcomp
  have htail : txTailMsgs v r =
      (txTailPreMsgs v r.tx ++ [confirmMsg]) ++
        (gatherWitnessPaths r).map witnessMsg := by
    simp [txTailMsgs, List.append_assoc]
  have hPmem : ∀ m ∈ txTailPreMsgs v r.tx ++ [confirmMsg],
      m.p1 ≠ P1_STAGE_WITNESSES := by
    intro m hm
    rcases List.mem_append.mp hm with h1 | h1
    · exact (p1_ne_of_tailPre h1).1
    · rcases List.mem_singleton.mp h1 with rfl
      decide
  cases haux : r.tx.auxiliaryData with
  | none =>
    refine ⟨initMsgs r.tx r.signingMode (gatherWitnessPaths r) v ++
      txBodyPreAuxMsgs v r.tx ++ (txTailPreMsgs v r.tx ++ [confirmMsg]), ?_, ?_⟩
    · simp [txAllMessages, hc, hval, haux, htail, List.append_assoc, ite_self]
    · intro m hm
      rcases List.mem_append.mp hm with h1 | h1
      · rcases List.mem_append.mp h1 with h2 | h2
        · rcases List.mem_singleton.mp h2 with rfl
          simp [send, initMsgs, P1_STAGE_INIT, P1_STAGE_WITNESSES]
        · exact (p1_ne_of_body h2).1
      · exact hPmem m h1
  | some aux =>
    by_cases hb : auxDataBeforeTxBody v = true
    · have hro : auxRunOk aux = true := by
        cases aux with
        | arbitraryHash hx => rfl
        | cip36Registration params =>
          rw [haux] at hauxok
          exact hauxok.1
      refine ⟨initMsgs r.tx r.signingMode (gatherWitnessPaths r) v ++
        auxDataMsgs v aux ++ txBodyPreAuxMsgs v r.tx ++
        (txTailPreMsgs v r.tx ++ [confirmMsg]), ?_, ?_⟩
      · simp [txAllMessages, hc, hval, haux, hb, hro, htail, List.append_assoc]
      · intro m hm
        rcases List.mem_append.mp hm with h1 | h1
        · rcases List.mem_append.mp h1 with h2 | h2
          · rcases List.mem_append.mp h2 with h3 | h3
            · rcases List.mem_singleton.mp h3 with rfl
              simp [send, initMsgs, P1_STAGE_INIT, P1_STAGE_WITNESSES]
            · obtain ⟨hp1, _⟩ := mem_auxDataMsgs h3
              rw [hp1]
              decide
          · exact (p1_ne_of_body h2).1
        · exact hPmem m h1
    · have hb' : auxDataBeforeTxBody v = false := bool_eq_false_of_ne_true hb
      cases aux with
      | cip36Registration params =>
        rw [haux] at hauxok
        exact absurd hauxok.2 (by simp [hb'])
      | arbitraryHash hx =>
        refine ⟨initMsgs r.tx r.signingMode (gatherWitnessPaths r) v ++
          txBodyPreAuxMsgs v r.tx ++ ([legacyAuxMsg hx] ++
            (txTailPreMsgs v r.tx ++ [confirmMsg])), ?_, ?_⟩
        · simp [txAllMessages, hc, hval, haux, hb', htail, List.append_assoc]
        · intro m hm
          rcases List.mem_append.mp hm with h1 | h1
          · rcases List.mem_append.mp h1 with h2 | h2
            · rcases List.mem_singleton.mp h2 with rfl
              simp [send, initMsgs, P1_STAGE_INIT, P1_STAGE_WITNESSES]
            · exact (p1_ne_of_body h2).1
          · rcases List.mem_append.mp h1 with h2 | h2
            · rcases List.mem_singleton.mp h2 with rfl
              simp [send, legacyAuxMsg, P1_STAGE_AUX_DATA, P1_STAGE_WITNESSES]
            · exact hPmem m h2

theorem validator_none_conditions (v : Version) (r : ParsedSigningRequest)
    (h : ensureRequestSupportedByAppVersion v r = none) :
    ∀ c ∈ codeConditionList v r, c.1 = false := by
  rw [ensureRequestSupported_eq_firstViolation] at h
  intro c hc
  cases hfind : (codeConditionList v r).find? (fun c => c.1) with
  | some c0 =>
    rw [firstViolation, hfind] at h
    simp at h
  | none =>
    have hne := List.find?_eq_none.mp hfind c hc
    exact bool_eq_false_of_ne_true hne

theorem legacy_aux_not_cip36 (v : Version) (r : ParsedSigningRequest)
    (params : ParsedCVoteRegistrationParams)
    (hval : ensureRequestSupportedByAppVersion v r = none)
    (hb : auxDataBeforeTxBody v = false)
    (haux : r.tx.auxiliaryData = some (.cip36Registration params)) : False := by
  have hall := validator_none_conditions v r hval
  have hcat : vcCatalystRegistration v r = false :=
    hall (vcCatalystRegistration v r, "Catalyst registration")
      (by simp [codeConditionList])
  have hcip : vcCIP36Registration v r = false :=
    hall (vcCIP36Registration v r, "CIP36 registration")
      (by simp [codeConditionList])
  rw [auxDataBeforeTxBody] at hb
  simp only [Bool.or_eq_false_iff] at hb
  cases hfmt : params.format with
  | CIP_15 =>
    rw [vcCatalystRegistration] at hcat
    simp [auxHasRegistrationFormat, haux, hfmt, hb.1] at hcat
    exact absurd hcat (by decide)
  | CIP_36 =>
    rw [vcCIP36Registration] at hcip
    simp [auxHasRegistrationFormat, haux, hfmt, hb.2] at hcip
    exact absurd hcip (by decide)

-- ======================= claim theorems =======================

/-- C10: the sequence of messages yielded by `signTransaction` is a
deterministic function of the version and the request alone — two runs
with the same version and request but different response oracles yield
identical message sequences. -/
theorem claim_C10_response_independent (v : Version) (r : ParsedSigningRequest)
    (σ1 σ2 : Nat → Bytes) :
    ((signTransaction v r).run σ1).1 = ((signTransaction v r).run σ2).1 := by
  rw [run_signTransaction_fst, run_signTransaction_fst]

/-- C3: in multisig mode the collected witness paths are exactly the
deduplicated caller-supplied `additionalWitnessPaths`, independent of the
transaction's inputs, certificates, withdrawals, required signers and
collateral inputs. -/
theorem claim_C3_multisig_paths (r : ParsedSigningRequest)
    (hmode : r.signingMode = .MULTISIG_TRANSACTION) :
    gatherWitnessPaths r = uniquify r.additionalWitnessPaths := by
  rw [gatherWitnessPaths, hmode]
  simp

/-- C3 witness: the multisig fixture (whose transaction has inputs,
a certificate and a withdrawal that would contribute paths in ordinary
mode) collects exactly its deduplicated additional paths. -/
theorem claim_C3_multisig_paths_witness :
    gatherWitnessPaths exRequestMultisig =
      uniquify exRequestMultisig.additionalWitnessPaths :=
  claim_C3_multisig_paths exRequestMultisig rfl

/-- C5: each of the three pre-flight error kinds — version
incompatibility, unsupported feature, malformed request — is raised by
the checked signing pipeline before any message is yielded: when the run
ends in such an error, the message list is empty. -/
theorem claim_C5_preflight_errors (v : Version) (r : ParsedSigningRequest)
    (ρ : Nat → Bytes) (e : SignTxError)
    (herr : ((signTransactionChecked v r).run ρ).2 = .error e)
    (hkind : (∃ s, e = .versionIncompatible s) ∨
      (∃ f s, e = .deviceVersionUnsupported f s) ∨
      (∃ s, e = .malformedRequest s)) :
    ((signTransactionChecked v r).run ρ).1 = [] := by
  cases hp : parseCheckSigningRequest r with
  | some msg =>
    simp [signTransactionChecked, hp, Interaction.run]
  | none =>
    have heq : signTransactionChecked v r = signTransaction v r := by
      rw [signTransactionChecked, hp]
    rw [heq] at herr ⊢
    rcases run_signTransaction_error_cases v r ρ e herr with
      ⟨hc, _⟩ | ⟨err, hc, hval, _⟩ | ⟨params, haux, hk, hd, _⟩ |
      ⟨params, haux, hb, he⟩
    · rw [run_signTransaction_incompatible v r ρ hc]
    · rw [run_signTransaction_unsupported v r ρ err hc hval]
    · rw [parseCheckSigningRequest, haux] at hp
      simp [hk, hd] at hp
    · subst he
      rcases hkind with ⟨s, h⟩ | ⟨f, s, h⟩ | ⟨s, h⟩ <;> exact absurd h (by simp)

/-- C5 witness: an incompatible firmware version fails with
`versionIncompatible` having produced zero messages. -/
theorem claim_C5_preflight_errors_witness :
    ((signTransactionChecked exVersionOld exRequestC1).run ρ0).1 = [] :=
  claim_C5_preflight_errors exVersionOld exRequestC1 ρ0
    (.versionIncompatible "1.0.0") rfl (Or.inl ⟨"1.0.0", rfl⟩)

/-- C6 counterexample: on a request violating both the pool-retirement
condition and the certificate-script-hash condition, the source validator
fails on "Pool retirement certificate" while the spec's stated order
(certificate stake-credential checks before pool retirement) would fail
on "Script hash in certificate stake credential". -/
theorem claim_C6_counterexample :
    ensureRequestSupportedByAppVersion exVersionNoRetirement exRequestC6 =
      some { feature := "Pool retirement certificate",
             versionString := "2.3.0" } ∧
    firstViolation (specConditionList exVersionNoRetirement exRequestC6) =
      some "Script hash in certificate stake credential" ∧
    ("Pool retirement certificate" : String) ≠
      "Script hash in certificate stake credential" := by
  refine ⟨rfl, rfl, by decide⟩

/-- C6 (amended): the validator checks its conditions in the source
order (pool retirement before the certificate stake-credential checks)
and fails on the first violated condition of that order, naming the
unsupported feature and carrying the version string; when it rejects a
request, the ceremony sends no message. -/
theorem claim_C6_amended (v : Version) (r : ParsedSigningRequest) :
    ensureRequestSupportedByAppVersion v r =
      (firstViolation (codeConditionList v r)).map
        (fun f => { feature := f, versionString := v.versionString }) ∧
    (∀ e ρ, ensureRequestSupportedByAppVersion v r = some e →
      v.compatible = true →
      (signTransaction v r).run ρ =
        ([], .error (.deviceVersionUnsupported e.feature e.versionString))) :=
  ⟨ensureRequestSupported_eq_firstViolation v r,
   fun e ρ hval hc => run_signTransaction_unsupported v r ρ e hc hval⟩

/-- C6 witness: on the double-violation fixture the validator returns the
first violation of the source order and the ceremony run is empty with a
`deviceVersionUnsupported` error naming that feature. -/
theorem claim_C6_amended_witness :
    ensureRequestSupportedByAppVersion exVersionNoRetirement exRequestC6 =
      (firstViolation (codeConditionList exVersionNoRetirement exRequestC6)).map
        (fun f => { feature := f,
                    versionString := exVersionNoRetirement.versionString }) ∧
    (signTransaction exVersionNoRetirement exRequestC6).run ρ0 =
      ([], .error (.deviceVersionUnsupported "Pool retirement certificate"
        "2.3.0")) :=
  ⟨(claim_C6_amended exVersionNoRetirement exRequestC6).1,
   (claim_C6_amended exVersionNoRetirement exRequestC6).2
     { feature := "Pool retirement certificate", versionString := "2.3.0" }
     ρ0 rfl rfl⟩

/-- C7: a CIP36 voting-registration payload supplying both a direct vote
key and a non-empty delegation list is rejected at parse time with a
malformed-request error and zero messages (hence no AUX_DATA
sub-messages); a payload supplying neither is likewise a malformed-request
failure, not a device-compatibility failure. -/
theorem claim_C7_cip36_vote_key_xor (v : Version) (r : ParsedSigningRequest)
    (ρ : Nat → Bytes) (params : ParsedCVoteRegistrationParams)
    (haux : r.tx.auxiliaryData = some (.cip36Registration params)) :
    (cip36HasVoteKey params = true →
      (match params.delegations with | some (_ :: _) => true | _ => false) = true →
      (signTransactionChecked v r).run ρ =
        ([], .error (.malformedRequest
          "CIP36 registration: both vote key and delegations supplied"))) ∧
    (cip36HasVoteKey params = false →
      (match params.delegations with | some (_ :: _) => true | _ => false) = false →
      (signTransactionChecked v r).run ρ =
        ([], .error (.malformedRequest
          "CIP36 registration: neither vote key nor delegations supplied"))) := by
  constructor
  · intro hk hd
    simp [signTransactionChecked, parseCheckSigningRequest, haux, hk, hd,
      Interaction.run]
  · intro hk hd
    simp [signTransactionChecked, parseCheckSigningRequest, haux, hk, hd,
      Interaction.run]

/-- C7 witness: the both-sources fixture is rejected with the
both-message and zero messages sent. -/
theorem claim_C7_cip36_vote_key_xor_witness :
    (signTransactionChecked exVersion exRequestC7Both).run ρ0 =
      ([], .error (.malformedRequest
        "CIP36 registration: both vote key and delegations supplied")) :=
  (claim_C7_cip36_vote_key_xor exVersion exRequestC7Both ρ0 exCVoteParamsBoth
    rfl).1 rfl rfl

/-- C9 counterexample: the validity-interval-start message is sent with
`expectedResponseLength` unset (the TS call omits the argument), not with
an explicit zero, refuting "every message carries an
expectedResponseLength that is either 0 or an exact positive count". -/
theorem claim_C9_counterexample :
    send P1_STAGE_VALIDITY_INTERVAL_START 0x00 (serializeTxValidityStart 5) none ∈
      ((signTransaction exVersion exRequestC9).run ρ0).1 ∧
    (((signTransaction exVersion exRequestC9).run ρ0).1.filter
      (fun m => m.expectedResponseLength.isNone)).length = 1 := by
  refine ⟨by decide, by decide⟩

/-- C9 (amended): every message yielded by `signTransaction` either
expects a zero-length response, or is one of the two messages sent with
the expected length unset (validity-interval start, script data hash), or
is one of the three messages with a positive expected count: the
voting-registration confirm (hash length plus 64 signature bytes, the
response being split as hash then signature), the CONFIRM message
(transaction hash length) and each WITNESSES message (64 bytes). -/
theorem claim_C9_amended :
    (∀ v r ρ m, m ∈ ((signTransaction v r).run ρ).1 → msgResponseLengthSpec m) ∧
    (∀ params v ρ, (cip36HasVoteKey params || params.delegations.isSome) = true →
      ∃ k, ((signTx_setAuxiliaryData (.cip36Registration params) v).run ρ).2 =
        .ok (some
          { auxiliaryDataHashHex := (ρ k).take AUXILIARY_DATA_HASH_LENGTH,
            cip36VoteRegistrationSignatureHex :=
              ((ρ k).drop AUXILIARY_DATA_HASH_LENGTH).take
                ED25519_SIGNATURE_LENGTH })) := by
  constructor
  · intro v r ρ m hm
    rw [run_signTransaction_fst] at hm
    exact mem_txAllMessages_responseLength hm
  · intro params v ρ hwf
    obtain ⟨k, hk⟩ := run_setAux_cip36_ok params v ρ hwf
    exact ⟨k, by rw [hk]⟩

/-- C9 amended witness: the validity message of the C9 fixture satisfies
the response-length classification, and the voting-registration stage of
the vote-key fixture returns the split hash/signature supplement. -/
theorem claim_C9_amended_witness :
    msgResponseLengthSpec
      (send P1_STAGE_VALIDITY_INTERVAL_START 0x00
        (serializeTxValidityStart 5) none) ∧
    ∃ k, ((signTx_setAuxiliaryData (.cip36Registration exCVoteParamsKey)
        exVersion).run ρ1).2 =
      .ok (some
        { auxiliaryDataHashHex := (ρ1 k).take AUXILIARY_DATA_HASH_LENGTH,
          cip36VoteRegistrationSignatureHex :=
            ((ρ1 k).drop AUXILIARY_DATA_HASH_LENGTH).take
              ED25519_SIGNATURE_LENGTH }) :=
  ⟨claim_C9_amended.1 exVersion exRequestC9 ρ0
      (send P1_STAGE_VALIDITY_INTERVAL_START 0x00
        (serializeTxValidityStart 5) none) (by decide),
   claim_C9_amended.2 exCVoteParamsKey exVersion ρ1 (by decide)⟩

/-- C4: `uniquify` (hence `gatherWitnessPaths`) keeps each distinct path
exactly once (no duplicates, same membership), positioned by first
occurrence in the input concatenation, and is idempotent; and on every
run of a ceremony that completes, the WITNESSES messages yielded by
`signTransaction` are exactly one per entry of the collected list, in
its order. -/
theorem claim_C4_dedup_first_occurrence (l : List BIP32Path)
    (v : Version) (r : ParsedSigningRequest) (ρ : Nat → Bytes)
    (hcomp : ceremonyCompletes v r) :
    (uniquify l).Nodup ∧
    (∀ p, p ∈ uniquify l ↔ p ∈ l) ∧
    List.Pairwise (fun a b => firstIdx a l < firstIdx b l) (uniquify l) ∧
    uniquify (uniquify l) = uniquify l ∧
    ((signTransaction v r).run ρ).1.filter
        (fun m => m.p1 == P1_STAGE_WITNESSES) =
      (gatherWitnessPaths r).map witnessMsg := by
  refine ⟨nodup_uniquify l, fun p => mem_uniquify, pairwise_uniquify l,
    uniquify_idempotent l, ?_⟩
  rw [run_signTransaction_fst]
  obtain ⟨P, hsplit, hne⟩ := txAllMessages_completes_split v r hcomp
  rw [hsplit]
  exact filter_witness_eq P _ hne

/-- C4 witness: a concrete duplicated path list is deduplicated to its
first occurrences, and the C1 fixture's run yields exactly the collected
witness messages at the WITNESSES stage. -/
theorem claim_C4_dedup_first_occurrence_witness :
    (uniquify [[0], [1], [0]]).Nodup ∧
    (∀ p, p ∈ uniquify [[0], [1], [0]] ↔ p ∈ [[0], [1], [0]]) ∧
    List.Pairwise
      (fun a b => firstIdx a [[0], [1], [0]] < firstIdx b [[0], [1], [0]])
      (uniquify [[0], [1], [0]]) ∧
    uniquify (uniquify [[0], [1], [0]]) = uniquify [[0], [1], [0]] ∧
    ((signTransaction exVersion exRequestC1).run ρ0).1.filter
        (fun m => m.p1 == P1_STAGE_WITNESSES) =
      (gatherWitnessPaths exRequestC1).map witnessMsg :=
  claim_C4_dedup_first_occurrence [[0], [1], [0]] exVersion exRequestC1 ρ0
    ⟨rfl, rfl, trivial⟩

/-- C1: for a transaction with exactly two inputs, one plain output, one
stake-delegation certificate, one withdrawal and no optional fields, the
message sequence of `signTransaction` is exactly INIT, INPUTS×2, the
output's basic-data and confirm messages, FEE, CERTIFICATES×1,
WITHDRAWALS×1, CONFIRM, then one WITNESSES message per distinct path
collected from the two inputs, the certificate and the withdrawal, in
collector order. -/
theorem claim_C1_stage_sequence
    (v : Version) (r : ParsedSigningRequest) (ρ : Nat → Bytes)
    (i1 i2 : ParsedInput) (o : ParsedOutput)
    (cred : StakeCredential) (poolKeyHash : Bytes) (w : ParsedWithdrawal)
    (hc : v.compatible = true)
    (hval : ensureRequestSupportedByAppVersion v r = none)
    (hin : r.tx.inputs = [i1, i2])
    (hout : r.tx.outputs = [o])
    (htb : o.tokenBundle = []) (hdat : o.datum = none)
    (hrs : o.referenceScriptHex = none)
    (hcert : r.tx.certificates = [.stakeDelegation cred poolKeyHash])
    (hwd : r.tx.withdrawals = [w])
    (httl : r.tx.ttl = none) (haux : r.tx.auxiliaryData = none)
    (hmint : r.tx.mint = none) (hsdh : r.tx.scriptDataHashHex = none)
    (hci : r.tx.collateralInputs = []) (hco : r.tx.collateralOutput = none)
    (htc : r.tx.totalCollateral = none) (hrsg : r.tx.requiredSigners = [])
    (hri : r.tx.referenceInputs = []) (hvs : r.tx.validityIntervalStart = none)
    (hmode : r.signingMode = .ORDINARY_TRANSACTION)
    (hadd : r.additionalWitnessPaths = []) :
    ((signTransaction v r).run ρ).1 =
      initMsgs r.tx r.signingMode (gatherWitnessPaths r) v ++
      inputMsgs i1 ++ inputMsgs i2 ++
      [send P1_STAGE_OUTPUTS 0x30 (serializeTxOutputBasicParams o v) (some 0),
       send P1_STAGE_OUTPUTS 0x33 [] (some 0)] ++
      feeMsgs r.tx.fee ++
      certificateMsgs v (.stakeDelegation cred poolKeyHash) ++
      withdrawalMsgs v w ++
      [confirmMsg] ++
      (gatherWitnessPaths r).map witnessMsg ∧
    gatherWitnessPaths r =
      uniquify (i1.path.toList ++ i2.path.toList ++
        certificateWitnessPaths (.stakeDelegation cred poolKeyHash) ++
        (match w.stakeCredential with
         | StakeCredential.keyPath p => [p]
         | _ => [])) := by
  constructor
  · rw [run_signTransaction_fst]
    simp [txAllMessages, hc, hval, haux, ite_self, txBodyPreAuxMsgs,
      txTailMsgs, txTailPreMsgs, hin, hout, hcert, hwd, httl, hvs, hmint,
      hsdh, hci, hco, htc, hrsg, hri, outputMsgs, tokenBundleMsgs, htb,
      hdat, hrs, optMsgs, List.append_assoc]
  · rw [gatherWitnessPaths, hmode, hin, hcert, hwd, hrsg, hci, hadd]
    obtain ⟨wcred, wamt⟩ := w
    cases hp1 : i1.path <;> cases hp2 : i2.path <;> cases wcred <;>
      simp [certificateWitnessPaths, List.filterMap, hp1, hp2,
        List.append_assoc]

/-- C1 witness: the two-input/one-output/one-delegation/one-withdrawal
fixture yields exactly the stated stage sequence, and its collected
paths are the deduplicated input, certificate and withdrawal paths. -/
theorem claim_C1_stage_sequence_witness :
    ((signTransaction exVersion exRequestC1).run ρ0).1 =
      initMsgs exRequestC1.tx exRequestC1.signingMode
        (gatherWitnessPaths exRequestC1) exVersion ++
      inputMsgs exInput1 ++ inputMsgs exInput2 ++
      [send P1_STAGE_OUTPUTS 0x30
        (serializeTxOutputBasicParams exOutput exVersion) (some 0),
       send P1_STAGE_OUTPUTS 0x33 [] (some 0)] ++
      feeMsgs exRequestC1.tx.fee ++
      certificateMsgs exVersion
        (.stakeDelegation (.keyPath [2147485500, 2147485463, 2147483648, 2, 0])
          (List.replicate 28 0x44)) ++
      withdrawalMsgs exVersion exWithdrawal ++
      [confirmMsg] ++
      (gatherWitnessPaths exRequestC1).map witnessMsg ∧
    gatherWitnessPaths exRequestC1 =
      uniquify (exInput1.path.toList ++ exInput2.path.toList ++
        certificateWitnessPaths
          (.stakeDelegation (.keyPath [2147485500, 2147485463, 2147483648, 2, 0])
            (List.replicate 28 0x44)) ++
        (match exWithdrawal.stakeCredential with
         | StakeCredential.keyPath p => [p]
         | _ => [])) :=
  claim_C1_stage_sequence exVersion exRequestC1 ρ0 exInput1 exInput2 exOutput
    (.keyPath [2147485500, 2147485463, 2147483648, 2, 0])
    (List.replicate 28 0x44) exWithdrawal rfl rfl rfl rfl rfl rfl rfl rfl rfl
    rfl rfl rfl rfl rfl rfl rfl rfl rfl rfl rfl rfl

theorem p1_ne_aux_of_tail {v : Version} {r : ParsedSigningRequest}
    {m : SendParams} (h : m ∈ txTailMsgs v r) : m.p1 ≠ P1_STAGE_AUX_DATA := by
  rw [txTailMsgs] at h
  rcases List.mem_append.mp h with h1 | h1
  · rcases List.mem_append.mp h1 with h2 | h2
    · exact (p1_ne_of_tailPre h2).2
    · rcases List.mem_singleton.mp h2 with rfl
      decide
  · obtain ⟨p, _, rfl⟩ := List.mem_map.mp h1
    simp [witnessMsg, send, P1_STAGE_WITNESSES, P1_STAGE_AUX_DATA]

/-- C8: with auxiliary data present, exactly one AUX_DATA stage occurs:
when the version's capability flags place it before the tx body, its
messages (all at the AUX_DATA stage) come immediately after INIT and
before every body message; otherwise the data must be an arbitrary hash
and a single hash-carrying AUX_DATA message sits between the
withdrawals-final body segment and the tail stages, with the returned
auxiliary-data supplement null; the two placements are governed by the
same flag and never both occur, and with no auxiliary data no AUX_DATA
message occurs at all. -/
theorem claim_C8_aux_data_placement (v : Version) (r : ParsedSigningRequest)
    (ρ : Nat → Bytes) (hc : v.compatible = true)
    (hval : ensureRequestSupportedByAppVersion v r = none) :
    (∀ aux, r.tx.auxiliaryData = some aux → auxRunOk aux = true →
      (auxDataBeforeTxBody v = true →
        ((signTransaction v r).run ρ).1 =
          initMsgs r.tx r.signingMode (gatherWitnessPaths r) v ++
          auxDataMsgs v aux ++ txBodyPreAuxMsgs v r.tx ++ txTailMsgs v r ∧
        (∀ m ∈ initMsgs r.tx r.signingMode (gatherWitnessPaths r) v,
          m.p1 = P1_STAGE_INIT) ∧
        (∀ m ∈ auxDataMsgs v aux, m.p1 = P1_STAGE_AUX_DATA) ∧
        (∀ m ∈ txBodyPreAuxMsgs v r.tx ++ txTailMsgs v r,
          m.p1 ≠ P1_STAGE_AUX_DATA)) ∧
      (auxDataBeforeTxBody v = false →
        ∃ hx, aux = .arbitraryHash hx ∧
          ((signTransaction v r).run ρ).1 =
            initMsgs r.tx r.signingMode (gatherWitnessPaths r) v ++
            txBodyPreAuxMsgs v r.tx ++ [legacyAuxMsg hx] ++ txTailMsgs v r ∧
          (legacyAuxMsg hx).p1 = P1_STAGE_AUX_DATA ∧
          (legacyAuxMsg hx).data = hx ∧
          (∀ m ∈ initMsgs r.tx r.signingMode (gatherWitnessPaths r) v ++
              txBodyPreAuxMsgs v r.tx ++ txTailMsgs v r,
            m.p1 ≠ P1_STAGE_AUX_DATA) ∧
          ∀ res, ((signTransaction v r).run ρ).2 = .ok res →
            res.auxiliaryDataSupplement = none)) ∧
    (r.tx.auxiliaryData = none →
      ∀ m ∈ ((signTransaction v r).run ρ).1, m.p1 ≠ P1_STAGE_AUX_DATA) := by
  have hinit : ∀ m ∈ initMsgs r.tx r.signingMode (gatherWitnessPaths r) v,
      m.p1 = P1_STAGE_INIT := by
    intro m hm
    rcases List.mem_singleton.mp hm with rfl
    rfl
  have hbodytail : ∀ m ∈ txBodyPreAuxMsgs v r.tx ++ txTailMsgs v r,
      m.p1 ≠ P1_STAGE_AUX_DATA := by
    intro m hm
    rcases List.mem_append.mp hm with h1 | h1
    · exact (p1_ne_of_body h1).2
    · exact p1_ne_aux_of_tail h1
  constructor
  · intro aux haux hro
    constructor
    · intro hb
      refine ⟨?_, hinit, fun m hm => (mem_auxDataMsgs hm).1, hbodytail⟩
      rw [run_signTransaction_fst]
      simp [txAllMessages, hc, hval, haux, hb, hro, List.append_assoc]
    · intro hb
      cases aux with
      | cip36Registration params =>
        exact absurd (legacy_aux_not_cip36 v r params hval hb haux) id
      | arbitraryHash hx =>
        obtain ⟨txh, ws, hrun⟩ :=
          run_signTransaction_legacy_arb v r ρ hx hc hval hb haux
        refine ⟨hx, rfl, ?_, rfl, rfl, ?_, ?_⟩
        · rw [run_signTransaction_fst]
          simp [txAllMessages, hc, hval, haux, hb, List.append_assoc]
        · intro m hm
          rcases List.mem_append.mp hm with h1 | h1
          · rcases List.mem_append.mp h1 with h2 | h2
            · rw [hinit m h2]
              decide
            · exact (p1_ne_of_body h2).2
          · exact p1_ne_aux_of_tail h1
        · intro res hres
          rw [hrun] at hres
          have h9 := Except.ok.inj hres
          rw [← h9]
  · intro haux m hm
    rw [run_signTransaction_fst] at hm
    have hm2 : m ∈ initMsgs r.tx r.signingMode (gatherWitnessPaths r) v ++
        (txBodyPreAuxMsgs v r.tx ++ txTailMsgs v r) := by
      rw [txAllMessages, if_neg (by simp [hc]), hval] at hm
      simpa [haux, ite_self] using hm
    rcases List.mem_append.mp hm2 with h1 | h1
    · rw [hinit m h1]
      decide
    · exact hbodytail m h1

/-- C8 witness: on a version supporting CIP36, the registration fixture
places the AUX_DATA stage immediately after INIT and before the body. -/
theorem claim_C8_aux_data_placement_witness :
    ((signTransaction exVersion exRequestC8Cip36).run ρ1).1 =
      initMsgs exRequestC8Cip36.tx exRequestC8Cip36.signingMode
        (gatherWitnessPaths exRequestC8Cip36) exVersion ++
      auxDataMsgs exVersion (.cip36Registration exCVoteParamsKey) ++
      txBodyPreAuxMsgs exVersion exRequestC8Cip36.tx ++
      txTailMsgs exVersion exRequestC8Cip36 :=
  (((claim_C8_aux_data_placement exVersion exRequestC8Cip36 ρ1 rfl rfl).1
    (.cip36Registration exCVoteParamsKey) rfl rfl).1 rfl).1

theorem tokenBundleMsgs_p2 {T : Type} {tb : List (ParsedAssetGroup T)} {p1 : Nat}
    {ser : T → Bytes} {m : SendParams} (h : m ∈ tokenBundleMsgs tb p1 ser) :
    m.p2 = 0x31 ∨ m.p2 = 0x32 := by
  simp only [tokenBundleMsgs, List.mem_flatMap, List.mem_cons, List.mem_map] at h
  obtain ⟨ag, _, h⟩ := h
  rcases h with rfl | ⟨t, _, rfl⟩
  · exact Or.inl rfl
  · exact Or.inr rfl

theorem scriptChunkFilter_nil {L : List SendParams}
    (h : ∀ m ∈ L, m.p1 ≠ P1_STAGE_OUTPUTS ∨ m.p2 ≠ 0x37) :
    L.filter (fun m => m.p1 == P1_STAGE_OUTPUTS && m.p2 == 0x37) = [] := by
  rw [List.filter_eq_nil_iff]
  intro m hm
  rcases h m hm with h1 | h1 <;> simp [h1]

/-- C2: for a chunked output payload of byte length L > MAX_CHUNK_SIZE,
after the initiating message carrying the first MAX_CHUNK_SIZE bytes
inline, exactly ceil((L − MAX_CHUNK_SIZE) / MAX_CHUNK_SIZE) continuation
chunk messages follow, each at the OUTPUTS stage with the chunk sub-tag,
a zero expected response, and a 4-byte length prefix followed by at most
MAX_CHUNK_SIZE raw bytes; stripping the prefixes and reconcatenating
after the inline slice reproduces the original bytes; payloads at or
below the limit produce zero chunk messages; and in a full ceremony with
one reference-script output the reference-script chunk messages are
exactly that many. -/
theorem claim_C2_chunking (bytes : Bytes) (p2 : Nat)
    (hL : MAX_CHUNK_SIZE < bytes.length) :
    (signTx_addOutput_sendChunks bytes p2).length =
      (bytes.length - MAX_CHUNK_SIZE + MAX_CHUNK_SIZE - 1) / MAX_CHUNK_SIZE ∧
    (∀ m ∈ signTx_addOutput_sendChunks bytes p2,
      m.p1 = P1_STAGE_OUTPUTS ∧ m.p2 = p2 ∧ m.expectedResponseLength = some 0 ∧
      ∃ chunk : Bytes, m.data = uint32_to_buf chunk.length ++ chunk ∧
        chunk.length ≤ MAX_CHUNK_SIZE) ∧
    bytes.take MAX_CHUNK_SIZE ++
      ((signTx_addOutput_sendChunks bytes p2).map chunkPayload).flatten = bytes ∧
    serializeTxOutputRefScript bytes =
      uint32_to_buf bytes.length ++ bytes.take MAX_CHUNK_SIZE ∧
    (∀ other : Bytes, other.length ≤ MAX_CHUNK_SIZE →
      signTx_addOutput_sendChunks other p2 = []) ∧
    (∀ v r ρ o, v.compatible = true →
      ensureRequestSupportedByAppVersion v r = none →
      r.tx.auxiliaryData = none → r.tx.outputs = [o] →
      o.datum = none → o.referenceScriptHex = some bytes →
      (((signTransaction v r).run ρ).1.filter
        (fun m => m.p1 == P1_STAGE_OUTPUTS && m.p2 == 0x37)).length =
        (bytes.length - MAX_CHUNK_SIZE + MAX_CHUNK_SIZE - 1) / MAX_CHUNK_SIZE) := by
  have hC : (0 : Nat) < MAX_CHUNK_SIZE := by decide
  refine ⟨sendChunksMsgs_length MAX_CHUNK_SIZE bytes p2 hC hL, ?_,
    sendChunksMsgs_join MAX_CHUNK_SIZE bytes p2 hC, rfl,
    fun other h => sendChunksMsgs_nil MAX_CHUNK_SIZE other p2 h, ?_⟩
  · intro m hm
    rw [signTx_addOutput_sendChunks, sendChunksMsgs] at hm
    exact mem_sendChunksFrom hm
  · intro v r ρ o hc hval haux hout hdat hrs
    rw [run_signTransaction_fst]
    have hmsgs : txAllMessages v r =
        initMsgs r.tx r.signingMode (gatherWitnessPaths r) v ++
        (txBodyPreAuxMsgs v r.tx ++ txTailMsgs v r) := by
      rw [txAllMessages, if_neg (by simp [hc]), hval]
      simp [haux, ite_self]
    have hbody : txBodyPreAuxMsgs v r.tx =
        r.tx.inputs.flatMap inputMsgs ++ outputMsgs v o ++
        feeMsgs r.tx.fee ++ optMsgs r.tx.ttl ttlMsgs ++
        r.tx.certificates.flatMap (certificateMsgs v) ++
        r.tx.withdrawals.flatMap (withdrawalMsgs v) := by
      rw [txBodyPreAuxMsgs, hout]
      simp
    have houtput : outputMsgs v o =
        ([send P1_STAGE_OUTPUTS 0x30 (serializeTxOutputBasicParams o v) (some 0)] ++
          tokenBundleMsgs o.tokenBundle P1_STAGE_OUTPUTS uint64_to_buf ++
          [send P1_STAGE_OUTPUTS 0x36 (serializeTxOutputRefScript bytes) (some 0)]) ++
        signTx_addOutput_sendChunks bytes 0x37 ++
        [send P1_STAGE_OUTPUTS 0x33 [] (some 0)] := by
      rw [outputMsgs, hdat, hrs]
      simp [hL, List.append_assoc]
    have hfInit : (initMsgs r.tx r.signingMode (gatherWitnessPaths r) v).filter
        (fun m => m.p1 == P1_STAGE_OUTPUTS && m.p2 == 0x37) = [] := by
      apply scriptChunkFilter_nil
      intro m hm
      rcases List.mem_singleton.mp hm with rfl
      exact Or.inl (by simp [send, P1_STAGE_INIT, P1_STAGE_OUTPUTS])
    have hfInputs : (r.tx.inputs.flatMap inputMsgs).filter
        (fun m => m.p1 == P1_STAGE_OUTPUTS && m.p2 == 0x37) = [] := by
      apply scriptChunkFilter_nil
      intro m hm
      obtain ⟨i, _, hmi⟩ := List.mem_flatMap.mp hm
      rcases List.mem_singleton.mp hmi with rfl
      exact Or.inl (by simp [send, inputMsgs, P1_STAGE_INPUTS, P1_STAGE_OUTPUTS])
    have hfOutHead : (([send P1_STAGE_OUTPUTS 0x30
          (serializeTxOutputBasicParams o v) (some 0)] ++
        tokenBundleMsgs o.tokenBundle P1_STAGE_OUTPUTS uint64_to_buf ++
        [send P1_STAGE_OUTPUTS 0x36 (serializeTxOutputRefScript bytes)
          (some 0)]).filter
        (fun m => m.p1 == P1_STAGE_OUTPUTS && m.p2 == 0x37)) = [] := by
      apply scriptChunkFilter_nil
      intro m hm
      rcases List.mem_append.mp hm with h1 | h1
      · rcases List.mem_append.mp h1 with h2 | h2
        · rcases List.mem_singleton.mp h2 with rfl
          exact Or.inr (by simp [send])
        · rcases tokenBundleMsgs_p2 h2 with h3 | h3 <;>
            exact Or.inr (by rw [h3]; decide)
      · rcases List.mem_singleton.mp h1 with rfl
        exact Or.inr (by simp [send])
    have hfChunks : (signTx_addOutput_sendChunks bytes 0x37).filter
        (fun m => m.p1 == P1_STAGE_OUTPUTS && m.p2 == 0x37) =
        signTx_addOutput_sendChunks bytes 0x37 := by
      rw [List.filter_eq_self]
      intro m hm
      rw [signTx_addOutput_sendChunks, sendChunksMsgs] at hm
      obtain ⟨h1, h2, _⟩ := mem_sendChunksFrom hm
      simp [h1, h2]
    have hfOutConfirm : ([send P1_STAGE_OUTPUTS 0x33 [] (some 0)].filter
        (fun m => m.p1 == P1_STAGE_OUTPUTS && m.p2 == 0x37)) = [] := by
      apply scriptChunkFilter_nil
      intro m hm
      rcases List.mem_singleton.mp hm with rfl
      exact Or.inr (by decide)
    have hfFee : (feeMsgs r.tx.fee).filter
        (fun m => m.p1 == P1_STAGE_OUTPUTS && m.p2 == 0x37) = [] := by
      apply scriptChunkFilter_nil
      intro m hm
      rcases List.mem_singleton.mp hm with rfl
      exact Or.inl (by simp [send, feeMsgs, P1_STAGE_FEE, P1_STAGE_OUTPUTS])
    have hfTtl : (optMsgs r.tx.ttl ttlMsgs).filter
        (fun m => m.p1 == P1_STAGE_OUTPUTS && m.p2 == 0x37) = [] := by
      apply scriptChunkFilter_nil
      intro m hm
      obtain ⟨t, _, hmt⟩ := mem_optMsgs hm
      rcases List.mem_singleton.mp hmt with rfl
      exact Or.inl (by simp [send, ttlMsgs, P1_STAGE_TTL, P1_STAGE_OUTPUTS])
    have hfCerts : (r.tx.certificates.flatMap (certificateMsgs v)).filter
        (fun m => m.p1 == P1_STAGE_OUTPUTS && m.p2 == 0x37) = [] := by
      apply scriptChunkFilter_nil
      intro m hm
      obtain ⟨c, _, hmc⟩ := List.mem_flatMap.mp hm
      exact Or.inl (by rw [(mem_certificateMsgs hmc).1]; decide)
    have hfWith : (r.tx.withdrawals.flatMap (withdrawalMsgs v)).filter
        (fun m => m.p1 == P1_STAGE_OUTPUTS && m.p2 == 0x37) = [] := by
      apply scriptChunkFilter_nil
      intro m hm
      obtain ⟨w, _, hmw⟩ := List.mem_flatMap.mp hm
      rcases List.mem_singleton.mp hmw with rfl
      exact Or.inl
        (by simp [send, withdrawalMsgs, P1_STAGE_WITHDRAWALS, P1_STAGE_OUTPUTS])
    have hfTail : (txTailMsgs v r).filter
        (fun m => m.p1 == P1_STAGE_OUTPUTS && m.p2 == 0x37) = [] := by
      apply scriptChunkFilter_nil
      intro m hm
      rcases mem_txTailMsgs hm with h1 | h1 | ⟨p, _, rfl⟩
      · obtain ⟨hp, _⟩ := mem_txTailPreMsgs h1
        rcases hp with h2|h2|h2|h2|h2|h2|h2|h2 <;> exact Or.inl (by rw [h2]; decide)
      · rcases h1 with rfl
        exact Or.inl (by decide)
      · exact Or.inl
          (by simp [witnessMsg, send, P1_STAGE_WITNESSES, P1_STAGE_OUTPUTS])
    rw [hmsgs, hbody, houtput]
    simp only [List.filter_append, hfInit, hfInputs, hfOutHead, hfChunks,
      hfOutConfirm, hfFee, hfTtl, hfCerts, hfWith, hfTail, List.append_nil,
      List.nil_append]
    exact sendChunksMsgs_length MAX_CHUNK_SIZE bytes 0x37 hC hL

/-- C2 witness: a 300-byte payload (above the 240-byte chunk limit)
satisfies the chunk count, shape, round-trip and end-to-end filter
properties. -/
theorem claim_C2_chunking_witness :
    (signTx_addOutput_sendChunks (List.replicate 300 0x41) 0x37).length =
      ((List.replicate 300 0x41 : Bytes).length - MAX_CHUNK_SIZE +
        MAX_CHUNK_SIZE - 1) / MAX_CHUNK_SIZE ∧
    (∀ m ∈ signTx_addOutput_sendChunks (List.replicate 300 0x41) 0x37,
      m.p1 = P1_STAGE_OUTPUTS ∧ m.p2 = 0x37 ∧ m.expectedResponseLength = some 0 ∧
      ∃ chunk : Bytes, m.data = uint32_to_buf chunk.length ++ chunk ∧
        chunk.length ≤ MAX_CHUNK_SIZE) ∧
    (List.replicate 300 0x41 : Bytes).take MAX_CHUNK_SIZE ++
      ((signTx_addOutput_sendChunks (List.replicate 300 0x41) 0x37).map
        chunkPayload).flatten = List.replicate 300 0x41 ∧
    serializeTxOutputRefScript (List.replicate 300 0x41) =
      uint32_to_buf (List.replicate 300 0x41 : Bytes).length ++
        (List.replicate 300 0x41 : Bytes).take MAX_CHUNK_SIZE ∧
    (∀ other : Bytes, other.length ≤ MAX_CHUNK_SIZE →
      signTx_addOutput_sendChunks other 0x37 = []) ∧
    (∀ v r ρ o, v.compatible = true →
      ensureRequestSupportedByAppVersion v r = none →
      r.tx.auxiliaryData = none → r.tx.outputs = [o] →
      o.datum = none → o.referenceScriptHex = some (List.replicate 300 0x41) →
      (((signTransaction v r).run ρ).1.filter
        (fun m => m.p1 == P1_STAGE_OUTPUTS && m.p2 == 0x37)).length =
        ((List.replicate 300 0x41 : Bytes).length - MAX_CHUNK_SIZE +
          MAX_CHUNK_SIZE - 1) / MAX_CHUNK_SIZE) :=
  claim_C2_chunking (List.replicate 300 0x41) 0x37
    (by rw [List.length_replicate]; decide)
